import Mathlib

/-!
# markdown-to-ats: the document pipeline, embedded in Lean

A shallow embedding of the JavaScript sources under `src/`:

* `services/htmlGenerator.js`  (`HtmlGeneratorService`)
* `services/styleGenerator.js` (`StyleGeneratorService`) with `constants/styling.js`
* `services/pdfGenerator.js`   (`PdfGeneratorService`) with `config/pdfConfig.js`
* `services/markdownParser.js`, `utils/fileValidator.js`, `constants/messages.js`
* the two entry points `generateCv.js` (`CvGenerator`) and `server.js` (`CvGeneratorServer`)

JavaScript strings are modelled as lists of characters.  Every pattern, replacement and
template of the sources is ASCII, and none of the operations used (literal search, the `\s`
class, `trim`, `endsWith`, concatenation) looks inside a character, so the character-level
model agrees with the UTF-16 code-unit semantics of the engine on well-formed strings.

Effectful code (the headless browser, the file system, the console, the HTTP response) is
modelled by a trace of events together with the outcome of the call; what the outside world
answers is an explicit parameter (`Engine`, `World`).
-/

/-- A JavaScript string value. -/
abbrev JsString := List Char

/-! ## String primitives of the language -/

/-- The character class `\s` of a JavaScript regular expression, which is also the set of
characters removed by `String.prototype.trim` (WhiteSpace and LineTerminator of ECMAScript):
TAB, LF, VT, FF, CR, SPACE, NBSP, U+1680, U+2000..U+200A, LS, PS, U+202F, U+205F, U+3000 and
the byte order mark U+FEFF. -/
def isJsWhitespace (c : Char) : Bool :=
  c.toNat == 0x09 || c.toNat == 0x0A || c.toNat == 0x0B || c.toNat == 0x0C || c.toNat == 0x0D ||
  c.toNat == 0x20 || c.toNat == 0xA0 || c.toNat == 0x1680 ||
  (0x2000 ≤ c.toNat && c.toNat ≤ 0x200A) ||
  c.toNat == 0x2028 || c.toNat == 0x2029 || c.toNat == 0x202F || c.toNat == 0x205F ||
  c.toNat == 0x3000 || c.toNat == 0xFEFF

/-- The scan of `s.replace(/pat/g, rep)` for a non-empty literal pattern `pat` and a
replacement `rep` without `$`: the first argument counts the characters of a match that are
still to be skipped.  At a position where `pat` matches, `rep` is emitted and the scan resumes
after the match; elsewhere the character is copied. -/
def replaceAllFrom (pat rep : JsString) : Nat → JsString → JsString
  | _, [] => []
  | skip + 1, _ :: cs => replaceAllFrom pat rep skip cs
  | 0, c :: cs =>
    if pat.isPrefixOf (c :: cs) then rep ++ replaceAllFrom pat rep (pat.length - 1) cs
    else c :: replaceAllFrom pat rep 0 cs

/-- The call `s.replace(/pat/g, rep)`: every match of the literal `pat`, found left to right
without overlap, is replaced by `rep`. -/
def replaceAll (pat rep s : JsString) : JsString := replaceAllFrom pat rep 0 s

/-- The scan of `s.replace(/\s+/g, ' ')`: the flag tells whether the previous character
belonged to the whitespace run being matched (the greedy `+`).  A run emits one space, at its
first character. -/
def collapseFrom : Bool → JsString → JsString
  | _, [] => []
  | inRun, c :: cs =>
    if isJsWhitespace c then
      if inRun then collapseFrom true cs else ' ' :: collapseFrom true cs
    else c :: collapseFrom false cs

/-- The call `s.replace(/\s+/g, ' ')`. -/
def collapseWhitespace (s : JsString) : JsString := collapseFrom false s

/-- The call `s.trim()`: whitespace is removed from both ends. -/
def trim (s : JsString) : JsString := (s.dropWhile isJsWhitespace).rdropWhile isJsWhitespace

/-- The call `s.endsWith(suffix)`. -/
def endsWith (s suffix : JsString) : Bool := suffix.isSuffixOf s

/-! ## Measuring strings -/

/-- Number of positions of `s` at which the non-empty string `q` occurs. -/
def countOccurrences (q : JsString) : JsString → Nat
  | [] => 0
  | c :: cs => (if q.isPrefixOf (c :: cs) then 1 else 0) + countOccurrences q cs

/-- Some non-empty proper beginning of `q` ends `u`: an occurrence of `q` could start in `u`
and continue in what follows. -/
def crossesLeft (q u : JsString) : Bool :=
  (List.range q.length).any (fun i => decide (0 < i) && (q.take i).isSuffixOf u)

/-- Some non-empty proper end of `q` begins `v`: an occurrence of `q` could start before `v`
and finish inside it. -/
def crossesRight (q v : JsString) : Bool :=
  (List.range q.length).any (fun i => decide (0 < i) && (q.drop i).isPrefixOf v)

/-- Whitespace normal form: every whitespace character is U+0020 and no two whitespace
characters are adjacent. -/
def WsNormal (s : JsString) : Prop :=
  (∀ c ∈ s, isJsWhitespace c = true → c = ' ') ∧
  List.Chain' (fun a b => ¬ (isJsWhitespace a = true ∧ isJsWhitespace b = true)) s

/-! ## `constants/styling.js` -/

namespace COLORS
def PRIMARY : JsString := "#2c3e50".toList
def SECONDARY : JsString := "#3498db".toList
def TEXT_MAIN : JsString := "#333".toList
def TEXT_MUTED : JsString := "#555".toList
def TEXT_LIGHT : JsString := "#7f8c8d".toList
def BORDER : JsString := "#bdc3c7".toList
def BORDER_LIGHT : JsString := "#ecf0f1".toList
def BACKGROUND : JsString := "white".toList
def ACCENT_BACKGROUND : JsString := "#f8f9fa".toList
end COLORS

namespace FONT_SIZES
def MAIN_TITLE : JsString := "24pt".toList
def SECTION_HEADER : JsString := "14pt".toList
def SUBSECTION_HEADER : JsString := "12pt".toList
def BODY_TEXT : JsString := "11pt".toList
def CONTACT_INFO : JsString := "10pt".toList
def PRINT_BODY : JsString := "10pt".toList
def PRINT_TITLE : JsString := "20pt".toList
def PRINT_SECTION : JsString := "12pt".toList
def PRINT_SUBSECTION : JsString := "11pt".toList
end FONT_SIZES

namespace SPACING
def SECTION_MARGIN_TOP : JsString := "20pt".toList
def SECTION_MARGIN_BOTTOM : JsString := "8pt".toList
def SUBSECTION_MARGIN_TOP : JsString := "12pt".toList
def SUBSECTION_MARGIN_BOTTOM : JsString := "3pt".toList
def PARAGRAPH_MARGIN : JsString := "8pt".toList
def LIST_MARGIN : JsString := "10pt".toList
def LIST_ITEM_MARGIN : JsString := "3pt".toList
def LIST_PADDING : JsString := "15pt".toList
def BORDER_WIDTH : JsString := "2pt".toList
def THIN_BORDER : JsString := "1pt".toList
def ACCENT_BORDER : JsString := "3pt".toList
end SPACING

namespace FONTS
def PRIMARY : JsString := "\x27Arial\x27, \x27Helvetica\x27, sans-serif".toList
def FALLBACK : JsString := "Arial, Helvetica, sans-serif".toList
end FONTS

namespace LAYOUT
def MAX_WIDTH : JsString := "210mm".toList
def PAGE_MARGIN : JsString := "15mm".toList
def PRINT_MARGIN : JsString := "10mm".toList
def LINE_HEIGHT : JsString := "1.4".toList
end LAYOUT

/-! ## `services/styleGenerator.js` -/

namespace StyleGeneratorService

/-- Embeds the template literal of StyleGeneratorService._generateBaseStyles, one source line per row. -/
def _generateBaseStyles : JsString :=
  "\n".toList
  ++ "            * \x7b\n".toList
  ++ "                margin: 0;\n".toList
  ++ "                padding: 0;\n".toList
  ++ "                box-sizing: border-box;\n".toList
  ++ "            \x7d\n".toList
  ++ "            \n".toList
  ++ "            body \x7b\n".toList
  ++ "                font-family: ".toList ++ FONTS.PRIMARY ++ ";\n".toList
  ++ "                font-size: ".toList ++ FONT_SIZES.BODY_TEXT ++ ";\n".toList
  ++ "                line-height: ".toList ++ LAYOUT.LINE_HEIGHT ++ ";\n".toList
  ++ "                color: ".toList ++ COLORS.TEXT_MAIN ++ ";\n".toList
  ++ "                background: ".toList ++ COLORS.BACKGROUND ++ ";\n".toList
  ++ "                max-width: ".toList ++ LAYOUT.MAX_WIDTH ++ ";\n".toList
  ++ "                margin: 0 auto;\n".toList
  ++ "                padding: ".toList ++ LAYOUT.PAGE_MARGIN ++ ";\n".toList
  ++ "            \x7d\n".toList
  ++ "        ".toList

/-- Embeds the template literal of StyleGeneratorService._generateHeaderStyles, one source line per row. -/
def _generateHeaderStyles : JsString :=
  "\n".toList
  ++ "            h1 \x7b\n".toList
  ++ "                font-size: ".toList ++ FONT_SIZES.MAIN_TITLE ++ ";\n".toList
  ++ "                font-weight: bold;\n".toList
  ++ "                color: ".toList ++ COLORS.PRIMARY ++ ";\n".toList
  ++ "                margin-bottom: 5pt;\n".toList
  ++ "                text-align: center;\n".toList
  ++ "                border-bottom: ".toList ++ SPACING.BORDER_WIDTH ++ " solid ".toList ++ COLORS.SECONDARY ++ ";\n".toList
  ++ "                padding-bottom: 8pt;\n".toList
  ++ "            \x7d\n".toList
  ++ "            \n".toList
  ++ "            h2 \x7b\n".toList
  ++ "                font-size: ".toList ++ FONT_SIZES.SECTION_HEADER ++ ";\n".toList
  ++ "                font-weight: bold;\n".toList
  ++ "                color: ".toList ++ COLORS.PRIMARY ++ ";\n".toList
  ++ "                margin-top: ".toList ++ SPACING.SECTION_MARGIN_TOP ++ ";\n".toList
  ++ "                margin-bottom: ".toList ++ SPACING.SECTION_MARGIN_BOTTOM ++ ";\n".toList
  ++ "                padding-bottom: 3pt;\n".toList
  ++ "                border-bottom: ".toList ++ SPACING.THIN_BORDER ++ " solid ".toList ++ COLORS.BORDER ++ ";\n".toList
  ++ "                text-transform: uppercase;\n".toList
  ++ "                letter-spacing: 0.5pt;\n".toList
  ++ "            \x7d\n".toList
  ++ "            \n".toList
  ++ "            h3 \x7b\n".toList
  ++ "                font-size: ".toList ++ FONT_SIZES.SUBSECTION_HEADER ++ ";\n".toList
  ++ "                font-weight: bold;\n".toList
  ++ "                color: ".toList ++ COLORS.PRIMARY ++ ";\n".toList
  ++ "                margin-top: ".toList ++ SPACING.SUBSECTION_MARGIN_TOP ++ ";\n".toList
  ++ "                margin-bottom: ".toList ++ SPACING.SUBSECTION_MARGIN_BOTTOM ++ ";\n".toList
  ++ "            \x7d\n".toList
  ++ "        ".toList

/-- Embeds the template literal of StyleGeneratorService._generateSectionStyles, one source line per row. -/
def _generateSectionStyles : JsString :=
  "\n".toList
  ++ "            body > p:first-of-type \x7b\n".toList
  ++ "                text-align: center;\n".toList
  ++ "                margin-bottom: 15pt;\n".toList
  ++ "                color: ".toList ++ COLORS.TEXT_MUTED ++ ";\n".toList
  ++ "                font-size: ".toList ++ FONT_SIZES.CONTACT_INFO ++ ";\n".toList
  ++ "            \x7d\n".toList
  ++ "            \n".toList
  ++ "            h3 + p strong \x7b\n".toList
  ++ "                color: ".toList ++ COLORS.TEXT_LIGHT ++ ";\n".toList
  ++ "                font-weight: normal;\n".toList
  ++ "                font-style: italic;\n".toList
  ++ "            \x7d\n".toList
  ++ "            \n".toList
  ++ "            hr \x7b\n".toList
  ++ "                border: none;\n".toList
  ++ "                border-top: ".toList ++ SPACING.THIN_BORDER ++ " solid ".toList ++ COLORS.BORDER_LIGHT ++ ";\n".toList
  ++ "                margin: 15pt 0;\n".toList
  ++ "            \x7d\n".toList
  ++ "        ".toList

/-- Embeds the template literal of StyleGeneratorService._generateTextStyles, one source line per row. -/
def _generateTextStyles : JsString :=
  "\n".toList
  ++ "            p \x7b\n".toList
  ++ "                margin-bottom: ".toList ++ SPACING.PARAGRAPH_MARGIN ++ ";\n".toList
  ++ "                text-align: justify;\n".toList
  ++ "            \x7d\n".toList
  ++ "            \n".toList
  ++ "            strong \x7b\n".toList
  ++ "                font-weight: bold;\n".toList
  ++ "                color: ".toList ++ COLORS.PRIMARY ++ ";\n".toList
  ++ "            \x7d\n".toList
  ++ "            \n".toList
  ++ "            em \x7b\n".toList
  ++ "                font-style: italic;\n".toList
  ++ "                color: ".toList ++ COLORS.TEXT_LIGHT ++ ";\n".toList
  ++ "            \x7d\n".toList
  ++ "        ".toList

/-- Embeds the template literal of StyleGeneratorService._generateListStyles, one source line per row. -/
def _generateListStyles : JsString :=
  "\n".toList
  ++ "            ul \x7b\n".toList
  ++ "                margin-bottom: ".toList ++ SPACING.LIST_MARGIN ++ ";\n".toList
  ++ "                padding-left: ".toList ++ SPACING.LIST_PADDING ++ ";\n".toList
  ++ "            \x7d\n".toList
  ++ "            \n".toList
  ++ "            li \x7b\n".toList
  ++ "                margin-bottom: ".toList ++ SPACING.LIST_ITEM_MARGIN ++ ";\n".toList
  ++ "                list-style-type: disc;\n".toList
  ++ "            \x7d\n".toList
  ++ "        ".toList

/-- Embeds the template literal of StyleGeneratorService._generateSpecialSectionStyles, one source line per row. -/
def _generateSpecialSectionStyles : JsString :=
  "\n".toList
  ++ "            h2:contains(\"Professional Summary\") + p,\n".toList
  ++ "            h2:contains(\"Summary\") + p \x7b\n".toList
  ++ "                font-style: italic;\n".toList
  ++ "                background-color: ".toList ++ COLORS.ACCENT_BACKGROUND ++ ";\n".toList
  ++ "                padding: 10pt;\n".toList
  ++ "                border-left: ".toList ++ SPACING.ACCENT_BORDER ++ " solid ".toList ++ COLORS.SECONDARY ++ ";\n".toList
  ++ "                margin-bottom: 15pt;\n".toList
  ++ "            \x7d\n".toList
  ++ "            \n".toList
  ++ "            h2:contains(\"Education\") + h3,\n".toList
  ++ "            h2:contains(\"Certifications\") + h3,\n".toList
  ++ "            h2:contains(\"Projects\") + h3 \x7b\n".toList
  ++ "                color: ".toList ++ COLORS.SECONDARY ++ ";\n".toList
  ++ "            \x7d\n".toList
  ++ "        ".toList

/-- Embeds the template literal of StyleGeneratorService._generatePrintStyles, one source line per row. -/
def _generatePrintStyles : JsString :=
  "\n".toList
  ++ "            @media print \x7b\n".toList
  ++ "                body \x7b\n".toList
  ++ "                    padding: ".toList ++ LAYOUT.PRINT_MARGIN ++ ";\n".toList
  ++ "                    font-size: ".toList ++ FONT_SIZES.PRINT_BODY ++ ";\n".toList
  ++ "                \x7d\n".toList
  ++ "                \n".toList
  ++ "                h1 \x7b\n".toList
  ++ "                    font-size: ".toList ++ FONT_SIZES.PRINT_TITLE ++ ";\n".toList
  ++ "                \x7d\n".toList
  ++ "                \n".toList
  ++ "                h2 \x7b\n".toList
  ++ "                    font-size: ".toList ++ FONT_SIZES.PRINT_SECTION ++ ";\n".toList
  ++ "                    page-break-after: avoid;\n".toList
  ++ "                \x7d\n".toList
  ++ "                \n".toList
  ++ "                h3 \x7b\n".toList
  ++ "                    font-size: ".toList ++ FONT_SIZES.PRINT_SUBSECTION ++ ";\n".toList
  ++ "                    page-break-after: avoid;\n".toList
  ++ "                \x7d\n".toList
  ++ "                \n".toList
  ++ "                p, li \x7b\n".toList
  ++ "                    page-break-inside: avoid;\n".toList
  ++ "                \x7d\n".toList
  ++ "                \n".toList
  ++ "                .page-break \x7b\n".toList
  ++ "                    page-break-before: always;\n".toList
  ++ "                \x7d\n".toList
  ++ "            \x7d\n".toList
  ++ "        ".toList

/-- Embeds the template literal of StyleGeneratorService._generateATSOptimizedStyles, one source line per row. -/
def _generateATSOptimizedStyles : JsString :=
  "\n".toList
  ++ "            .contact-info \x7b\n".toList
  ++ "                font-size: ".toList ++ FONT_SIZES.CONTACT_INFO ++ ";\n".toList
  ++ "                text-align: center;\n".toList
  ++ "                margin-bottom: 15pt;\n".toList
  ++ "            \x7d\n".toList
  ++ "            \n".toList
  ++ "            .section \x7b\n".toList
  ++ "                margin-bottom: 20pt;\n".toList
  ++ "            \x7d\n".toList
  ++ "            \n".toList
  ++ "            .job-title \x7b\n".toList
  ++ "                font-weight: bold;\n".toList
  ++ "                color: ".toList ++ COLORS.PRIMARY ++ ";\n".toList
  ++ "            \x7d\n".toList
  ++ "            \n".toList
  ++ "            .company-info \x7b\n".toList
  ++ "                color: ".toList ++ COLORS.TEXT_LIGHT ++ ";\n".toList
  ++ "                font-style: italic;\n".toList
  ++ "                margin-bottom: 5pt;\n".toList
  ++ "            \x7d\n".toList
  ++ "            \n".toList
  ++ "            .achievement \x7b\n".toList
  ++ "                margin-left: 10pt;\n".toList
  ++ "            \x7d\n".toList
  ++ "        ".toList

/-- Embeds the template literal of StyleGeneratorService.generateProfessionalStyles, one source line per row. -/
def generateProfessionalStyles : JsString :=
  "\n".toList
  ++ "            ".toList ++ _generateBaseStyles ++ "\n".toList
  ++ "            ".toList ++ _generateHeaderStyles ++ "\n".toList
  ++ "            ".toList ++ _generateSectionStyles ++ "\n".toList
  ++ "            ".toList ++ _generateTextStyles ++ "\n".toList
  ++ "            ".toList ++ _generateListStyles ++ "\n".toList
  ++ "            ".toList ++ _generateSpecialSectionStyles ++ "\n".toList
  ++ "            ".toList ++ _generatePrintStyles ++ "\n".toList
  ++ "            ".toList ++ _generateATSOptimizedStyles ++ "\n".toList
  ++ "        ".toList

end StyleGeneratorService

/-! ## `services/htmlGenerator.js` -/

namespace HtmlGeneratorService

/-- Embeds `_generateHtmlHead(title, styles)`: the template literal, one source line per row. -/
def _generateHtmlHead (title styles : JsString) : JsString :=
  "<meta charset=\"UTF-8\">\n".toList
  ++ "    <meta name=\"viewport\" content=\"width=device-width, initial-scale=1.0\">\n".toList
  ++ "    <meta name=\"description\" content=\"Professional CV generated from markdown\">\n".toList
  ++ "    <meta name=\"generator\" content=\"Markdown to ATS CV Generator\">\n".toList
  ++ "    <title>".toList ++ title ++ "</title>\n".toList
  ++ "    <style>".toList ++ styles ++ "</style>".toList

/-- Embeds `_buildHtmlDocument(content, styles, title)`: the template literal, one source line
per row. -/
def _buildHtmlDocument (content styles title : JsString) : JsString :=
  "<!DOCTYPE html>\n".toList
  ++ "<html lang=\"en\">\n".toList
  ++ "<head>\n".toList
  ++ "    ".toList ++ _generateHtmlHead title styles ++ "\n".toList
  ++ "</head>\n".toList
  ++ "<body>\n".toList
  ++ "    ".toList ++ content ++ "\n".toList
  ++ "</body>\n".toList
  ++ "</html>".toList

/-- Embeds `generateCompleteDocument(htmlContent, title = 'Professional CV')`; an omitted (or
`undefined`) second argument is `none`. -/
def generateCompleteDocument (htmlContent : JsString) (title : Option JsString) : JsString :=
  let title := title.getD "Professional CV".toList
  let styles := StyleGeneratorService.generateProfessionalStyles
  _buildHtmlDocument htmlContent styles title

/-- Embeds `optimizeForATS(htmlContent)`: four tag rewrites, the whitespace collapse and the
trim, applied in the order of the method chain. -/
def optimizeForATS (htmlContent : JsString) : JsString :=
  trim (collapseWhitespace
    (replaceAll "</em>".toList "</i>".toList
      (replaceAll "<em>".toList "<i>".toList
        (replaceAll "</strong>".toList "</b>".toList
          (replaceAll "<strong>".toList "<b>".toList htmlContent)))))

end HtmlGeneratorService

/-! ## The fixed text of the document template

The document produced by `_buildHtmlDocument` is the title, the stylesheet and the content,
separated by four fixed pieces of text.  They are named here so that facts about the template
can be computed on closed strings. -/

/-- Template text of the head up to and including the `<title>` tag. -/
def headBeforeTitle : JsString :=
  "<meta charset=\"UTF-8\">\n".toList
  ++ "    <meta name=\"viewport\" content=\"width=device-width, initial-scale=1.0\">\n".toList
  ++ "    <meta name=\"description\" content=\"Professional CV generated from markdown\">\n".toList
  ++ "    <meta name=\"generator\" content=\"Markdown to ATS CV Generator\">\n".toList
  ++ "    <title>".toList

/-- Template text from the start of the document up to and including the `<title>` tag. -/
def documentBeforeTitle : JsString :=
  "<!DOCTYPE html>\n".toList
  ++ "<html lang=\"en\">\n".toList
  ++ "<head>\n".toList
  ++ "    ".toList ++ headBeforeTitle

/-- Template text between the title and the stylesheet. -/
def documentBeforeStyles : JsString :=
  "</title>\n".toList ++ "    <style>".toList

/-- Template text between the stylesheet and the content. -/
def documentBeforeContent : JsString :=
  "</style>".toList ++ "\n".toList ++ "</head>\n".toList ++ "<body>\n".toList ++ "    ".toList

/-- Template text after the content. -/
def documentAfterContent : JsString :=
  "\n".toList ++ "</body>\n".toList ++ "</html>".toList

/-! ## JavaScript values, errors and effects -/

/-- JavaScript values, as far as the code observes them: by `typeof`, by truthiness, by strict
equality with a string, and as option objects handed to a library. -/
inductive JsValue where
  | undefined
  | null
  | boolean (b : Bool)
  | number (n : Int)
  | nan
  | string (s : JsString)
  | array (items : List JsValue)
  | object (fields : List (JsString × JsValue))

namespace JsValue

/-- The operator `typeof v`. -/
def typeof : JsValue → JsString
  | undefined => "undefined".toList
  | null => "object".toList
  | boolean _ => "boolean".toList
  | number _ => "number".toList
  | nan => "number".toList
  | string _ => "string".toList
  | array _ => "object".toList
  | object _ => "object".toList

/-- The abstract operation ToBoolean (truthiness): `!v` is its negation. -/
def toBoolean : JsValue → Bool
  | undefined => false
  | null => false
  | boolean b => b
  | number n => n != 0
  | nan => false
  | string s => !s.isEmpty
  | array _ => true
  | object _ => true

/-- The comparison `v === 'text'` against a string. -/
def strictEqualsString : JsValue → JsString → Bool
  | string s, t => s == t
  | _, _ => false

/-- Writes `key: value` into a list of properties: an existing key keeps its position and
takes the new value, a new key is appended. -/
def setProperty : List (JsString × JsValue) → JsString → JsValue → List (JsString × JsValue)
  | [], key, value => [(key, value)]
  | (k, v) :: rest, key, value =>
    if k == key then (k, value) :: rest else (k, v) :: setProperty rest key value

/-- The object literal `{ ...fields, ...source }`: the properties of `source` are written in
order over `fields`. -/
def spread (fields source : List (JsString × JsValue)) : List (JsString × JsValue) :=
  source.foldl (fun acc kv => setProperty acc kv.1 kv.2) fields

/-- The property read `o.key` (`undefined` when absent). -/
def getProperty : List (JsString × JsValue) → JsString → JsValue
  | [], _ => undefined
  | (k, v) :: rest, key => if k == key then v else getProperty rest key

end JsValue

/-- A thrown `Error` object, observed through its `message`. -/
structure JsError where
  message : JsString

/-- The methods of `utils/logger.js` that the pipeline calls. -/
inductive LogLevel where
  | info
  | success
  | error
  | warning
  | title

/-- What the program does to the outside world, in order. -/
inductive Event where
  | log (level : LogLevel) (message : JsString)
  | launch (config : JsValue)
  | newPage
  | setContent (html : JsString) (options : JsValue)
  | pdf (options : JsValue)
  | close
  | existsSync (path : JsString)
  | readFileSync (path : JsString) (encoding : JsString)
  | unlinkSync (path : JsString)
  | respond (status : Nat) (body : JsValue)
  | exit (code : Nat)

namespace Event

/-- The event is a call of `puppeteer.launch`. -/
def isLaunch : Event → Bool
  | launch _ => true
  | _ => false

/-- The event is a call of `page.pdf`. -/
def isPdf : Event → Bool
  | pdf _ => true
  | _ => false

/-- The event is a call of `browser.close`. -/
def isClose : Event → Bool
  | close => true
  | _ => false

end Event

/-- A finished computation: the events it performed and either its value or the error it
threw. -/
structure Run (α : Type) where
  trace : List Event
  result : Except JsError α

namespace Run

/-- A computation that returns `a` without any effect. -/
def ret {α : Type} (a : α) : Run α := ⟨[], .ok a⟩

/-- The statement `throw e`. -/
def throw {α : Type} (e : JsError) : Run α := ⟨[], .error e⟩

/-- Sequencing: the second computation runs only if the first returned. -/
def bind {α β : Type} (x : Run α) (f : α → Run β) : Run β :=
  match x.result with
  | .error e => ⟨x.trace, .error e⟩
  | .ok a => ⟨x.trace ++ (f a).trace, (f a).result⟩

instance : Monad Run where
  pure := ret
  bind := bind

/-- A pure call that may throw. -/
def ofExcept {α : Type} (r : Except JsError α) : Run α := ⟨[], r⟩

/-- An effect without result. -/
def emit (e : Event) : Run Unit := ⟨[e], .ok ()⟩

/-- A call into the outside world: the event, and what the world answered. -/
def call {α : Type} (e : Event) (answer : Except JsError α) : Run α := ⟨[e], answer⟩

/-- The statement `try { body } catch (error) { handler(error) }`. -/
def tryCatch {α : Type} (body : Run α) (handler : JsError → Run α) : Run α :=
  match body.result with
  | .ok _ => body
  | .error e => ⟨body.trace ++ (handler e).trace, (handler e).result⟩

/-- The statement `try { body } finally { finalizer }`: the finalizer always runs, and an
error thrown by it replaces the outcome of the body. -/
def tryFinally {α : Type} (body : Run α) (finalizer : Run Unit) : Run α :=
  match finalizer.result with
  | .ok _ => ⟨body.trace ++ finalizer.trace, body.result⟩
  | .error e => ⟨body.trace ++ finalizer.trace, .error e⟩

end Run

/-- What the headless browser answers to each call of one render. -/
structure Engine where
  launch : Except JsError Unit
  newPage : Except JsError Unit
  setContent : JsString → JsValue → Except JsError Unit
  pdf : JsValue → Except JsError Unit
  close : Except JsError Unit

/-- What the environment answers: the browser, the file system, the markdown library, the
clock and the path library. -/
structure World where
  engine : Engine
  existsSync : JsString → Bool
  readFileSync : JsString → JsString → Except JsError JsString
  unlinkSync : JsString → Except JsError Unit
  marked : JsString → Except JsError JsString
  dateNow : Nat
  isoNow : JsString
  dirname : JsString → JsString
  join : JsString → JsString → JsString

namespace Logger

/-- Embeds `Logger.info`. -/
def info (message : JsString) : Run Unit := Run.emit (.log .info message)

/-- Embeds `Logger.success`. -/
def success (message : JsString) : Run Unit := Run.emit (.log .success message)

/-- Embeds `Logger.error`. -/
def error (message : JsString) : Run Unit := Run.emit (.log .error message)

/-- Embeds `Logger.warning`. -/
def warning (message : JsString) : Run Unit := Run.emit (.log .warning message)

/-- Embeds `Logger.title`. -/
def title (message : JsString) : Run Unit := Run.emit (.log .title message)

end Logger

/-! ## `constants/messages.js` and `config/pdfConfig.js` -/

namespace ERROR_MESSAGES
def FILE_NOT_FOUND (filePath : JsString) : JsString :=
  "Error: File \"".toList ++ filePath ++ "\" does not exist".toList
def INVALID_FILE_TYPE : JsString := "Error: Input file must be a markdown (.md) file".toList
def FILE_READ_ERROR (error : JsString) : JsString := "Error reading file: ".toList ++ error
def PDF_GENERATION_ERROR (error : JsString) : JsString := "Error generating PDF: ".toList ++ error
def BROWSER_LAUNCH_ERROR : JsString := "Failed to launch browser for PDF generation".toList
def CONTENT_PROCESSING_ERROR : JsString := "Failed to process markdown content".toList
end ERROR_MESSAGES

namespace SUCCESS_MESSAGES
def PDF_GENERATED (outputPath : JsString) : JsString :=
  "✓ PDF generated successfully: ".toList ++ outputPath
def BROWSER_LAUNCHED : JsString := "Launching browser...".toList
def PROCESSING_CONTENT : JsString := "Processing content...".toList
def GENERATING_PDF : JsString := "Generating PDF...".toList
def GENERATION_COMPLETED : JsString := "✓ CV generation completed successfully!".toList
end SUCCESS_MESSAGES

namespace CLI_MESSAGES
def GENERATION_TITLE : JsString := "=== Professional ATS CV Generator ===".toList
end CLI_MESSAGES

/-- Embeds `PDF_CONFIG`. -/
def PDF_CONFIG : List (JsString × JsValue) :=
  [ ("format".toList, .string "A4".toList),
    ("printBackground".toList, .boolean true),
    ("margin".toList, .object
      [ ("top".toList, .string "10mm".toList),
        ("bottom".toList, .string "10mm".toList),
        ("left".toList, .string "10mm".toList),
        ("right".toList, .string "10mm".toList) ]),
    ("preferCSSPageSize".toList, .boolean true) ]

/-- Embeds `BROWSER_CONFIG`. -/
def BROWSER_CONFIG : List (JsString × JsValue) :=
  [ ("headless".toList, .string "new".toList),
    ("args".toList, .array
      [ .string "--no-sandbox".toList,
        .string "--disable-setuid-sandbox".toList,
        .string "--disable-dev-shm-usage".toList,
        .string "--disable-accelerated-2d-canvas".toList,
        .string "--no-first-run".toList,
        .string "--no-zygote".toList,
        .string "--disable-gpu".toList ]) ]

/-- Embeds `PAGE_CONFIG`. -/
def PAGE_CONFIG : List (JsString × JsValue) :=
  [ ("waitUntil".toList, .string "networkidle0".toList),
    ("timeout".toList, .number 30000) ]

/-! ## `services/pdfGenerator.js` -/

namespace PdfGeneratorService

/-- Embeds `_launchBrowser()`: any failure of `puppeteer.launch` is replaced by a new error
with the fixed launch message. -/
def _launchBrowser (engine : Engine) : Run Unit :=
  Run.tryCatch
    (do
      Logger.info SUCCESS_MESSAGES.BROWSER_LAUNCHED
      Run.call (.launch (.object BROWSER_CONFIG)) engine.launch)
    (fun _ => Run.throw ⟨ERROR_MESSAGES.BROWSER_LAUNCH_ERROR⟩)

/-- Embeds `_createPage(browser)`. -/
def _createPage (engine : Engine) : Run Unit :=
  Run.call .newPage engine.newPage

/-- Embeds `_setPageContent(page, htmlContent)`. -/
def _setPageContent (engine : Engine) (htmlContent : JsString) : Run Unit := do
  Logger.info SUCCESS_MESSAGES.PROCESSING_CONTENT
  Run.call (.setContent htmlContent (.object PAGE_CONFIG))
    (engine.setContent htmlContent (.object PAGE_CONFIG))

/-- Embeds `_generatePdf(page, outputPath)`: the options are `{ path: outputPath,
...PDF_CONFIG }`. -/
def _generatePdf (engine : Engine) (outputPath : JsString) : Run Unit := do
  Logger.info SUCCESS_MESSAGES.GENERATING_PDF
  let options := JsValue.object
    (JsValue.spread [("path".toList, .string outputPath)] PDF_CONFIG)
  Run.call (.pdf options) (engine.pdf options)

/-- Embeds `_closeBrowser(browser)`: a failure of `browser.close` is logged and swallowed. -/
def _closeBrowser (engine : Engine) : Run Unit :=
  Run.tryCatch (Run.call .close engine.close)
    (fun error =>
      Logger.warning ("Warning: Failed to close browser: ".toList ++ error.message))

/-- Embeds `generatePdfFromHtml(htmlContent, outputPath)`.  The variable `browser` is set
exactly when `_launchBrowser` returned, which is what the `finally` block tests. -/
def generatePdfFromHtml (engine : Engine) (htmlContent outputPath : JsString) : Run Unit :=
  let launched := _launchBrowser engine
  let browser : Option Unit :=
    match launched.result with
    | .ok b => some b
    | .error _ => none
  Run.tryFinally
    (Run.tryCatch
      (do
        launched
        _createPage engine
        _setPageContent engine htmlContent
        _generatePdf engine outputPath
        Logger.success (SUCCESS_MESSAGES.PDF_GENERATED outputPath))
      (fun error => do
        Logger.error (ERROR_MESSAGES.PDF_GENERATION_ERROR error.message)
        Run.throw error))
    (match browser with
      | some _ => _closeBrowser engine
      | none => Run.ret ())

/-- Embeds `validatePdfGeneration(outputPath)`.  The second test is reached by strings only,
since the first one throws for every other value. -/
def validatePdfGeneration (outputPath : JsValue) : Except JsError Unit :=
  if !outputPath.toBoolean || outputPath.typeof != "string".toList then
    .error ⟨"Output path must be a valid string".toList⟩
  else
    match outputPath with
    | .string path =>
      if !endsWith path ".pdf".toList then
        .error ⟨"Output file must have .pdf extension".toList⟩
      else .ok ()
    | _ => .error ⟨"outputPath.endsWith is not a function".toList⟩

end PdfGeneratorService

/-! ## `utils/fileValidator.js` and `services/markdownParser.js` -/

/-- Embeds `validateMarkdownFile(filePath)`. -/
def validateMarkdownFile (world : World) (filePath : JsString) : Run Bool := do
  Run.emit (.existsSync filePath)
  if !world.existsSync filePath then
    Run.throw ⟨ERROR_MESSAGES.FILE_NOT_FOUND filePath⟩
  else if !endsWith filePath ".md".toList then
    Run.throw ⟨ERROR_MESSAGES.INVALID_FILE_TYPE⟩
  else
    pure true

/-- Embeds `readFileContent(filePath, encoding = 'utf8')`. -/
def readFileContent (world : World) (filePath : JsString) (encoding : Option JsString) :
    Run JsString :=
  let encoding := encoding.getD "utf8".toList
  Run.tryCatch
    (Run.call (.readFileSync filePath encoding) (world.readFileSync filePath encoding))
    (fun error => Run.throw ⟨ERROR_MESSAGES.FILE_READ_ERROR error.message⟩)

namespace MarkdownParserService

/-- Embeds `parseMarkdownFile(filePath)`. -/
def parseMarkdownFile (world : World) (filePath : JsString) : Run JsString :=
  Run.tryCatch
    (do
      let markdownContent ← readFileContent world filePath none
      Run.ofExcept (world.marked markdownContent))
    (fun _ => Run.throw ⟨ERROR_MESSAGES.CONTENT_PROCESSING_ERROR⟩)

/-- Embeds `parseMarkdownString(markdownContent)`. -/
def parseMarkdownString (world : World) (markdownContent : JsString) : Run JsString :=
  Run.tryCatch (Run.ofExcept (world.marked markdownContent))
    (fun _ => Run.throw ⟨ERROR_MESSAGES.CONTENT_PROCESSING_ERROR⟩)

end MarkdownParserService

/-! ## `generateCv.js` -/

namespace CvGenerator

/-- Embeds `_validateInput(inputPath)`. -/
def _validateInput (world : World) (inputPath : JsString) : Run Unit := do
  let _ ← validateMarkdownFile world inputPath
  pure ()

/-- Embeds `_parseMarkdownContent(inputPath)`. -/
def _parseMarkdownContent (world : World) (inputPath : JsString) : Run JsString := do
  Logger.info ("Reading markdown file: ".toList ++ inputPath)
  MarkdownParserService.parseMarkdownFile world inputPath

/-- Embeds `_generateHtmlDocument(htmlContent)`. -/
def _generateHtmlDocument (htmlContent : JsString) : JsString :=
  let optimizedContent := HtmlGeneratorService.optimizeForATS htmlContent
  HtmlGeneratorService.generateCompleteDocument optimizedContent none

/-- Embeds `_generatePdf(htmlContent, outputPath)`. -/
def _generatePdf (engine : Engine) (htmlContent outputPath : JsString) : Run Unit := do
  Run.ofExcept (PdfGeneratorService.validatePdfGeneration (.string outputPath))
  PdfGeneratorService.generatePdfFromHtml engine htmlContent outputPath

/-- Embeds `generateCvPdf(inputPath, outputPath)`: any error is logged and the process exits
with status 1. -/
def generateCvPdf (world : World) (inputPath outputPath : JsString) : Run Unit := do
  Logger.title ("\n".toList ++ CLI_MESSAGES.GENERATION_TITLE ++ "\n".toList)
  Run.tryCatch
    (do
      _validateInput world inputPath
      let htmlContent ← _parseMarkdownContent world inputPath
      let completeHtml := _generateHtmlDocument htmlContent
      _generatePdf world.engine completeHtml outputPath
      Logger.success ("\n".toList ++ SUCCESS_MESSAGES.GENERATION_COMPLETED))
    (fun error => do
      Logger.error error.message
      Run.emit (.exit 1))

end CvGenerator

/-! ## `server.js` -/

/-- The part of the HTTP request that `handleCvGeneration` reads: `req.file.path` when a file
was uploaded, and the field `optimizeATS` of `req.body`. -/
structure Request where
  file : Option JsString
  optimizeATS : JsValue

namespace CvGeneratorServer

/-- The constant `pdfFilename` of `handleCvGeneration`: the template
`cv-` timestamp `.pdf`, the timestamp being `Date.now()` in decimal. -/
def pdfFilename (world : World) : JsString :=
  "cv-".toList ++ (Nat.repr world.dateNow).toList ++ ".pdf".toList

/-- The constant `pdfPath` of `handleCvGeneration`:
`path.join(path.dirname(markdownPath), pdfFilename)`. -/
def pdfPath (world : World) (markdownPath : JsString) : JsString :=
  world.join (world.dirname markdownPath) (pdfFilename world)

/-- Embeds `handleCvGeneration(req, res)`. -/
def handleCvGeneration (world : World) (req : Request) : Run Unit :=
  match req.file with
  | none =>
    Run.emit (.respond 400
      (.object [("error".toList, .string "No markdown file uploaded".toList)]))
  | some markdownPath =>
    let optimizeATS : JsValue :=
      match req.optimizeATS with
      | .undefined => .string "true".toList
      | value => value
    Run.tryCatch
      (do
        let pdfFilename := pdfFilename world
        let pdfPath := pdfPath world markdownPath
        Logger.info "Parsing markdown content...".toList
        let htmlContent ← MarkdownParserService.parseMarkdownFile world markdownPath
        Logger.info "Generating HTML document...".toList
        let completeHtml := HtmlGeneratorService.generateCompleteDocument htmlContent none
        let completeHtml :=
          if optimizeATS.strictEqualsString "true".toList then
            HtmlGeneratorService.optimizeForATS completeHtml
          else completeHtml
        Logger.info "Generating PDF...".toList
        Run.ofExcept (PdfGeneratorService.validatePdfGeneration (.string pdfPath))
        PdfGeneratorService.generatePdfFromHtml world.engine completeHtml pdfPath
        Run.call (.unlinkSync markdownPath) (world.unlinkSync markdownPath)
        Run.emit (.respond 200 (.object
          [ ("success".toList, .boolean true),
            ("filename".toList, .string pdfFilename),
            ("message".toList, .string "CV generated successfully".toList),
            ("downloadUrl".toList, .string ("/api/download/".toList ++ pdfFilename)),
            ("generatedAt".toList, .string world.isoNow) ]))
        Logger.success ("CV generated successfully: ".toList ++ pdfFilename))
      (fun error => do
        Run.emit (.existsSync markdownPath)
        if world.existsSync markdownPath then
          Run.call (.unlinkSync markdownPath) (world.unlinkSync markdownPath)
        Run.throw error)

end CvGeneratorServer

/-! ## Sample environments -/

/-- A browser in which every call succeeds. -/
def Engine.succeeding : Engine :=
  ⟨.ok (), .ok (), fun _ _ => .ok (), fun _ => .ok (), .ok ()⟩

/-- A browser that launches but fails to open a page. -/
def Engine.failingNewPage : Engine :=
  { Engine.succeeding with newPage := .error ⟨"Target closed".toList⟩ }

/-- An environment in which every call succeeds, the upload directory is `/uploads`, the
markdown library returns its input, and the path library concatenates with `/`. -/
def World.sample : World where
  engine := Engine.succeeding
  existsSync := fun _ => true
  readFileSync := fun _ _ => .ok "# Hello".toList
  unlinkSync := fun _ => .ok ()
  marked := fun text => .ok text
  dateNow := 1700000000000
  isoNow := "2023-11-14T22:13:20.000Z".toList
  dirname := fun _ => "/uploads".toList
  join := fun dir file => dir ++ "/".toList ++ file

/-- The sample environment with a path library that drops the file name. -/
def World.sampleDroppingFileName : World :=
  { World.sample with join := fun dir _ => dir }

/-! ## The stylesheet as a function of the design tokens

The methods of `StyleGeneratorService` read the five constant tables of `constants/styling.js`
and nothing else.  Here the same templates take the tables as an argument, so that two
invocations can be compared; `StyleTokens.source` is the content of the tables in the source. -/

/-- The table `COLORS` of `constants/styling.js`. -/
structure ColorTokens where
  PRIMARY : JsString
  SECONDARY : JsString
  TEXT_MAIN : JsString
  TEXT_MUTED : JsString
  TEXT_LIGHT : JsString
  BORDER : JsString
  BORDER_LIGHT : JsString
  BACKGROUND : JsString
  ACCENT_BACKGROUND : JsString

/-- The table `FONT_SIZES` of `constants/styling.js`. -/
structure FontSizeTokens where
  MAIN_TITLE : JsString
  SECTION_HEADER : JsString
  SUBSECTION_HEADER : JsString
  BODY_TEXT : JsString
  CONTACT_INFO : JsString
  PRINT_BODY : JsString
  PRINT_TITLE : JsString
  PRINT_SECTION : JsString
  PRINT_SUBSECTION : JsString

/-- The table `SPACING` of `constants/styling.js`. -/
structure SpacingTokens where
  SECTION_MARGIN_TOP : JsString
  SECTION_MARGIN_BOTTOM : JsString
  SUBSECTION_MARGIN_TOP : JsString
  SUBSECTION_MARGIN_BOTTOM : JsString
  PARAGRAPH_MARGIN : JsString
  LIST_MARGIN : JsString
  LIST_ITEM_MARGIN : JsString
  LIST_PADDING : JsString
  BORDER_WIDTH : JsString
  THIN_BORDER : JsString
  ACCENT_BORDER : JsString

/-- The table `FONTS` of `constants/styling.js`. -/
structure FontTokens where
  PRIMARY : JsString
  FALLBACK : JsString

/-- The table `LAYOUT` of `constants/styling.js`. -/
structure LayoutTokens where
  MAX_WIDTH : JsString
  PAGE_MARGIN : JsString
  PRINT_MARGIN : JsString
  LINE_HEIGHT : JsString

/-- The five tables of design tokens. -/
structure StyleTokens where
  COLORS : ColorTokens
  FONT_SIZES : FontSizeTokens
  SPACING : SpacingTokens
  FONTS : FontTokens
  LAYOUT : LayoutTokens

/-- The design tokens as `constants/styling.js` defines them. -/
def StyleTokens.source : StyleTokens where
  COLORS := {
    PRIMARY := COLORS.PRIMARY,
    SECONDARY := COLORS.SECONDARY,
    TEXT_MAIN := COLORS.TEXT_MAIN,
    TEXT_MUTED := COLORS.TEXT_MUTED,
    TEXT_LIGHT := COLORS.TEXT_LIGHT,
    BORDER := COLORS.BORDER,
    BORDER_LIGHT := COLORS.BORDER_LIGHT,
    BACKGROUND := COLORS.BACKGROUND,
    ACCENT_BACKGROUND := COLORS.ACCENT_BACKGROUND }
  FONT_SIZES := {
    MAIN_TITLE := FONT_SIZES.MAIN_TITLE,
    SECTION_HEADER := FONT_SIZES.SECTION_HEADER,
    SUBSECTION_HEADER := FONT_SIZES.SUBSECTION_HEADER,
    BODY_TEXT := FONT_SIZES.BODY_TEXT,
    CONTACT_INFO := FONT_SIZES.CONTACT_INFO,
    PRINT_BODY := FONT_SIZES.PRINT_BODY,
    PRINT_TITLE := FONT_SIZES.PRINT_TITLE,
    PRINT_SECTION := FONT_SIZES.PRINT_SECTION,
    PRINT_SUBSECTION := FONT_SIZES.PRINT_SUBSECTION }
  SPACING := {
    SECTION_MARGIN_TOP := SPACING.SECTION_MARGIN_TOP,
    SECTION_MARGIN_BOTTOM := SPACING.SECTION_MARGIN_BOTTOM,
    SUBSECTION_MARGIN_TOP := SPACING.SUBSECTION_MARGIN_TOP,
    SUBSECTION_MARGIN_BOTTOM := SPACING.SUBSECTION_MARGIN_BOTTOM,
    PARAGRAPH_MARGIN := SPACING.PARAGRAPH_MARGIN,
    LIST_MARGIN := SPACING.LIST_MARGIN,
    LIST_ITEM_MARGIN := SPACING.LIST_ITEM_MARGIN,
    LIST_PADDING := SPACING.LIST_PADDING,
    BORDER_WIDTH := SPACING.BORDER_WIDTH,
    THIN_BORDER := SPACING.THIN_BORDER,
    ACCENT_BORDER := SPACING.ACCENT_BORDER }
  FONTS := {
    PRIMARY := FONTS.PRIMARY,
    FALLBACK := FONTS.FALLBACK }
  LAYOUT := {
    MAX_WIDTH := LAYOUT.MAX_WIDTH,
    PAGE_MARGIN := LAYOUT.PAGE_MARGIN,
    PRINT_MARGIN := LAYOUT.PRINT_MARGIN,
    LINE_HEIGHT := LAYOUT.LINE_HEIGHT }

namespace StyleGeneratorService

/-- The template of `_generateBaseStyles` with the design tokens as an argument. -/
def _generateBaseStylesFrom (tokens : StyleTokens) : JsString :=
  "\n".toList
  ++ "            * \x7b\n".toList
  ++ "                margin: 0;\n".toList
  ++ "                padding: 0;\n".toList
  ++ "                box-sizing: border-box;\n".toList
  ++ "            \x7d\n".toList
  ++ "            \n".toList
  ++ "            body \x7b\n".toList
  ++ "                font-family: ".toList ++ tokens.FONTS.PRIMARY ++ ";\n".toList
  ++ "                font-size: ".toList ++ tokens.FONT_SIZES.BODY_TEXT ++ ";\n".toList
  ++ "                line-height: ".toList ++ tokens.LAYOUT.LINE_HEIGHT ++ ";\n".toList
  ++ "                color: ".toList ++ tokens.COLORS.TEXT_MAIN ++ ";\n".toList
  ++ "                background: ".toList ++ tokens.COLORS.BACKGROUND ++ ";\n".toList
  ++ "                max-width: ".toList ++ tokens.LAYOUT.MAX_WIDTH ++ ";\n".toList
  ++ "                margin: 0 auto;\n".toList
  ++ "                padding: ".toList ++ tokens.LAYOUT.PAGE_MARGIN ++ ";\n".toList
  ++ "            \x7d\n".toList
  ++ "        ".toList

/-- The template of `_generateHeaderStyles` with the design tokens as an argument. -/
def _generateHeaderStylesFrom (tokens : StyleTokens) : JsString :=
  "\n".toList
  ++ "            h1 \x7b\n".toList
  ++ "                font-size: ".toList ++ tokens.FONT_SIZES.MAIN_TITLE ++ ";\n".toList
  ++ "                font-weight: bold;\n".toList
  ++ "                color: ".toList ++ tokens.COLORS.PRIMARY ++ ";\n".toList
  ++ "                margin-bottom: 5pt;\n".toList
  ++ "                text-align: center;\n".toList
  ++ "                border-bottom: ".toList ++ tokens.SPACING.BORDER_WIDTH ++ " solid ".toList ++ tokens.COLORS.SECONDARY ++ ";\n".toList
  ++ "                padding-bottom: 8pt;\n".toList
  ++ "            \x7d\n".toList
  ++ "            \n".toList
  ++ "            h2 \x7b\n".toList
  ++ "                font-size: ".toList ++ tokens.FONT_SIZES.SECTION_HEADER ++ ";\n".toList
  ++ "                font-weight: bold;\n".toList
  ++ "                color: ".toList ++ tokens.COLORS.PRIMARY ++ ";\n".toList
  ++ "                margin-top: ".toList ++ tokens.SPACING.SECTION_MARGIN_TOP ++ ";\n".toList
  ++ "                margin-bottom: ".toList ++ tokens.SPACING.SECTION_MARGIN_BOTTOM ++ ";\n".toList
  ++ "                padding-bottom: 3pt;\n".toList
  ++ "                border-bottom: ".toList ++ tokens.SPACING.THIN_BORDER ++ " solid ".toList ++ tokens.COLORS.BORDER ++ ";\n".toList
  ++ "                text-transform: uppercase;\n".toList
  ++ "                letter-spacing: 0.5pt;\n".toList
  ++ "            \x7d\n".toList
  ++ "            \n".toList
  ++ "            h3 \x7b\n".toList
  ++ "                font-size: ".toList ++ tokens.FONT_SIZES.SUBSECTION_HEADER ++ ";\n".toList
  ++ "                font-weight: bold;\n".toList
  ++ "                color: ".toList ++ tokens.COLORS.PRIMARY ++ ";\n".toList
  ++ "                margin-top: ".toList ++ tokens.SPACING.SUBSECTION_MARGIN_TOP ++ ";\n".toList
  ++ "                margin-bottom: ".toList ++ tokens.SPACING.SUBSECTION_MARGIN_BOTTOM ++ ";\n".toList
  ++ "            \x7d\n".toList
  ++ "        ".toList

/-- The template of `_generateSectionStyles` with the design tokens as an argument. -/
def _generateSectionStylesFrom (tokens : StyleTokens) : JsString :=
  "\n".toList
  ++ "            body > p:first-of-type \x7b\n".toList
  ++ "                text-align: center;\n".toList
  ++ "                margin-bottom: 15pt;\n".toList
  ++ "                color: ".toList ++ tokens.COLORS.TEXT_MUTED ++ ";\n".toList
  ++ "                font-size: ".toList ++ tokens.FONT_SIZES.CONTACT_INFO ++ ";\n".toList
  ++ "            \x7d\n".toList
  ++ "            \n".toList
  ++ "            h3 + p strong \x7b\n".toList
  ++ "                color: ".toList ++ tokens.COLORS.TEXT_LIGHT ++ ";\n".toList
  ++ "                font-weight: normal;\n".toList
  ++ "                font-style: italic;\n".toList
  ++ "            \x7d\n".toList
  ++ "            \n".toList
  ++ "            hr \x7b\n".toList
  ++ "                border: none;\n".toList
  ++ "                border-top: ".toList ++ tokens.SPACING.THIN_BORDER ++ " solid ".toList ++ tokens.COLORS.BORDER_LIGHT ++ ";\n".toList
  ++ "                margin: 15pt 0;\n".toList
  ++ "            \x7d\n".toList
  ++ "        ".toList

/-- The template of `_generateTextStyles` with the design tokens as an argument. -/
def _generateTextStylesFrom (tokens : StyleTokens) : JsString :=
  "\n".toList
  ++ "            p \x7b\n".toList
  ++ "                margin-bottom: ".toList ++ tokens.SPACING.PARAGRAPH_MARGIN ++ ";\n".toList
  ++ "                text-align: justify;\n".toList
  ++ "            \x7d\n".toList
  ++ "            \n".toList
  ++ "            strong \x7b\n".toList
  ++ "                font-weight: bold;\n".toList
  ++ "                color: ".toList ++ tokens.COLORS.PRIMARY ++ ";\n".toList
  ++ "            \x7d\n".toList
  ++ "            \n".toList
  ++ "            em \x7b\n".toList
  ++ "                font-style: italic;\n".toList
  ++ "                color: ".toList ++ tokens.COLORS.TEXT_LIGHT ++ ";\n".toList
  ++ "            \x7d\n".toList
  ++ "        ".toList

/-- The template of `_generateListStyles` with the design tokens as an argument. -/
def _generateListStylesFrom (tokens : StyleTokens) : JsString :=
  "\n".toList
  ++ "            ul \x7b\n".toList
  ++ "                margin-bottom: ".toList ++ tokens.SPACING.LIST_MARGIN ++ ";\n".toList
  ++ "                padding-left: ".toList ++ tokens.SPACING.LIST_PADDING ++ ";\n".toList
  ++ "            \x7d\n".toList
  ++ "            \n".toList
  ++ "            li \x7b\n".toList
  ++ "                margin-bottom: ".toList ++ tokens.SPACING.LIST_ITEM_MARGIN ++ ";\n".toList
  ++ "                list-style-type: disc;\n".toList
  ++ "            \x7d\n".toList
  ++ "        ".toList

/-- The template of `_generateSpecialSectionStyles` with the design tokens as an argument. -/
def _generateSpecialSectionStylesFrom (tokens : StyleTokens) : JsString :=
  "\n".toList
  ++ "            h2:contains(\"Professional Summary\") + p,\n".toList
  ++ "            h2:contains(\"Summary\") + p \x7b\n".toList
  ++ "                font-style: italic;\n".toList
  ++ "                background-color: ".toList ++ tokens.COLORS.ACCENT_BACKGROUND ++ ";\n".toList
  ++ "                padding: 10pt;\n".toList
  ++ "                border-left: ".toList ++ tokens.SPACING.ACCENT_BORDER ++ " solid ".toList ++ tokens.COLORS.SECONDARY ++ ";\n".toList
  ++ "                margin-bottom: 15pt;\n".toList
  ++ "            \x7d\n".toList
  ++ "            \n".toList
  ++ "            h2:contains(\"Education\") + h3,\n".toList
  ++ "            h2:contains(\"Certifications\") + h3,\n".toList
  ++ "            h2:contains(\"Projects\") + h3 \x7b\n".toList
  ++ "                color: ".toList ++ tokens.COLORS.SECONDARY ++ ";\n".toList
  ++ "            \x7d\n".toList
  ++ "        ".toList

/-- The template of `_generatePrintStyles` with the design tokens as an argument. -/
def _generatePrintStylesFrom (tokens : StyleTokens) : JsString :=
  "\n".toList
  ++ "            @media print \x7b\n".toList
  ++ "                body \x7b\n".toList
  ++ "                    padding: ".toList ++ tokens.LAYOUT.PRINT_MARGIN ++ ";\n".toList
  ++ "                    font-size: ".toList ++ tokens.FONT_SIZES.PRINT_BODY ++ ";\n".toList
  ++ "                \x7d\n".toList
  ++ "                \n".toList
  ++ "                h1 \x7b\n".toList
  ++ "                    font-size: ".toList ++ tokens.FONT_SIZES.PRINT_TITLE ++ ";\n".toList
  ++ "                \x7d\n".toList
  ++ "                \n".toList
  ++ "                h2 \x7b\n".toList
  ++ "                    font-size: ".toList ++ tokens.FONT_SIZES.PRINT_SECTION ++ ";\n".toList
  ++ "                    page-break-after: avoid;\n".toList
  ++ "                \x7d\n".toList
  ++ "                \n".toList
  ++ "                h3 \x7b\n".toList
  ++ "                    font-size: ".toList ++ tokens.FONT_SIZES.PRINT_SUBSECTION ++ ";\n".toList
  ++ "                    page-break-after: avoid;\n".toList
  ++ "                \x7d\n".toList
  ++ "                \n".toList
  ++ "                p, li \x7b\n".toList
  ++ "                    page-break-inside: avoid;\n".toList
  ++ "                \x7d\n".toList
  ++ "                \n".toList
  ++ "                .page-break \x7b\n".toList
  ++ "                    page-break-before: always;\n".toList
  ++ "                \x7d\n".toList
  ++ "            \x7d\n".toList
  ++ "        ".toList

/-- The template of `_generateATSOptimizedStyles` with the design tokens as an argument. -/
def _generateATSOptimizedStylesFrom (tokens : StyleTokens) : JsString :=
  "\n".toList
  ++ "            .contact-info \x7b\n".toList
  ++ "                font-size: ".toList ++ tokens.FONT_SIZES.CONTACT_INFO ++ ";\n".toList
  ++ "                text-align: center;\n".toList
  ++ "                margin-bottom: 15pt;\n".toList
  ++ "            \x7d\n".toList
  ++ "            \n".toList
  ++ "            .section \x7b\n".toList
  ++ "                margin-bottom: 20pt;\n".toList
  ++ "            \x7d\n".toList
  ++ "            \n".toList
  ++ "            .job-title \x7b\n".toList
  ++ "                font-weight: bold;\n".toList
  ++ "                color: ".toList ++ tokens.COLORS.PRIMARY ++ ";\n".toList
  ++ "            \x7d\n".toList
  ++ "            \n".toList
  ++ "            .company-info \x7b\n".toList
  ++ "                color: ".toList ++ tokens.COLORS.TEXT_LIGHT ++ ";\n".toList
  ++ "                font-style: italic;\n".toList
  ++ "                margin-bottom: 5pt;\n".toList
  ++ "            \x7d\n".toList
  ++ "            \n".toList
  ++ "            .achievement \x7b\n".toList
  ++ "                margin-left: 10pt;\n".toList
  ++ "            \x7d\n".toList
  ++ "        ".toList

/-- The template of `generateProfessionalStyles` with the design tokens as an argument. -/
def generateProfessionalStylesFrom (tokens : StyleTokens) : JsString :=
  "\n".toList
  ++ "            ".toList ++ _generateBaseStylesFrom tokens ++ "\n".toList
  ++ "            ".toList ++ _generateHeaderStylesFrom tokens ++ "\n".toList
  ++ "            ".toList ++ _generateSectionStylesFrom tokens ++ "\n".toList
  ++ "            ".toList ++ _generateTextStylesFrom tokens ++ "\n".toList
  ++ "            ".toList ++ _generateListStylesFrom tokens ++ "\n".toList
  ++ "            ".toList ++ _generateSpecialSectionStylesFrom tokens ++ "\n".toList
  ++ "            ".toList ++ _generatePrintStylesFrom tokens ++ "\n".toList
  ++ "            ".toList ++ _generateATSOptimizedStylesFrom tokens ++ "\n".toList
  ++ "        ".toList

/-- The rule groups that `generateProfessionalStyles` interpolates, in the order of the
template. -/
def ruleGroups : List JsString :=
  [ _generateBaseStyles, _generateHeaderStyles, _generateSectionStyles, _generateTextStyles,
    _generateListStyles, _generateSpecialSectionStyles, _generatePrintStyles,
    _generateATSOptimizedStyles ]

end StyleGeneratorService

/-! ## Further observations on traces and strings -/

namespace Event

/-- The event is a call of `browser.newPage`. -/
def isNewPage : Event → Bool
  | newPage => true
  | _ => false

/-- The event is a call of `page.setContent`. -/
def isSetContent : Event → Bool
  | setContent _ _ => true
  | _ => false

end Event

/-- The four tag rewrites of `optimizeForATS`, without the whitespace collapse and the trim. -/
def HtmlGeneratorService.rewriteTags (s : JsString) : JsString :=
  replaceAll "</em>".toList "</i>".toList
    (replaceAll "<em>".toList "<i>".toList
      (replaceAll "</strong>".toList "</b>".toList
        (replaceAll "<strong>".toList "<b>".toList s)))

/-- Position of the first occurrence of the non-empty string `q` in `s`, counted from the
offset given; `none` when there is none. -/
def indexOfFrom (q : JsString) : Nat → JsString → Option Nat
  | _, [] => none
  | i, c :: cs => if q.isPrefixOf (c :: cs) then some i else indexOfFrom q (i + 1) cs

/-- The call `s.indexOf(q)` for a non-empty `q`, with `none` for the result `-1`. -/
def indexOf (q s : JsString) : Option Nat := indexOfFrom q 0 s

/-- The first occurrences of several strings, found in one pass over `s`. -/
def firstIndicesFrom (qs : List JsString) : Nat → JsString → List (Option Nat)
  | _, [] => qs.map (fun _ => none)
  | i, c :: cs =>
    List.zipWith (fun q later => if q.isPrefixOf (c :: cs) then some i else later) qs
      (firstIndicesFrom qs (i + 1) cs)

/-- The scan behind `rulePreludes`: the first argument is the text read since the last
delimiter. -/
def rulePreludesFrom : JsString → JsString → List JsString
  | _, [] => []
  | cur, c :: cs =>
    if c = '\x7b' then trim (collapseWhitespace cur) :: rulePreludesFrom [] cs
    else if c = '\x7d' || c = ';' then rulePreludesFrom [] cs
    else rulePreludesFrom (cur ++ [c]) cs

/-- The preludes (selector lists and at-rule headers) of the rules of a CSS text: for every
opening brace, the text between it and the delimiter before it (an opening or closing brace,
a semicolon, or the start of the text), with whitespace collapsed and trimmed. -/
def rulePreludes (css : JsString) : List JsString := rulePreludesFrom [] css

/-! ## `server.js`: the upload filter -/

/-- The part of an uploaded file that the upload configuration reads: `file.mimetype` and
`file.originalname`. -/
structure UploadedFile where
  mimetype : JsString
  originalname : JsString

namespace CvGeneratorServer

/-- Embeds the `fileFilter` of `setupMulter`: `cb(null, true)` is `.ok true`, and
`cb(new Error(...), false)` is the error. -/
def fileFilter (file : UploadedFile) : Except JsError Bool :=
  if file.mimetype == "text/markdown".toList || endsWith file.originalname ".md".toList then
    .ok true
  else
    .error ⟨"Only markdown files are allowed".toList⟩

/-- Embeds the `filename` callback of the disk storage: the stored name is `cv-`, then
`Date.now()`, a dash and the rounded random number, then `.md`.  The two numbers are
arguments. -/
def storageFilename (dateNow random : Nat) : JsString :=
  let uniqueSuffix := (Nat.repr dateNow).toList ++ "-".toList ++ (Nat.repr random).toList
  "cv-".toList ++ uniqueSuffix ++ ".md".toList

end CvGeneratorServer

/-! ## The templates of `styleGenerator.js` as syntax

Whether the stylesheet depends on anything but the design tokens is a question about what the
expressions interpolated in the template literals read.  Here the nine template literals are
kept as syntax: a template is a list of parts, a part being literal text or an interpolated
expression.  An expression of the language can read a design token, the clock
(`Date.now()`), the random source (`Math.random()`) or a variable kept between invocations;
the evaluation takes all of these from an explicit `Ambient`. -/

/-- The keys of the table `COLORS` of `constants/styling.js`. -/
inductive ColorKey where
  | PRIMARY
  | SECONDARY
  | TEXT_MAIN
  | TEXT_MUTED
  | TEXT_LIGHT
  | BORDER
  | BORDER_LIGHT
  | BACKGROUND
  | ACCENT_BACKGROUND
  deriving DecidableEq

/-- The keys of the table `FONT_SIZES` of `constants/styling.js`. -/
inductive FontSizeKey where
  | MAIN_TITLE
  | SECTION_HEADER
  | SUBSECTION_HEADER
  | BODY_TEXT
  | CONTACT_INFO
  | PRINT_BODY
  | PRINT_TITLE
  | PRINT_SECTION
  | PRINT_SUBSECTION
  deriving DecidableEq

/-- The keys of the table `SPACING` of `constants/styling.js`. -/
inductive SpacingKey where
  | SECTION_MARGIN_TOP
  | SECTION_MARGIN_BOTTOM
  | SUBSECTION_MARGIN_TOP
  | SUBSECTION_MARGIN_BOTTOM
  | PARAGRAPH_MARGIN
  | LIST_MARGIN
  | LIST_ITEM_MARGIN
  | LIST_PADDING
  | BORDER_WIDTH
  | THIN_BORDER
  | ACCENT_BORDER
  deriving DecidableEq

/-- The keys of the table `FONTS` of `constants/styling.js`. -/
inductive FontKey where
  | PRIMARY
  | FALLBACK
  deriving DecidableEq

/-- The keys of the table `LAYOUT` of `constants/styling.js`. -/
inductive LayoutKey where
  | MAX_WIDTH
  | PAGE_MARGIN
  | PRINT_MARGIN
  | LINE_HEIGHT
  deriving DecidableEq

/-- A member access `TABLE.KEY` on one of the five imported tables. -/
inductive TokenRef where
  | COLORS (key : ColorKey)
  | FONT_SIZES (key : FontSizeKey)
  | SPACING (key : SpacingKey)
  | FONTS (key : FontKey)
  | LAYOUT (key : LayoutKey)
  deriving DecidableEq

/-- The value of `COLORS.KEY`. -/
def ColorTokens.read (table : ColorTokens) : ColorKey → JsString
  | .PRIMARY => table.PRIMARY
  | .SECONDARY => table.SECONDARY
  | .TEXT_MAIN => table.TEXT_MAIN
  | .TEXT_MUTED => table.TEXT_MUTED
  | .TEXT_LIGHT => table.TEXT_LIGHT
  | .BORDER => table.BORDER
  | .BORDER_LIGHT => table.BORDER_LIGHT
  | .BACKGROUND => table.BACKGROUND
  | .ACCENT_BACKGROUND => table.ACCENT_BACKGROUND

/-- The value of `FONT_SIZES.KEY`. -/
def FontSizeTokens.read (table : FontSizeTokens) : FontSizeKey → JsString
  | .MAIN_TITLE => table.MAIN_TITLE
  | .SECTION_HEADER => table.SECTION_HEADER
  | .SUBSECTION_HEADER => table.SUBSECTION_HEADER
  | .BODY_TEXT => table.BODY_TEXT
  | .CONTACT_INFO => table.CONTACT_INFO
  | .PRINT_BODY => table.PRINT_BODY
  | .PRINT_TITLE => table.PRINT_TITLE
  | .PRINT_SECTION => table.PRINT_SECTION
  | .PRINT_SUBSECTION => table.PRINT_SUBSECTION

/-- The value of `SPACING.KEY`. -/
def SpacingTokens.read (table : SpacingTokens) : SpacingKey → JsString
  | .SECTION_MARGIN_TOP => table.SECTION_MARGIN_TOP
  | .SECTION_MARGIN_BOTTOM => table.SECTION_MARGIN_BOTTOM
  | .SUBSECTION_MARGIN_TOP => table.SUBSECTION_MARGIN_TOP
  | .SUBSECTION_MARGIN_BOTTOM => table.SUBSECTION_MARGIN_BOTTOM
  | .PARAGRAPH_MARGIN => table.PARAGRAPH_MARGIN
  | .LIST_MARGIN => table.LIST_MARGIN
  | .LIST_ITEM_MARGIN => table.LIST_ITEM_MARGIN
  | .LIST_PADDING => table.LIST_PADDING
  | .BORDER_WIDTH => table.BORDER_WIDTH
  | .THIN_BORDER => table.THIN_BORDER
  | .ACCENT_BORDER => table.ACCENT_BORDER

/-- The value of `FONTS.KEY`. -/
def FontTokens.read (table : FontTokens) : FontKey → JsString
  | .PRIMARY => table.PRIMARY
  | .FALLBACK => table.FALLBACK

/-- The value of `LAYOUT.KEY`. -/
def LayoutTokens.read (table : LayoutTokens) : LayoutKey → JsString
  | .MAX_WIDTH => table.MAX_WIDTH
  | .PAGE_MARGIN => table.PAGE_MARGIN
  | .PRINT_MARGIN => table.PRINT_MARGIN
  | .LINE_HEIGHT => table.LINE_HEIGHT

/-- The value of a member access `TABLE.KEY`. -/
def StyleTokens.read (tokens : StyleTokens) : TokenRef → JsString
  | .COLORS key => tokens.COLORS.read key
  | .FONT_SIZES key => tokens.FONT_SIZES.read key
  | .SPACING key => tokens.SPACING.read key
  | .FONTS key => tokens.FONTS.read key
  | .LAYOUT key => tokens.LAYOUT.read key

/-- What the evaluation of a template can read: the design tokens, the clock, the random
source and the state kept between invocations. -/
structure Ambient where
  tokens : StyleTokens
  dateNow : Nat
  random : JsString
  state : JsString

/-- A part of a template literal: literal text, or an interpolated expression `${...}`. -/
inductive TemplatePart where
  | text (s : JsString)
  | token (r : TokenRef)
  | dateNow
  | random
  | state

namespace TemplatePart

/-- The text a part contributes to the string. -/
def eval (a : Ambient) : TemplatePart → JsString
  | text s => s
  | token r => a.tokens.read r
  | dateNow => Nat.toDigits 10 a.dateNow
  | random => a.random
  | state => a.state

/-- The part reads the clock, the random source or the state. -/
def readsAmbient : TemplatePart → Bool
  | text _ => false
  | token _ => false
  | dateNow => true
  | random => true
  | state => true

/-- The design tokens the part reads. -/
def tokensRead : TemplatePart → List TokenRef
  | token r => [r]
  | _ => []

end TemplatePart

/-- The string a template literal evaluates to. -/
def evalTemplate (a : Ambient) (parts : List TemplatePart) : JsString :=
  (parts.map (TemplatePart.eval a)).flatten

/-- The private methods of `StyleGeneratorService`. -/
inductive StyleMethod where
  | _generateBaseStyles
  | _generateHeaderStyles
  | _generateSectionStyles
  | _generateTextStyles
  | _generateListStyles
  | _generateSpecialSectionStyles
  | _generatePrintStyles
  | _generateATSOptimizedStyles

/-- A part of the template literal of `generateProfessionalStyles`: a part as above, or a
call `${this.method()}` of a private method. -/
inductive StylesheetPart where
  | part (p : TemplatePart)
  | call (method : StyleMethod)

namespace StyleGeneratorService

/-- The template literal each private method returns, part by part (literal text is cut at
the line breaks of the source). -/
def methodTemplate : StyleMethod → List TemplatePart
  | ._generateBaseStyles =>
    [ .text "\n".toList,
      .text "            * \x7b\n".toList,
      .text "                margin: 0;\n".toList,
      .text "                padding: 0;\n".toList,
      .text "                box-sizing: border-box;\n".toList,
      .text "            \x7d\n".toList,
      .text "            \n".toList,
      .text "            body \x7b\n".toList,
      .text "                font-family: ".toList,
      .token (.FONTS .PRIMARY),
      .text ";\n".toList,
      .text "                font-size: ".toList,
      .token (.FONT_SIZES .BODY_TEXT),
      .text ";\n".toList,
      .text "                line-height: ".toList,
      .token (.LAYOUT .LINE_HEIGHT),
      .text ";\n".toList,
      .text "                color: ".toList,
      .token (.COLORS .TEXT_MAIN),
      .text ";\n".toList,
      .text "                background: ".toList,
      .token (.COLORS .BACKGROUND),
      .text ";\n".toList,
      .text "                max-width: ".toList,
      .token (.LAYOUT .MAX_WIDTH),
      .text ";\n".toList,
      .text "                margin: 0 auto;\n".toList,
      .text "                padding: ".toList,
      .token (.LAYOUT .PAGE_MARGIN),
      .text ";\n".toList,
      .text "            \x7d\n".toList,
      .text "        ".toList ]
  | ._generateHeaderStyles =>
    [ .text "\n".toList,
      .text "            h1 \x7b\n".toList,
      .text "                font-size: ".toList,
      .token (.FONT_SIZES .MAIN_TITLE),
      .text ";\n".toList,
      .text "                font-weight: bold;\n".toList,
      .text "                color: ".toList,
      .token (.COLORS .PRIMARY),
      .text ";\n".toList,
      .text "                margin-bottom: 5pt;\n".toList,
      .text "                text-align: center;\n".toList,
      .text "                border-bottom: ".toList,
      .token (.SPACING .BORDER_WIDTH),
      .text " solid ".toList,
      .token (.COLORS .SECONDARY),
      .text ";\n".toList,
      .text "                padding-bottom: 8pt;\n".toList,
      .text "            \x7d\n".toList,
      .text "            \n".toList,
      .text "            h2 \x7b\n".toList,
      .text "                font-size: ".toList,
      .token (.FONT_SIZES .SECTION_HEADER),
      .text ";\n".toList,
      .text "                font-weight: bold;\n".toList,
      .text "                color: ".toList,
      .token (.COLORS .PRIMARY),
      .text ";\n".toList,
      .text "                margin-top: ".toList,
      .token (.SPACING .SECTION_MARGIN_TOP),
      .text ";\n".toList,
      .text "                margin-bottom: ".toList,
      .token (.SPACING .SECTION_MARGIN_BOTTOM),
      .text ";\n".toList,
      .text "                padding-bottom: 3pt;\n".toList,
      .text "                border-bottom: ".toList,
      .token (.SPACING .THIN_BORDER),
      .text " solid ".toList,
      .token (.COLORS .BORDER),
      .text ";\n".toList,
      .text "                text-transform: uppercase;\n".toList,
      .text "                letter-spacing: 0.5pt;\n".toList,
      .text "            \x7d\n".toList,
      .text "            \n".toList,
      .text "            h3 \x7b\n".toList,
      .text "                font-size: ".toList,
      .token (.FONT_SIZES .SUBSECTION_HEADER),
      .text ";\n".toList,
      .text "                font-weight: bold;\n".toList,
      .text "                color: ".toList,
      .token (.COLORS .PRIMARY),
      .text ";\n".toList,
      .text "                margin-top: ".toList,
      .token (.SPACING .SUBSECTION_MARGIN_TOP),
      .text ";\n".toList,
      .text "                margin-bottom: ".toList,
      .token (.SPACING .SUBSECTION_MARGIN_BOTTOM),
      .text ";\n".toList,
      .text "            \x7d\n".toList,
      .text "        ".toList ]
  | ._generateSectionStyles =>
    [ .text "\n".toList,
      .text "            body > p:first-of-type \x7b\n".toList,
      .text "                text-align: center;\n".toList,
      .text "                margin-bottom: 15pt;\n".toList,
      .text "                color: ".toList,
      .token (.COLORS .TEXT_MUTED),
      .text ";\n".toList,
      .text "                font-size: ".toList,
      .token (.FONT_SIZES .CONTACT_INFO),
      .text ";\n".toList,
      .text "            \x7d\n".toList,
      .text "            \n".toList,
      .text "            h3 + p strong \x7b\n".toList,
      .text "                color: ".toList,
      .token (.COLORS .TEXT_LIGHT),
      .text ";\n".toList,
      .text "                font-weight: normal;\n".toList,
      .text "                font-style: italic;\n".toList,
      .text "            \x7d\n".toList,
      .text "            \n".toList,
      .text "            hr \x7b\n".toList,
      .text "                border: none;\n".toList,
      .text "                border-top: ".toList,
      .token (.SPACING .THIN_BORDER),
      .text " solid ".toList,
      .token (.COLORS .BORDER_LIGHT),
      .text ";\n".toList,
      .text "                margin: 15pt 0;\n".toList,
      .text "            \x7d\n".toList,
      .text "        ".toList ]
  | ._generateTextStyles =>
    [ .text "\n".toList,
      .text "            p \x7b\n".toList,
      .text "                margin-bottom: ".toList,
      .token (.SPACING .PARAGRAPH_MARGIN),
      .text ";\n".toList,
      .text "                text-align: justify;\n".toList,
      .text "            \x7d\n".toList,
      .text "            \n".toList,
      .text "            strong \x7b\n".toList,
      .text "                font-weight: bold;\n".toList,
      .text "                color: ".toList,
      .token (.COLORS .PRIMARY),
      .text ";\n".toList,
      .text "            \x7d\n".toList,
      .text "            \n".toList,
      .text "            em \x7b\n".toList,
      .text "                font-style: italic;\n".toList,
      .text "                color: ".toList,
      .token (.COLORS .TEXT_LIGHT),
      .text ";\n".toList,
      .text "            \x7d\n".toList,
      .text "        ".toList ]
  | ._generateListStyles =>
    [ .text "\n".toList,
      .text "            ul \x7b\n".toList,
      .text "                margin-bottom: ".toList,
      .token (.SPACING .LIST_MARGIN),
      .text ";\n".toList,
      .text "                padding-left: ".toList,
      .token (.SPACING .LIST_PADDING),
      .text ";\n".toList,
      .text "            \x7d\n".toList,
      .text "            \n".toList,
      .text "            li \x7b\n".toList,
      .text "                margin-bottom: ".toList,
      .token (.SPACING .LIST_ITEM_MARGIN),
      .text ";\n".toList,
      .text "                list-style-type: disc;\n".toList,
      .text "            \x7d\n".toList,
      .text "        ".toList ]
  | ._generateSpecialSectionStyles =>
    [ .text "\n".toList,
      .text "            h2:contains(\"Professional Summary\") + p,\n".toList,
      .text "            h2:contains(\"Summary\") + p \x7b\n".toList,
      .text "                font-style: italic;\n".toList,
      .text "                background-color: ".toList,
      .token (.COLORS .ACCENT_BACKGROUND),
      .text ";\n".toList,
      .text "                padding: 10pt;\n".toList,
      .text "                border-left: ".toList,
      .token (.SPACING .ACCENT_BORDER),
      .text " solid ".toList,
      .token (.COLORS .SECONDARY),
      .text ";\n".toList,
      .text "                margin-bottom: 15pt;\n".toList,
      .text "            \x7d\n".toList,
      .text "            \n".toList,
      .text "            h2:contains(\"Education\") + h3,\n".toList,
      .text "            h2:contains(\"Certifications\") + h3,\n".toList,
      .text "            h2:contains(\"Projects\") + h3 \x7b\n".toList,
      .text "                color: ".toList,
      .token (.COLORS .SECONDARY),
      .text ";\n".toList,
      .text "            \x7d\n".toList,
      .text "        ".toList ]
  | ._generatePrintStyles =>
    [ .text "\n".toList,
      .text "            @media print \x7b\n".toList,
      .text "                body \x7b\n".toList,
      .text "                    padding: ".toList,
      .token (.LAYOUT .PRINT_MARGIN),
      .text ";\n".toList,
      .text "                    font-size: ".toList,
      .token (.FONT_SIZES .PRINT_BODY),
      .text ";\n".toList,
      .text "                \x7d\n".toList,
      .text "                \n".toList,
      .text "                h1 \x7b\n".toList,
      .text "                    font-size: ".toList,
      .token (.FONT_SIZES .PRINT_TITLE),
      .text ";\n".toList,
      .text "                \x7d\n".toList,
      .text "                \n".toList,
      .text "                h2 \x7b\n".toList,
      .text "                    font-size: ".toList,
      .token (.FONT_SIZES .PRINT_SECTION),
      .text ";\n".toList,
      .text "                    page-break-after: avoid;\n".toList,
      .text "                \x7d\n".toList,
      .text "                \n".toList,
      .text "                h3 \x7b\n".toList,
      .text "                    font-size: ".toList,
      .token (.FONT_SIZES .PRINT_SUBSECTION),
      .text ";\n".toList,
      .text "                    page-break-after: avoid;\n".toList,
      .text "                \x7d\n".toList,
      .text "                \n".toList,
      .text "                p, li \x7b\n".toList,
      .text "                    page-break-inside: avoid;\n".toList,
      .text "                \x7d\n".toList,
      .text "                \n".toList,
      .text "                .page-break \x7b\n".toList,
      .text "                    page-break-before: always;\n".toList,
      .text "                \x7d\n".toList,
      .text "            \x7d\n".toList,
      .text "        ".toList ]
  | ._generateATSOptimizedStyles =>
    [ .text "\n".toList,
      .text "            .contact-info \x7b\n".toList,
      .text "                font-size: ".toList,
      .token (.FONT_SIZES .CONTACT_INFO),
      .text ";\n".toList,
      .text "                text-align: center;\n".toList,
      .text "                margin-bottom: 15pt;\n".toList,
      .text "            \x7d\n".toList,
      .text "            \n".toList,
      .text "            .section \x7b\n".toList,
      .text "                margin-bottom: 20pt;\n".toList,
      .text "            \x7d\n".toList,
      .text "            \n".toList,
      .text "            .job-title \x7b\n".toList,
      .text "                font-weight: bold;\n".toList,
      .text "                color: ".toList,
      .token (.COLORS .PRIMARY),
      .text ";\n".toList,
      .text "            \x7d\n".toList,
      .text "            \n".toList,
      .text "            .company-info \x7b\n".toList,
      .text "                color: ".toList,
      .token (.COLORS .TEXT_LIGHT),
      .text ";\n".toList,
      .text "                font-style: italic;\n".toList,
      .text "                margin-bottom: 5pt;\n".toList,
      .text "            \x7d\n".toList,
      .text "            \n".toList,
      .text "            .achievement \x7b\n".toList,
      .text "                margin-left: 10pt;\n".toList,
      .text "            \x7d\n".toList,
      .text "        ".toList ]

/-- The template literal of `generateProfessionalStyles`, part by part. -/
def stylesheetTemplate : List StylesheetPart :=
  [ .part (.text "\n".toList),
    .part (.text "            ".toList),
    .call ._generateBaseStyles,
    .part (.text "\n".toList),
    .part (.text "            ".toList),
    .call ._generateHeaderStyles,
    .part (.text "\n".toList),
    .part (.text "            ".toList),
    .call ._generateSectionStyles,
    .part (.text "\n".toList),
    .part (.text "            ".toList),
    .call ._generateTextStyles,
    .part (.text "\n".toList),
    .part (.text "            ".toList),
    .call ._generateListStyles,
    .part (.text "\n".toList),
    .part (.text "            ".toList),
    .call ._generateSpecialSectionStyles,
    .part (.text "\n".toList),
    .part (.text "            ".toList),
    .call ._generatePrintStyles,
    .part (.text "\n".toList),
    .part (.text "            ".toList),
    .call ._generateATSOptimizedStyles,
    .part (.text "\n".toList),
    .part (.text "        ".toList) ]

end StyleGeneratorService

namespace StylesheetPart

/-- The text a part of the stylesheet template contributes. -/
def eval (a : Ambient) : StylesheetPart → JsString
  | part p => p.eval a
  | call method => evalTemplate a (StyleGeneratorService.methodTemplate method)

/-- The template parts evaluated for a part of the stylesheet template. -/
def parts : StylesheetPart → List TemplatePart
  | part p => [p]
  | call method => StyleGeneratorService.methodTemplate method

end StylesheetPart

namespace StyleGeneratorService

/-- Evaluates `generateProfessionalStyles()` in an ambient: the template literal of the method,
with each call of a private method evaluated to that method's template literal. -/
def generateProfessionalStylesIn (a : Ambient) : JsString :=
  (stylesheetTemplate.map (StylesheetPart.eval a)).flatten

/-- Every template part evaluated by an invocation of `generateProfessionalStyles`. -/
def partsEvaluated : List TemplatePart :=
  (stylesheetTemplate.map StylesheetPart.parts).flatten

/-- The design tokens read by an invocation of `generateProfessionalStyles`, in the order of
evaluation. -/
def tokensRead : List TokenRef :=
  (partsEvaluated.map TemplatePart.tokensRead).flatten

end StyleGeneratorService
/-! # Theorems -/

/-! ## Literal replacement -/

theorem replaceAllFrom_skip (pat rep : JsString) (n : Nat) (s : JsString) :
    replaceAllFrom pat rep n s = replaceAllFrom pat rep 0 (s.drop n) := by
  induction n generalizing s with
  | zero => simp
  | succ k ih =>
    cases s with
    | nil => simp [replaceAllFrom]
    | cons c cs => simp only [replaceAllFrom, List.drop_succ_cons]; exact ih cs

theorem replaceAll_nil (pat rep : JsString) : replaceAll pat rep [] = [] := by
  simp [replaceAll, replaceAllFrom]

theorem replaceAll_cons_of_match {pat rep : JsString} {c : Char} {cs : JsString}
    (h : pat <+: c :: cs) :
    replaceAll pat rep (c :: cs) = rep ++ replaceAll pat rep (cs.drop (pat.length - 1)) := by
  have h2 : pat.isPrefixOf (c :: cs) = true := List.isPrefixOf_iff_prefix.mpr h
  simp only [replaceAll, replaceAllFrom, h2, if_true]
  rw [replaceAllFrom_skip]

theorem replaceAll_cons_of_no_match {pat rep : JsString} {c : Char} {cs : JsString}
    (h : ¬ pat <+: c :: cs) :
    replaceAll pat rep (c :: cs) = c :: replaceAll pat rep cs := by
  have h2 : ¬ pat.isPrefixOf (c :: cs) = true := fun h3 => h (List.isPrefixOf_iff_prefix.mp h3)
  simp only [replaceAll, replaceAllFrom, h2, if_false]
  simp

theorem prefix_replaceAll_of_not_mem {p r rb : JsString} {a : Char} (hr : r = a :: rb) :
    ∀ (s qb : JsString), a ∉ qb → qb <+: replaceAll p r s → qb <+: s := by
  intro s
  induction s with
  | nil => intro qb _ h; simpa [replaceAll_nil] using h
  | cons d ds ih =>
    intro qb hqb h
    by_cases hp : p <+: d :: ds
    · rw [replaceAll_cons_of_match hp, hr, List.cons_append, List.prefix_cons_iff] at h
      rcases h with h | ⟨t, ht, _⟩
      · simp [h]
      · exact absurd (by simp [ht]) hqb
    · rw [replaceAll_cons_of_no_match hp, List.prefix_cons_iff] at h
      rcases h with h | ⟨t, ht, h3⟩
      · simp [h]
      · subst ht
        have : a ∉ t := fun hm => hqb (List.mem_cons_of_mem _ hm)
        exact List.cons_prefix_cons.mpr ⟨rfl, ih t this h3⟩

theorem infix_replaceAll_origin {q p r qb rb : JsString} {a : Char}
    (hq : q = a :: qb) (hqb : a ∉ qb) (hr : r = a :: rb)
    (hqr : ∀ R : JsString, q <:+: r ++ R → q <:+: R) :
    ∀ (n : Nat) (s : JsString), s.length ≤ n → q <:+: replaceAll p r s →
      ∃ t, t <:+ s ∧ q <+: t ∧ ¬ p <+: t := by
  intro n
  induction n with
  | zero =>
    intro s hs h
    have : s = [] := List.length_eq_zero.mp (Nat.le_zero.mp hs)
    subst this
    rw [replaceAll_nil, List.infix_nil] at h
    simp [hq] at h
  | succ k ih =>
    intro s hs h
    cases s with
    | nil =>
      rw [replaceAll_nil, List.infix_nil] at h
      simp [hq] at h
    | cons c cs =>
      have hcs : cs.length ≤ k := by simpa using hs
      by_cases hp : p <+: c :: cs
      · rw [replaceAll_cons_of_match hp] at h
        have hd : (cs.drop (p.length - 1)).length ≤ k := by
          have := List.length_drop (p.length - 1) cs
          omega
        obtain ⟨t, ht, h1, h2⟩ := ih _ hd (hqr _ h)
        exact ⟨t, (ht.trans (List.drop_suffix _ _)).trans (List.suffix_cons c cs), h1, h2⟩
      · rw [replaceAll_cons_of_no_match hp, List.infix_cons_iff] at h
        rcases h with h | h
        · refine ⟨c :: cs, List.suffix_refl _, ?_, hp⟩
          rw [hq] at h ⊢
          obtain ⟨hac, h3⟩ := List.cons_prefix_cons.mp h
          exact List.cons_prefix_cons.mpr ⟨hac, prefix_replaceAll_of_not_mem hr cs qb hqb h3⟩
        · obtain ⟨t, ht, h1, h2⟩ := ih cs hcs h
          exact ⟨t, ht.trans (List.suffix_cons c cs), h1, h2⟩

theorem isInfix_of_isPrefix_of_isSuffix {q t s : JsString} (h1 : q <+: t) (h2 : t <:+ s) : q <:+: s :=
  h1.isInfix.trans h2.isInfix

theorem replaceAll_removes_pattern {p r pb rb : JsString} {a : Char}
    (hp : p = a :: pb) (hpb : a ∉ pb) (hr : r = a :: rb)
    (hpr : ∀ R : JsString, p <:+: r ++ R → p <:+: R) (s : JsString) :
    ¬ p <:+: replaceAll p r s := by
  intro h
  obtain ⟨t, _, h1, h2⟩ := infix_replaceAll_origin hp hpb hr hpr s.length s (Nat.le_refl _) h
  exact h2 h1

theorem replaceAll_preserves_absent {q p r qb rb : JsString} {a : Char}
    (hq : q = a :: qb) (hqb : a ∉ qb) (hr : r = a :: rb)
    (hqr : ∀ R : JsString, q <:+: r ++ R → q <:+: R) (s : JsString) (hs : ¬ q <:+: s) :
    ¬ q <:+: replaceAll p r s := by
  intro h
  obtain ⟨t, ht, h1, _⟩ := infix_replaceAll_origin hq hqb hr hqr s.length s (Nat.le_refl _) h
  exact hs (isInfix_of_isPrefix_of_isSuffix h1 ht)

theorem replaceAll_eq_self {p r : JsString} : ∀ (s : JsString), ¬ p <:+: s → replaceAll p r s = s := by
  intro s
  induction s with
  | nil => intro _; exact replaceAll_nil p r
  | cons c cs ih =>
    intro h
    rw [List.infix_cons_iff, not_or] at h
    rw [replaceAll_cons_of_no_match h.1, ih h.2]

/-! ## Whitespace collapse -/

theorem isJsWhitespace_space : isJsWhitespace ' ' = true := by decide

theorem collapseFrom_nil (b : Bool) : collapseFrom b [] = [] := by
  cases b <;> rfl

theorem collapseFrom_true_cons_ws {d : Char} (ds : JsString) (h : isJsWhitespace d = true) :
    collapseFrom true (d :: ds) = collapseFrom true ds := by
  simp only [collapseFrom, h, if_true]

theorem collapseFrom_false_cons_ws {d : Char} (ds : JsString) (h : isJsWhitespace d = true) :
    collapseFrom false (d :: ds) = ' ' :: collapseFrom true ds := by
  simp only [collapseFrom, h, if_true, Bool.false_eq_true, if_false]

theorem collapseFrom_cons_not_ws {d : Char} (b : Bool) (ds : JsString)
    (h : ¬ isJsWhitespace d = true) :
    collapseFrom b (d :: ds) = d :: collapseFrom false ds := by
  have h2 : isJsWhitespace d = false := by simpa using h
  simp only [collapseFrom, h2, Bool.false_eq_true, if_false]

theorem collapseFrom_ws_eq_space : ∀ (s : JsString) (b : Bool) (c : Char),
    c ∈ collapseFrom b s → isJsWhitespace c = true → c = ' ' := by
  intro s
  induction s with
  | nil => intro b c h; rw [collapseFrom_nil] at h; exact absurd h (List.not_mem_nil c)
  | cons d ds ih =>
    intro b c h hc
    by_cases hd : isJsWhitespace d = true
    · cases b with
      | true =>
        rw [collapseFrom_true_cons_ws ds hd] at h
        exact ih true c h hc
      | false =>
        rw [collapseFrom_false_cons_ws ds hd, List.mem_cons] at h
        rcases h with h | h
        · exact h
        · exact ih true c h hc
    · rw [collapseFrom_cons_not_ws b ds hd, List.mem_cons] at h
      rcases h with h | h
      · subst h; exact absurd hc hd
      · exact ih false c h hc

theorem collapseFrom_chain : ∀ (s : JsString) (b : Bool),
    List.Chain' (fun a b => ¬ (isJsWhitespace a = true ∧ isJsWhitespace b = true)) (collapseFrom b s) ∧
    (b = true → ∀ c ∈ (collapseFrom b s).head?, ¬ isJsWhitespace c = true) := by
  intro s
  induction s with
  | nil => intro b; rw [collapseFrom_nil]; simp
  | cons d ds ih =>
    intro b
    by_cases hd : isJsWhitespace d = true
    · cases b with
      | true =>
        rw [collapseFrom_true_cons_ws ds hd]
        exact ih true
      | false =>
        rw [collapseFrom_false_cons_ws ds hd]
        refine ⟨?_, fun h => absurd h (by decide)⟩
        rw [List.chain'_cons']
        exact ⟨fun y hy hh => (ih true).2 rfl y hy hh.2, (ih true).1⟩
    · rw [collapseFrom_cons_not_ws b ds hd]
      refine ⟨?_, ?_⟩
      · rw [List.chain'_cons']
        exact ⟨fun y _ hh => hd hh.1, (ih false).1⟩
      · intro _ c hc
        simp only [List.head?_cons, Option.mem_def, Option.some.injEq] at hc
        subst hc
        exact hd

theorem collapseWhitespace_wsNormal (s : JsString) : WsNormal (collapseWhitespace s) :=
  ⟨fun c hc => collapseFrom_ws_eq_space s false c hc, (collapseFrom_chain s false).1⟩

theorem collapseFrom_eq_self : ∀ (s : JsString) (b : Bool), WsNormal s →
    (b = true → ∀ c ∈ s.head?, ¬ isJsWhitespace c = true) → collapseFrom b s = s := by
  intro s
  induction s with
  | nil => intro b _ _; exact collapseFrom_nil b
  | cons d ds ih =>
    intro b hn hb
    have hds : WsNormal ds :=
      ⟨fun c hc => hn.1 c (List.mem_cons_of_mem _ hc), (List.chain'_cons'.mp hn.2).2⟩
    by_cases hd : isJsWhitespace d = true
    · have hbf : b = false := by
        cases b with
        | false => rfl
        | true => exact absurd hd (hb rfl d (by simp))
      subst hbf
      have hsp : d = ' ' := hn.1 d (List.mem_cons_self _ _) hd
      rw [collapseFrom_false_cons_ws ds hd,
        ih true hds (fun _ c hc hh => (List.chain'_cons'.mp hn.2).1 c hc ⟨hd, hh⟩), hsp]
    · rw [collapseFrom_cons_not_ws b ds hd, ih false hds (fun h => absurd h (by decide))]

theorem prefix_collapseFrom_false : ∀ (s q : JsString), (∀ c ∈ q, ¬ isJsWhitespace c = true) →
    q <+: collapseFrom false s → q <+: s := by
  intro s
  induction s with
  | nil => intro q _ h; rw [collapseFrom_nil] at h; exact h
  | cons d ds ih =>
    intro q hq h
    by_cases hd : isJsWhitespace d = true
    · rw [collapseFrom_false_cons_ws ds hd, List.prefix_cons_iff] at h
      rcases h with h | ⟨t, ht, _⟩
      · simp [h]
      · exact absurd isJsWhitespace_space (hq ' ' (by simp [ht]))
    · rw [collapseFrom_cons_not_ws false ds hd, List.prefix_cons_iff] at h
      rcases h with h | ⟨t, ht, h3⟩
      · simp [h]
      · subst ht
        exact List.cons_prefix_cons.mpr
          ⟨rfl, ih t (fun c hc => hq c (List.mem_cons_of_mem _ hc)) h3⟩

theorem infix_collapseFrom {q : JsString} (hne : q ≠ [])
    (hq : ∀ c ∈ q, ¬ isJsWhitespace c = true) :
    ∀ (s : JsString) (b : Bool), q <:+: collapseFrom b s → q <:+: s := by
  intro s
  induction s with
  | nil => intro b h; rw [collapseFrom_nil] at h; exact h
  | cons d ds ih =>
    intro b h
    rw [List.infix_cons_iff]
    by_cases hd : isJsWhitespace d = true
    · cases b with
      | true =>
        rw [collapseFrom_true_cons_ws ds hd] at h
        exact Or.inr (ih true h)
      | false =>
        rw [collapseFrom_false_cons_ws ds hd, List.infix_cons_iff] at h
        rcases h with h | h
        · rw [List.prefix_cons_iff] at h
          rcases h with h | ⟨t, ht, _⟩
          · exact absurd h hne
          · exact absurd isJsWhitespace_space (hq ' ' (by simp [ht]))
        · exact Or.inr (ih true h)
    · have hunf := collapseFrom_cons_not_ws false ds hd
      rw [collapseFrom_cons_not_ws b ds hd, List.infix_cons_iff] at h
      rcases h with h1 | h1
      · rw [← hunf] at h1
        exact Or.inl (prefix_collapseFrom_false (d :: ds) q hq h1)
      · exact Or.inr (ih false h1)

/-! ## Trim -/

theorem trim_sub (s : JsString) : trim s <:+: s :=
  (List.rdropWhile_prefix isJsWhitespace _).isInfix.trans
    (List.dropWhile_suffix isJsWhitespace).isInfix

theorem trim_head (s : JsString) : ∀ c ∈ (trim s).head?, ¬ isJsWhitespace c = true := by
  intro c hc
  unfold trim at hc
  have hpre : (s.dropWhile isJsWhitespace).rdropWhile isJsWhitespace <+: s.dropWhile isJsWhitespace :=
    List.rdropWhile_prefix isJsWhitespace _
  have hd := List.head?_dropWhile_not isJsWhitespace s
  cases hl : s.dropWhile isJsWhitespace with
  | nil => rw [hl] at hc; simp [List.rdropWhile] at hc
  | cons a l =>
    rw [hl] at hd hpre hc
    simp only [List.head?_cons] at hd
    cases hr : List.rdropWhile isJsWhitespace (a :: l) with
    | nil => rw [hr] at hc; simp at hc
    | cons a2 l2 =>
      rw [hr] at hpre hc
      have h1 := (List.cons_prefix_cons.mp hpre).1
      simp only [List.head?_cons, Option.mem_def, Option.some.injEq] at hc
      subst hc
      subst h1
      simp [hd]

theorem trim_getLast (s : JsString) : ∀ c ∈ (trim s).getLast?, ¬ isJsWhitespace c = true := by
  intro c hc
  unfold trim at hc
  by_cases hne : (s.dropWhile isJsWhitespace).rdropWhile isJsWhitespace = []
  · rw [hne] at hc; simp at hc
  · rw [List.getLast?_eq_getLast _ hne] at hc
    simp only [Option.mem_def, Option.some.injEq] at hc
    rw [← hc]
    exact List.rdropWhile_last_not isJsWhitespace _ hne

theorem trim_eq_self {s : JsString} (h1 : ∀ c ∈ s.head?, ¬ isJsWhitespace c = true)
    (h2 : ∀ c ∈ s.getLast?, ¬ isJsWhitespace c = true) : trim s = s := by
  unfold trim
  have hd : s.dropWhile isJsWhitespace = s := by
    cases s with
    | nil => rfl
    | cons a l =>
      have := h1 a (by simp)
      simp [List.dropWhile_cons, this]
  rw [hd, List.rdropWhile_eq_self_iff]
  intro hl
  exact h2 _ (by simp [List.getLast?_eq_getLast _ hl])

/-! ## The rewritten tags are absent from the output -/

theorem absent_after_collapse_trim {q : JsString} (hne : q ≠ [])
    (hq : ∀ c ∈ q, ¬ isJsWhitespace c = true) {z : JsString} (hz : ¬ q <:+: z) :
    ¬ q <:+: trim (collapseWhitespace z) :=
  fun h => hz (infix_collapseFrom hne hq z false (h.trans (trim_sub _)))

theorem optimizeForATS_no_strong_open (x : JsString) : ¬ "<strong>".toList <:+: HtmlGeneratorService.optimizeForATS x := by
  unfold HtmlGeneratorService.optimizeForATS
  apply absent_after_collapse_trim (by decide) (by decide)
  apply replaceAll_preserves_absent rfl (by decide) rfl (by simp [List.infix_cons_iff])
  apply replaceAll_preserves_absent rfl (by decide) rfl (by simp [List.infix_cons_iff])
  apply replaceAll_preserves_absent rfl (by decide) rfl (by simp [List.infix_cons_iff])
  exact replaceAll_removes_pattern rfl (by decide) rfl (by simp [List.infix_cons_iff]) x

theorem optimizeForATS_no_strong_close (x : JsString) : ¬ "</strong>".toList <:+: HtmlGeneratorService.optimizeForATS x := by
  unfold HtmlGeneratorService.optimizeForATS
  apply absent_after_collapse_trim (by decide) (by decide)
  apply replaceAll_preserves_absent rfl (by decide) rfl (by simp [List.infix_cons_iff])
  apply replaceAll_preserves_absent rfl (by decide) rfl (by simp [List.infix_cons_iff])
  exact replaceAll_removes_pattern rfl (by decide) rfl (by simp [List.infix_cons_iff]) _

theorem optimizeForATS_no_em_open (x : JsString) : ¬ "<em>".toList <:+: HtmlGeneratorService.optimizeForATS x := by
  unfold HtmlGeneratorService.optimizeForATS
  apply absent_after_collapse_trim (by decide) (by decide)
  apply replaceAll_preserves_absent rfl (by decide) rfl (by simp [List.infix_cons_iff])
  exact replaceAll_removes_pattern rfl (by decide) rfl (by simp [List.infix_cons_iff]) _

theorem optimizeForATS_no_em_close (x : JsString) : ¬ "</em>".toList <:+: HtmlGeneratorService.optimizeForATS x := by
  unfold HtmlGeneratorService.optimizeForATS
  apply absent_after_collapse_trim (by decide) (by decide)
  exact replaceAll_removes_pattern rfl (by decide) rfl (by simp [List.infix_cons_iff]) _

theorem optimizeForATS_wsNormal (x : JsString) : WsNormal (HtmlGeneratorService.optimizeForATS x) := by
  unfold HtmlGeneratorService.optimizeForATS
  have h := collapseWhitespace_wsNormal
    (replaceAll "</em>".toList "</i>".toList
      (replaceAll "<em>".toList "<i>".toList
        (replaceAll "</strong>".toList "</b>".toList
          (replaceAll "<strong>".toList "<b>".toList x))))
  have hi := trim_sub (collapseWhitespace
    (replaceAll "</em>".toList "</i>".toList
      (replaceAll "<em>".toList "<i>".toList
        (replaceAll "</strong>".toList "</b>".toList
          (replaceAll "<strong>".toList "<b>".toList x)))))
  exact ⟨fun c hc => h.1 c (hi.subset hc), List.Chain'.infix h.2 hi⟩


/-! ## Replacement across a boundary -/

theorem prefix_of_prefix_append_cons {b : Char} :
    ∀ (u q v : JsString), b ∉ q → q <+: u ++ b :: v → q <+: u := by
  intro u
  induction u with
  | nil =>
    intro q v hb h
    rw [List.nil_append, List.prefix_cons_iff] at h
    rcases h with h | ⟨t, ht, _⟩
    · rw [h]
    · exact absurd (by simp [ht]) hb
  | cons c u ih =>
    intro q v hb h
    rw [List.cons_append, List.prefix_cons_iff] at h
    rcases h with h | ⟨t, ht, h2⟩
    · simp [h]
    · subst ht
      exact List.cons_prefix_cons.mpr
        ⟨rfl, ih t v (fun hm => hb (List.mem_cons_of_mem _ hm)) h2⟩

theorem match_append_cons_iff {p : JsString} {b : Char} (hb : b ∉ p.tail)
    (c : Char) (u v : JsString) :
    p <+: c :: (u ++ b :: v) ↔ p <+: c :: u := by
  constructor
  · intro h
    cases p with
    | nil => exact List.nil_prefix
    | cons a pb =>
      obtain ⟨hac, h2⟩ := List.cons_prefix_cons.mp h
      exact List.cons_prefix_cons.mpr ⟨hac, prefix_of_prefix_append_cons u pb v hb h2⟩
  · intro h
    have : c :: u <+: c :: (u ++ b :: v) :=
      List.cons_prefix_cons.mpr ⟨rfl, List.prefix_append u (b :: v)⟩
    exact h.trans this

theorem replaceAll_append_cons {p r : JsString} {b : Char} (hb : b ∉ p.tail) (v : JsString) :
    ∀ (n : Nat) (u : JsString), u.length ≤ n →
      replaceAll p r (u ++ b :: v) = replaceAll p r u ++ replaceAll p r (b :: v) := by
  intro n
  induction n with
  | zero =>
    intro u hu
    have : u = [] := List.length_eq_zero.mp (Nat.le_zero.mp hu)
    subst this
    rw [List.nil_append, replaceAll_nil, List.nil_append]
  | succ k ih =>
    intro u hu
    cases u with
    | nil => rw [List.nil_append, replaceAll_nil, List.nil_append]
    | cons c u =>
      have hk : u.length ≤ k := by simpa using hu
      by_cases hm : p <+: c :: u
      · have hm2 : p <+: c :: (u ++ b :: v) := (match_append_cons_iff hb c u v).mpr hm
        have hlen : p.length - 1 ≤ u.length := by
          have := hm.length_le
          simp only [List.length_cons] at this
          omega
        rw [List.cons_append, replaceAll_cons_of_match hm2, replaceAll_cons_of_match hm,
          List.drop_append_of_le_length hlen, ih _ (by rw [List.length_drop]; omega),
          List.append_assoc]
      · have hm2 : ¬ p <+: c :: (u ++ b :: v) :=
          fun h => hm ((match_append_cons_iff hb c u v).mp h)
        rw [List.cons_append, replaceAll_cons_of_no_match hm2, replaceAll_cons_of_no_match hm,
          ih u hk, List.cons_append]

theorem replaceAll_copy {p pb r : JsString} {a : Char} (hp : p = a :: pb) :
    ∀ (g v : JsString), a ∉ g → replaceAll p r (g ++ v) = g ++ replaceAll p r v := by
  intro g
  induction g with
  | nil => intro v _; rfl
  | cons d g ih =>
    intro v hd
    have hne : ¬ p <+: d :: (g ++ v) := by
      intro h
      rw [hp] at h
      exact hd (by simp [(List.cons_prefix_cons.mp h).1])
    rw [List.cons_append, replaceAll_cons_of_no_match hne,
      ih v (fun hm => hd (List.mem_cons_of_mem _ hm)), List.cons_append]

theorem replaceAll_at_pattern {p pb r : JsString} {a : Char} (hp : p = a :: pb) (ha : a ∉ pb)
    (u v : JsString) :
    replaceAll p r (u ++ (p ++ v)) = replaceAll p r u ++ (r ++ replaceAll p r v) := by
  have hb : a ∉ p.tail := by rw [hp]; exact ha
  have hm : p <+: a :: (pb ++ v) := by
    rw [hp]
    exact List.prefix_append (a :: pb) v
  have hd : (pb ++ v).drop (p.length - 1) = v := by
    rw [hp]
    simp
  rw [hp, List.cons_append, ← hp, replaceAll_append_cons hb (pb ++ v) u.length u (Nat.le_refl _),
    replaceAll_cons_of_match hm, hd]

theorem replaceAll_at_other {p pb r g gb : JsString} {a : Char} (hp : p = a :: pb)
    (ha : a ∉ pb) (hg : g = a :: gb) (hgb : a ∉ gb) (hne : ∀ v : JsString, ¬ p <+: g ++ v)
    (u v : JsString) :
    replaceAll p r (u ++ (g ++ v)) = replaceAll p r u ++ (g ++ replaceAll p r v) := by
  have hb : a ∉ p.tail := by rw [hp]; exact ha
  have hm : ¬ p <+: a :: (gb ++ v) := by
    have := hne v
    rw [hg] at this
    exact this
  rw [hg, List.cons_append, replaceAll_append_cons hb (gb ++ v) u.length u (Nat.le_refl _),
    replaceAll_cons_of_no_match hm, replaceAll_copy hp gb v hgb, List.cons_append]

theorem replaceAll_at_char {p r : JsString} {b : Char} (hp : p ≠ []) (hb : b ∉ p)
    (u v : JsString) :
    replaceAll p r (u ++ b :: v) = replaceAll p r u ++ b :: replaceAll p r v := by
  have hb2 : b ∉ p.tail := fun h => hb (List.mem_of_mem_tail h)
  have hm : ¬ p <+: b :: v := by
    intro h
    cases p with
    | nil => exact hp rfl
    | cons a pb => exact hb (by simp [(List.cons_prefix_cons.mp h).1])
  rw [replaceAll_append_cons hb2 v u.length u (Nat.le_refl _), replaceAll_cons_of_no_match hm]

theorem replaceAll_at_run {p pb r : JsString} {a : Char} (hp : p = a :: pb)
    (u : JsString) (c : Char) (w v : JsString) (hw : ∀ d ∈ c :: w, d ∉ p) :
    replaceAll p r (u ++ (c :: w ++ v)) = replaceAll p r u ++ (c :: w ++ replaceAll p r v) := by
  have hne : p ≠ [] := by rw [hp]; exact List.cons_ne_nil a pb
  have hc : c ∉ p := hw c (List.mem_cons_self _ _)
  have ha : a ∉ w := by
    intro h
    exact hw a (List.mem_cons_of_mem _ h) (by rw [hp]; exact List.mem_cons_self _ _)
  rw [List.cons_append, replaceAll_at_char hne hc u (w ++ v), replaceAll_copy hp w v ha,
    List.cons_append]

theorem mem_replaceAll {p r : JsString} (c : Char) :
    ∀ (n : Nat) (s : JsString), s.length ≤ n → c ∈ replaceAll p r s → c ∈ s ∨ c ∈ r := by
  intro n
  induction n with
  | zero =>
    intro s hs h
    have : s = [] := List.length_eq_zero.mp (Nat.le_zero.mp hs)
    subst this
    rw [replaceAll_nil] at h
    exact absurd h (List.not_mem_nil c)
  | succ k ih =>
    intro s hs h
    cases s with
    | nil => rw [replaceAll_nil] at h; exact absurd h (List.not_mem_nil c)
    | cons d ds =>
      have hk : ds.length ≤ k := by simpa using hs
      by_cases hm : p <+: d :: ds
      · rw [replaceAll_cons_of_match hm, List.mem_append] at h
        rcases h with h | h
        · exact Or.inr h
        · rcases ih _ (by rw [List.length_drop]; omega) h with h2 | h2
          · exact Or.inl (List.mem_cons_of_mem _ (List.mem_of_mem_drop h2))
          · exact Or.inr h2
      · rw [replaceAll_cons_of_no_match hm, List.mem_cons] at h
        rcases h with h | h
        · exact Or.inl (by simp [h])
        · rcases ih ds hk h with h2 | h2
          · exact Or.inl (List.mem_cons_of_mem _ h2)
          · exact Or.inr h2

/-! ## Whitespace runs between content -/

theorem collapseFrom_true_head_dropWhile (s : JsString) :
    (collapseFrom false s).dropWhile isJsWhitespace = collapseFrom true s := by
  have hself : (collapseFrom true s).dropWhile isJsWhitespace = collapseFrom true s := by
    have hh := (collapseFrom_chain s true).2 rfl
    cases hc : collapseFrom true s with
    | nil => rfl
    | cons a l =>
      rw [hc] at hh
      have := hh a (by simp)
      simp [List.dropWhile_cons, this]
  cases s with
  | nil => rfl
  | cons c cs =>
    by_cases hc : isJsWhitespace c = true
    · have hcs : (collapseFrom true cs).dropWhile isJsWhitespace = collapseFrom true cs := by
        have hh := (collapseFrom_chain cs true).2 rfl
        cases hcc : collapseFrom true cs with
        | nil => rfl
        | cons a l =>
          rw [hcc] at hh
          have := hh a (by simp)
          simp [List.dropWhile_cons, this]
      rw [collapseFrom_false_cons_ws cs hc, collapseFrom_true_cons_ws cs hc,
        List.dropWhile_cons_of_pos isJsWhitespace_space, hcs]
    · rw [collapseFrom_cons_not_ws false cs hc, collapseFrom_cons_not_ws true cs hc,
        List.dropWhile_cons_of_neg hc]

theorem collapseFrom_append_cons_not_ws {d : Char} (hd : ¬ isJsWhitespace d = true)
    (t : JsString) :
    ∀ (s : JsString) (b : Bool),
      collapseFrom b (s ++ d :: t) = collapseFrom b s ++ d :: collapseFrom false t := by
  intro s
  induction s with
  | nil => intro b; rw [List.nil_append, collapseFrom_nil, List.nil_append,
      collapseFrom_cons_not_ws b t hd]
  | cons c s ih =>
    intro b
    by_cases hc : isJsWhitespace c = true
    · cases b with
      | true =>
        rw [List.cons_append, collapseFrom_true_cons_ws _ hc, collapseFrom_true_cons_ws _ hc,
          ih true]
      | false =>
        rw [List.cons_append, collapseFrom_false_cons_ws _ hc, collapseFrom_false_cons_ws _ hc,
          ih true, List.cons_append]
    · rw [List.cons_append, collapseFrom_cons_not_ws b _ hc, collapseFrom_cons_not_ws b _ hc,
        ih false, List.cons_append]

theorem collapseFrom_true_run_append (t : JsString) :
    ∀ (w : JsString), (∀ c ∈ w, isJsWhitespace c = true) →
      collapseFrom true (w ++ t) = collapseFrom true t := by
  intro w
  induction w with
  | nil => intro _; rfl
  | cons c w ih =>
    intro hw
    rw [List.cons_append, collapseFrom_true_cons_ws _ (hw c (List.mem_cons_self _ _)),
      ih (fun d hd => hw d (List.mem_cons_of_mem _ hd))]

theorem collapseFrom_false_run_append (t : JsString) (c : Char) (w : JsString)
    (hw : ∀ d ∈ c :: w, isJsWhitespace d = true) :
    collapseFrom false (c :: w ++ t) = ' ' :: collapseFrom true t := by
  rw [List.cons_append, collapseFrom_false_cons_ws _ (hw c (List.mem_cons_self _ _)),
    collapseFrom_true_run_append t w (fun d hd => hw d (List.mem_cons_of_mem _ hd))]

theorem collapseFrom_run_all_ws :
    ∀ (w : JsString) (b : Bool), (∀ c ∈ w, isJsWhitespace c = true) →
      ∀ c ∈ collapseFrom b w, isJsWhitespace c = true := by
  intro w
  induction w with
  | nil => intro b _ c hc; rw [collapseFrom_nil] at hc; exact absurd hc (List.not_mem_nil c)
  | cons d w ih =>
    intro b hw c hc
    have hd : isJsWhitespace d = true := hw d (List.mem_cons_self _ _)
    have hrest : ∀ x ∈ w, isJsWhitespace x = true :=
      fun x hx => hw x (List.mem_cons_of_mem _ hx)
    cases b with
    | true =>
      rw [collapseFrom_true_cons_ws w hd] at hc
      exact ih true hrest c hc
    | false =>
      rw [collapseFrom_false_cons_ws w hd, List.mem_cons] at hc
      rcases hc with hc | hc
      · rw [hc]; exact isJsWhitespace_space
      · exact ih true hrest c hc

theorem rdropWhile_append_of_all {p : Char → Bool} (y : JsString) :
    ∀ (r : JsString), (∀ x ∈ r, p x = true) → (y ++ r).rdropWhile p = y.rdropWhile p := by
  intro r hr
  unfold List.rdropWhile
  rw [List.reverse_append,
    List.dropWhile_append_of_pos (fun a ha => hr a (List.mem_reverse.mp ha))]

theorem exists_last_not_ws :
    ∀ (s : JsString), (∃ c ∈ s, ¬ isJsWhitespace c = true) →
      ∃ (s1 : JsString) (d : Char) (run : JsString),
        s = s1 ++ d :: run ∧ ¬ isJsWhitespace d = true ∧
          ∀ c ∈ run, isJsWhitespace c = true := by
  intro s
  induction s with
  | nil => rintro ⟨c, hc, _⟩; exact absurd hc (List.not_mem_nil c)
  | cons a s ih =>
    intro h
    by_cases hs : ∃ c ∈ s, ¬ isJsWhitespace c = true
    · obtain ⟨s1, d, run, hs1, hd, hrun⟩ := ih hs
      exact ⟨a :: s1, d, run, by rw [hs1, List.cons_append], hd, hrun⟩
    · have hall : ∀ c ∈ s, isJsWhitespace c = true := by
        intro c hc
        by_contra hn
        exact hs ⟨c, hc, hn⟩
      obtain ⟨c, hc, hcn⟩ := h
      rcases List.mem_cons.mp hc with hca | hcs
      · exact ⟨[], a, s, rfl, by rw [← hca]; exact hcn, hall⟩
      · exact absurd (hall c hcs) hcn

theorem trim_collapse_decomposed (s1 : JsString) (d : Char) (run : JsString)
    (hd : ¬ isJsWhitespace d = true) (hrun : ∀ c ∈ run, isJsWhitespace c = true) :
    trim (collapseWhitespace (s1 ++ d :: run)) = collapseFrom true s1 ++ [d] := by
  unfold trim collapseWhitespace
  rw [collapseFrom_true_head_dropWhile, collapseFrom_append_cons_not_ws hd run s1 true]
  have h1 : collapseFrom true s1 ++ d :: collapseFrom false run =
      (collapseFrom true s1 ++ [d]) ++ collapseFrom false run := by
    rw [List.append_assoc]
    rfl
  rw [h1, rdropWhile_append_of_all _ _ (collapseFrom_run_all_ws run false hrun),
    List.rdropWhile_concat_neg _ _ _ hd]

theorem trim_collapse_append_run (a b : JsString) (c : Char) (w : JsString)
    (ha : ∃ x ∈ a, ¬ isJsWhitespace x = true) (hb : ∃ x ∈ b, ¬ isJsWhitespace x = true)
    (hw : ∀ x ∈ c :: w, isJsWhitespace x = true) :
    trim (collapseWhitespace (a ++ (c :: w ++ b))) =
      trim (collapseWhitespace a) ++ ' ' :: trim (collapseWhitespace b) := by
  obtain ⟨a1, d, runA, ha1, hd, hrunA⟩ := exists_last_not_ws a ha
  obtain ⟨b1, e, runB, hb1, he, hrunB⟩ := exists_last_not_ws b hb
  have hrun : ∀ x ∈ runA ++ c :: w, isJsWhitespace x = true := by
    intro x hx
    rcases List.mem_append.mp hx with h | h
    · exact hrunA x h
    · exact hw x h
  have hsplit : a ++ (c :: w ++ b) = (a1 ++ d :: ((runA ++ c :: w) ++ b1)) ++ e :: runB := by
    rw [ha1, hb1]
    simp only [List.append_assoc, List.cons_append]
  have hmid : collapseFrom false ((runA ++ c :: w) ++ b1) = ' ' :: collapseFrom true b1 := by
    cases runA with
    | nil => exact collapseFrom_false_run_append b1 c w hw
    | cons r rs => exact collapseFrom_false_run_append b1 r (rs ++ c :: w) hrun
  rw [hsplit, trim_collapse_decomposed _ e runB he hrunB,
    collapseFrom_append_cons_not_ws hd _ a1 true, hmid, ha1, hb1,
    trim_collapse_decomposed a1 d runA hd hrunA, trim_collapse_decomposed b1 e runB he hrunB]
  simp only [List.append_assoc, List.cons_append, List.nil_append]

theorem collapseFrom_of_no_ws :
    ∀ (s : JsString) (b : Bool), (∀ c ∈ s, ¬ isJsWhitespace c = true) → collapseFrom b s = s := by
  intro s
  induction s with
  | nil => intro b _; exact collapseFrom_nil b
  | cons d s ih =>
    intro b h
    rw [collapseFrom_cons_not_ws b s (h d (List.mem_cons_self _ _)),
      ih false (fun c hc => h c (List.mem_cons_of_mem _ hc))]

theorem trim_collapse_of_no_ws (s : JsString) (h : ∀ c ∈ s, ¬ isJsWhitespace c = true) :
    trim (collapseWhitespace s) = s := by
  unfold collapseWhitespace
  rw [collapseFrom_of_no_ws s false h]
  exact trim_eq_self (fun c hc => h c (List.mem_of_mem_head? hc))
    (fun c hc => h c (List.mem_of_mem_getLast? hc))

theorem exists_not_ws_replaceAll {p r rb : JsString} {a : Char} (hr : r = a :: rb)
    (ha : ¬ isJsWhitespace a = true) :
    ∀ (n : Nat) (s : JsString), s.length ≤ n → (∃ c ∈ s, ¬ isJsWhitespace c = true) →
      ∃ c ∈ replaceAll p r s, ¬ isJsWhitespace c = true := by
  intro n
  induction n with
  | zero =>
    intro s hs h
    have : s = [] := List.length_eq_zero.mp (Nat.le_zero.mp hs)
    subst this
    obtain ⟨c, hc, _⟩ := h
    exact absurd hc (List.not_mem_nil c)
  | succ k ih =>
    intro s hs h
    cases s with
    | nil =>
      obtain ⟨c, hc, _⟩ := h
      exact absurd hc (List.not_mem_nil c)
    | cons d ds =>
      have hk : ds.length ≤ k := by simpa using hs
      by_cases hm : p <+: d :: ds
      · rw [replaceAll_cons_of_match hm, hr]
        exact ⟨a, by simp, ha⟩
      · rw [replaceAll_cons_of_no_match hm]
        by_cases hd : isJsWhitespace d = true
        · obtain ⟨c, hc, hcn⟩ := h
          rcases List.mem_cons.mp hc with hcd | hcs
          · rw [hcd] at hcn
            exact absurd hd hcn
          · obtain ⟨x, hx, hxn⟩ := ih ds hk ⟨c, hcs, hcn⟩
            exact ⟨x, List.mem_cons_of_mem _ hx, hxn⟩
        · exact ⟨d, List.mem_cons_self _ _, hd⟩

theorem no_ws_replaceAll {p r : JsString} (hr : ∀ c ∈ r, ¬ isJsWhitespace c = true)
    (s : JsString) (hs : ∀ c ∈ s, ¬ isJsWhitespace c = true) :
    ∀ c ∈ replaceAll p r s, ¬ isJsWhitespace c = true := by
  intro c hc
  rcases mem_replaceAll c s.length s (Nat.le_refl _) hc with h | h
  · exact hs c h
  · exact hr c h

/-! ## Laws of the ATS normalizer -/

theorem optimizeForATS_of_no_ws (s : JsString) (hs : ∀ c ∈ s, ¬ isJsWhitespace c = true) :
    HtmlGeneratorService.optimizeForATS s =
      replaceAll "</em>".toList "</i>".toList
        (replaceAll "<em>".toList "<i>".toList
          (replaceAll "</strong>".toList "</b>".toList
            (replaceAll "<strong>".toList "<b>".toList s))) := by
  unfold HtmlGeneratorService.optimizeForATS
  apply trim_collapse_of_no_ws
  apply no_ws_replaceAll (by decide)
  apply no_ws_replaceAll (by decide)
  apply no_ws_replaceAll (by decide)
  exact no_ws_replaceAll (by decide) s hs

theorem no_ws_append3 {u g v : JsString} (hu : ∀ c ∈ u, ¬ isJsWhitespace c = true)
    (hg : ∀ c ∈ g, ¬ isJsWhitespace c = true) (hv : ∀ c ∈ v, ¬ isJsWhitespace c = true) :
    ∀ c ∈ u ++ (g ++ v), ¬ isJsWhitespace c = true := by
  intro c hc
  rcases List.mem_append.mp hc with h | h
  · exact hu c h
  · rcases List.mem_append.mp h with h2 | h2
    · exact hg c h2
    · exact hv c h2

theorem optimizeForATS_strong_open (u v : JsString)
    (hu : ∀ c ∈ u, ¬ isJsWhitespace c = true) (hv : ∀ c ∈ v, ¬ isJsWhitespace c = true) :
    HtmlGeneratorService.optimizeForATS (u ++ ("<strong>".toList ++ v)) =
      HtmlGeneratorService.optimizeForATS u ++
        ("<b>".toList ++ HtmlGeneratorService.optimizeForATS v) := by
  rw [optimizeForATS_of_no_ws _ (no_ws_append3 hu (by decide) hv),
    optimizeForATS_of_no_ws u hu, optimizeForATS_of_no_ws v hv,
    replaceAll_at_pattern (p := "<strong>".toList) (r := "<b>".toList) rfl (by decide),
    replaceAll_at_other (p := "</strong>".toList) (r := "</b>".toList) (g := "<b>".toList) rfl (by decide) rfl
      (by decide) (by intro w; simp),
    replaceAll_at_other (p := "<em>".toList) (r := "<i>".toList) (g := "<b>".toList) rfl (by decide) rfl
      (by decide) (by intro w; simp),
    replaceAll_at_other (p := "</em>".toList) (r := "</i>".toList) (g := "<b>".toList) rfl (by decide) rfl
      (by decide) (by intro w; simp)]

theorem optimizeForATS_strong_close (u v : JsString)
    (hu : ∀ c ∈ u, ¬ isJsWhitespace c = true) (hv : ∀ c ∈ v, ¬ isJsWhitespace c = true) :
    HtmlGeneratorService.optimizeForATS (u ++ ("</strong>".toList ++ v)) =
      HtmlGeneratorService.optimizeForATS u ++
        ("</b>".toList ++ HtmlGeneratorService.optimizeForATS v) := by
  rw [optimizeForATS_of_no_ws _ (no_ws_append3 hu (by decide) hv),
    optimizeForATS_of_no_ws u hu, optimizeForATS_of_no_ws v hv,
    replaceAll_at_other (p := "<strong>".toList) (r := "<b>".toList) (g := "</strong>".toList) rfl (by decide) rfl
      (by decide) (by intro w; simp),
    replaceAll_at_pattern (p := "</strong>".toList) (r := "</b>".toList) rfl (by decide),
    replaceAll_at_other (p := "<em>".toList) (r := "<i>".toList) (g := "</b>".toList) rfl (by decide) rfl
      (by decide) (by intro w; simp),
    replaceAll_at_other (p := "</em>".toList) (r := "</i>".toList) (g := "</b>".toList) rfl (by decide) rfl
      (by decide) (by intro w; simp)]

theorem optimizeForATS_em_open (u v : JsString)
    (hu : ∀ c ∈ u, ¬ isJsWhitespace c = true) (hv : ∀ c ∈ v, ¬ isJsWhitespace c = true) :
    HtmlGeneratorService.optimizeForATS (u ++ ("<em>".toList ++ v)) =
      HtmlGeneratorService.optimizeForATS u ++
        ("<i>".toList ++ HtmlGeneratorService.optimizeForATS v) := by
  rw [optimizeForATS_of_no_ws _ (no_ws_append3 hu (by decide) hv),
    optimizeForATS_of_no_ws u hu, optimizeForATS_of_no_ws v hv,
    replaceAll_at_other (p := "<strong>".toList) (r := "<b>".toList) (g := "<em>".toList) rfl (by decide) rfl
      (by decide) (by intro w; simp),
    replaceAll_at_other (p := "</strong>".toList) (r := "</b>".toList) (g := "<em>".toList) rfl (by decide) rfl
      (by decide) (by intro w; simp),
    replaceAll_at_pattern (p := "<em>".toList) (r := "<i>".toList) rfl (by decide),
    replaceAll_at_other (p := "</em>".toList) (r := "</i>".toList) (g := "<i>".toList) rfl (by decide) rfl
      (by decide) (by intro w; simp)]

theorem optimizeForATS_em_close (u v : JsString)
    (hu : ∀ c ∈ u, ¬ isJsWhitespace c = true) (hv : ∀ c ∈ v, ¬ isJsWhitespace c = true) :
    HtmlGeneratorService.optimizeForATS (u ++ ("</em>".toList ++ v)) =
      HtmlGeneratorService.optimizeForATS u ++
        ("</i>".toList ++ HtmlGeneratorService.optimizeForATS v) := by
  rw [optimizeForATS_of_no_ws _ (no_ws_append3 hu (by decide) hv),
    optimizeForATS_of_no_ws u hu, optimizeForATS_of_no_ws v hv,
    replaceAll_at_other (p := "<strong>".toList) (r := "<b>".toList) (g := "</em>".toList) rfl (by decide) rfl
      (by decide) (by intro w; simp),
    replaceAll_at_other (p := "</strong>".toList) (r := "</b>".toList) (g := "</em>".toList) rfl (by decide) rfl
      (by decide) (by intro w; simp),
    replaceAll_at_other (p := "<em>".toList) (r := "<i>".toList) (g := "</em>".toList) rfl (by decide) rfl
      (by decide) (by intro w; simp),
    replaceAll_at_pattern (p := "</em>".toList) (r := "</i>".toList) rfl (by decide)]

theorem not_mem_of_ws {p : JsString} (hp : ∀ c ∈ p, ¬ isJsWhitespace c = true)
    {w : JsString} (hw : ∀ d ∈ w, isJsWhitespace d = true) : ∀ d ∈ w, d ∉ p :=
  fun d hd hm => hp d hm (hw d hd)

theorem optimizeForATS_run (u v : JsString) (c : Char) (w : JsString)
    (hu : ∃ x ∈ u, ¬ isJsWhitespace x = true) (hv : ∃ x ∈ v, ¬ isJsWhitespace x = true)
    (hw : ∀ x ∈ c :: w, isJsWhitespace x = true) :
    HtmlGeneratorService.optimizeForATS (u ++ (c :: w ++ v)) =
      HtmlGeneratorService.optimizeForATS u ++ ' ' :: HtmlGeneratorService.optimizeForATS v := by
  unfold HtmlGeneratorService.optimizeForATS
  rw [replaceAll_at_run (p := "<strong>".toList) rfl u c w v (not_mem_of_ws (by decide) hw),
    replaceAll_at_run (p := "</strong>".toList) rfl _ c w _ (not_mem_of_ws (by decide) hw),
    replaceAll_at_run (p := "<em>".toList) rfl _ c w _ (not_mem_of_ws (by decide) hw),
    replaceAll_at_run (p := "</em>".toList) rfl _ c w _ (not_mem_of_ws (by decide) hw)]
  apply trim_collapse_append_run _ _ c w _ _ hw
  · apply exists_not_ws_replaceAll rfl (by decide) _ _ (Nat.le_refl _)
    apply exists_not_ws_replaceAll rfl (by decide) _ _ (Nat.le_refl _)
    apply exists_not_ws_replaceAll rfl (by decide) _ _ (Nat.le_refl _)
    exact exists_not_ws_replaceAll rfl (by decide) _ _ (Nat.le_refl _) hu
  · apply exists_not_ws_replaceAll rfl (by decide) _ _ (Nat.le_refl _)
    apply exists_not_ws_replaceAll rfl (by decide) _ _ (Nat.le_refl _)
    apply exists_not_ws_replaceAll rfl (by decide) _ _ (Nat.le_refl _)
    exact exists_not_ws_replaceAll rfl (by decide) _ _ (Nat.le_refl _) hv

theorem collapseFrom_append_exists (t : JsString) :
    ∀ (s : JsString) (b : Bool),
      ∃ b2 : Bool, collapseFrom b (s ++ t) = collapseFrom b s ++ collapseFrom b2 t := by
  intro s
  induction s with
  | nil => intro b; exact ⟨b, by rw [List.nil_append, collapseFrom_nil, List.nil_append]⟩
  | cons c s ih =>
    intro b
    by_cases hc : isJsWhitespace c = true
    · obtain ⟨b2, h2⟩ := ih true
      cases b with
      | true =>
        exact ⟨b2, by rw [List.cons_append, collapseFrom_true_cons_ws _ hc,
          collapseFrom_true_cons_ws _ hc, h2]⟩
      | false =>
        exact ⟨b2, by rw [List.cons_append, collapseFrom_false_cons_ws _ hc,
          collapseFrom_false_cons_ws _ hc, h2, List.cons_append]⟩
    · obtain ⟨b2, h2⟩ := ih false
      exact ⟨b2, by rw [List.cons_append, collapseFrom_cons_not_ws b _ hc,
        collapseFrom_cons_not_ws b _ hc, h2, List.cons_append]⟩

theorem trim_collapse_leading_run (w x : JsString) (hw : ∀ c ∈ w, isJsWhitespace c = true) :
    trim (collapseWhitespace (w ++ x)) = trim (collapseWhitespace x) := by
  unfold trim collapseWhitespace
  rw [collapseFrom_true_head_dropWhile, collapseFrom_true_head_dropWhile,
    collapseFrom_true_run_append x w hw]

theorem trim_collapse_trailing_run (x w : JsString) (hw : ∀ c ∈ w, isJsWhitespace c = true) :
    trim (collapseWhitespace (x ++ w)) = trim (collapseWhitespace x) := by
  unfold trim collapseWhitespace
  rw [collapseFrom_true_head_dropWhile, collapseFrom_true_head_dropWhile]
  obtain ⟨b2, h2⟩ := collapseFrom_append_exists w x true
  rw [h2, rdropWhile_append_of_all _ _ (collapseFrom_run_all_ws w b2 hw)]

theorem optimizeForATS_leading_run (w v : JsString) (hw : ∀ c ∈ w, isJsWhitespace c = true) :
    HtmlGeneratorService.optimizeForATS (w ++ v) = HtmlGeneratorService.optimizeForATS v := by
  have h : ∀ (p pb r : JsString) (a : Char), p = a :: pb → ¬ isJsWhitespace a = true →
      ∀ y : JsString, replaceAll p r (w ++ y) = w ++ replaceAll p r y :=
    fun p pb r a hp ha y => replaceAll_copy hp w y (fun hm => ha (hw a hm))
  unfold HtmlGeneratorService.optimizeForATS
  rw [h "<strong>".toList _ "<b>".toList _ rfl (by decide),
    h "</strong>".toList _ "</b>".toList _ rfl (by decide),
    h "<em>".toList _ "<i>".toList _ rfl (by decide),
    h "</em>".toList _ "</i>".toList _ rfl (by decide)]
  exact trim_collapse_leading_run w _ hw

theorem optimizeForATS_trailing_run (u w : JsString) (hw : ∀ c ∈ w, isJsWhitespace c = true) :
    HtmlGeneratorService.optimizeForATS (u ++ w) = HtmlGeneratorService.optimizeForATS u := by
  cases w with
  | nil => rw [List.append_nil]
  | cons c w =>
    have h : ∀ (p pb r : JsString) (a : Char), p = a :: pb →
        (∀ x ∈ p, ¬ isJsWhitespace x = true) →
        ∀ y : JsString, replaceAll p r (y ++ c :: w) = replaceAll p r y ++ c :: w := by
      intro p pb r a hp hpw y
      have := replaceAll_at_run (r := r) hp y c w [] (not_mem_of_ws hpw hw)
      simpa only [replaceAll_nil, List.append_nil] using this
    unfold HtmlGeneratorService.optimizeForATS
    rw [h "<strong>".toList _ "<b>".toList _ rfl (by decide),
      h "</strong>".toList _ "</b>".toList _ rfl (by decide),
      h "<em>".toList _ "<i>".toList _ rfl (by decide),
      h "</em>".toList _ "</i>".toList _ rfl (by decide)]
    exact trim_collapse_trailing_run _ _ hw

theorem rewriteChain_at_plain_tag (g gb : JsString) (hg : g = '<' :: gb) (hgb : '<' ∉ gb)
    (h1 : ∀ v : JsString, ¬ "<strong>".toList <+: g ++ v)
    (h2 : ∀ v : JsString, ¬ "</strong>".toList <+: g ++ v)
    (h3 : ∀ v : JsString, ¬ "<em>".toList <+: g ++ v)
    (h4 : ∀ v : JsString, ¬ "</em>".toList <+: g ++ v) (u v : JsString) :
    replaceAll "</em>".toList "</i>".toList
        (replaceAll "<em>".toList "<i>".toList
          (replaceAll "</strong>".toList "</b>".toList
            (replaceAll "<strong>".toList "<b>".toList (u ++ (g ++ v))))) =
      replaceAll "</em>".toList "</i>".toList
          (replaceAll "<em>".toList "<i>".toList
            (replaceAll "</strong>".toList "</b>".toList
              (replaceAll "<strong>".toList "<b>".toList u))) ++
        (g ++ replaceAll "</em>".toList "</i>".toList
          (replaceAll "<em>".toList "<i>".toList
            (replaceAll "</strong>".toList "</b>".toList
              (replaceAll "<strong>".toList "<b>".toList v)))) := by
  rw [replaceAll_at_other (p := "<strong>".toList) (r := "<b>".toList) (g := g) rfl (by decide)
      hg hgb h1,
    replaceAll_at_other (p := "</strong>".toList) (r := "</b>".toList) (g := g) rfl (by decide)
      hg hgb h2,
    replaceAll_at_other (p := "<em>".toList) (r := "<i>".toList) (g := g) rfl (by decide)
      hg hgb h3,
    replaceAll_at_other (p := "</em>".toList) (r := "</i>".toList) (g := g) rfl (by decide)
      hg hgb h4]

theorem optimizeForATS_tag_equiv (u v : JsString) :
    HtmlGeneratorService.optimizeForATS (u ++ ("<strong>".toList ++ v)) =
      HtmlGeneratorService.optimizeForATS (u ++ ("<b>".toList ++ v)) ∧
    HtmlGeneratorService.optimizeForATS (u ++ ("</strong>".toList ++ v)) =
      HtmlGeneratorService.optimizeForATS (u ++ ("</b>".toList ++ v)) ∧
    HtmlGeneratorService.optimizeForATS (u ++ ("<em>".toList ++ v)) =
      HtmlGeneratorService.optimizeForATS (u ++ ("<i>".toList ++ v)) ∧
    HtmlGeneratorService.optimizeForATS (u ++ ("</em>".toList ++ v)) =
      HtmlGeneratorService.optimizeForATS (u ++ ("</i>".toList ++ v)) := by
  unfold HtmlGeneratorService.optimizeForATS
  refine ⟨?_, ?_, ?_, ?_⟩
  · rw [rewriteChain_at_plain_tag "<b>".toList _ rfl (by decide) (by intro w; simp)
        (by intro w; simp) (by intro w; simp) (by intro w; simp),
      replaceAll_at_pattern (p := "<strong>".toList) (r := "<b>".toList) rfl (by decide),
      replaceAll_at_other (p := "</strong>".toList) (r := "</b>".toList) (g := "<b>".toList)
        rfl (by decide) rfl (by decide) (by intro w; simp),
      replaceAll_at_other (p := "<em>".toList) (r := "<i>".toList) (g := "<b>".toList)
        rfl (by decide) rfl (by decide) (by intro w; simp),
      replaceAll_at_other (p := "</em>".toList) (r := "</i>".toList) (g := "<b>".toList)
        rfl (by decide) rfl (by decide) (by intro w; simp)]
  · rw [rewriteChain_at_plain_tag "</b>".toList _ rfl (by decide) (by intro w; simp)
        (by intro w; simp) (by intro w; simp) (by intro w; simp),
      replaceAll_at_other (p := "<strong>".toList) (r := "<b>".toList) (g := "</strong>".toList)
        rfl (by decide) rfl (by decide) (by intro w; simp),
      replaceAll_at_pattern (p := "</strong>".toList) (r := "</b>".toList) rfl (by decide),
      replaceAll_at_other (p := "<em>".toList) (r := "<i>".toList) (g := "</b>".toList)
        rfl (by decide) rfl (by decide) (by intro w; simp),
      replaceAll_at_other (p := "</em>".toList) (r := "</i>".toList) (g := "</b>".toList)
        rfl (by decide) rfl (by decide) (by intro w; simp)]
  · rw [rewriteChain_at_plain_tag "<i>".toList _ rfl (by decide) (by intro w; simp)
        (by intro w; simp) (by intro w; simp) (by intro w; simp),
      replaceAll_at_other (p := "<strong>".toList) (r := "<b>".toList) (g := "<em>".toList)
        rfl (by decide) rfl (by decide) (by intro w; simp),
      replaceAll_at_other (p := "</strong>".toList) (r := "</b>".toList) (g := "<em>".toList)
        rfl (by decide) rfl (by decide) (by intro w; simp),
      replaceAll_at_pattern (p := "<em>".toList) (r := "<i>".toList) rfl (by decide),
      replaceAll_at_other (p := "</em>".toList) (r := "</i>".toList) (g := "<i>".toList)
        rfl (by decide) rfl (by decide) (by intro w; simp)]
  · rw [rewriteChain_at_plain_tag "</i>".toList _ rfl (by decide) (by intro w; simp)
        (by intro w; simp) (by intro w; simp) (by intro w; simp),
      replaceAll_at_other (p := "<strong>".toList) (r := "<b>".toList) (g := "</em>".toList)
        rfl (by decide) rfl (by decide) (by intro w; simp),
      replaceAll_at_other (p := "</strong>".toList) (r := "</b>".toList) (g := "</em>".toList)
        rfl (by decide) rfl (by decide) (by intro w; simp),
      replaceAll_at_other (p := "<em>".toList) (r := "<i>".toList) (g := "</em>".toList)
        rfl (by decide) rfl (by decide) (by intro w; simp),
      replaceAll_at_pattern (p := "</em>".toList) (r := "</i>".toList) rfl (by decide)]

/-! ## Claims on the ATS normalizer -/

/-- C1: `optimizeForATS` is idempotent. -/
theorem optimizeForATS_idempotent (x : JsString) :
    HtmlGeneratorService.optimizeForATS (HtmlGeneratorService.optimizeForATS x) = HtmlGeneratorService.optimizeForATS x := by
  have h1 := optimizeForATS_no_strong_open x
  have h2 := optimizeForATS_no_strong_close x
  have h3 := optimizeForATS_no_em_open x
  have h4 := optimizeForATS_no_em_close x
  have hn := optimizeForATS_wsNormal x
  have hh : ∀ c ∈ (HtmlGeneratorService.optimizeForATS x).head?, ¬ isJsWhitespace c = true := trim_head _
  have hl : ∀ c ∈ (HtmlGeneratorService.optimizeForATS x).getLast?, ¬ isJsWhitespace c = true := trim_getLast _
  generalize HtmlGeneratorService.optimizeForATS x = y at *
  unfold HtmlGeneratorService.optimizeForATS
  rw [replaceAll_eq_self y h1, replaceAll_eq_self y h2, replaceAll_eq_self y h3,
    replaceAll_eq_self y h4]
  unfold collapseWhitespace
  rw [collapseFrom_eq_self y false hn (fun h => absurd h (by decide)), trim_eq_self hh hl]

/-- C2: the output of `optimizeForATS` contains none of `<strong>`, `</strong>`, `<em>`,
`</em>` (each rewrite removes every occurrence of its tag, and no later rewrite, nor the
whitespace collapse, nor the trim creates one).  Each tag of the input is rewritten to its
counterpart: in any context the input with the tag and the input with `<b>`, `</b>`, `<i>`,
`</i>` in its place have the same output, and in a context free of whitespace the output has
the counterpart at the place of the tag. -/
theorem optimizeForATS_no_semantic_tags :
    (∀ x : JsString,
      ¬ "<strong>".toList <:+: HtmlGeneratorService.optimizeForATS x ∧
      ¬ "</strong>".toList <:+: HtmlGeneratorService.optimizeForATS x ∧
      ¬ "<em>".toList <:+: HtmlGeneratorService.optimizeForATS x ∧
      ¬ "</em>".toList <:+: HtmlGeneratorService.optimizeForATS x) ∧
    (∀ u v : JsString,
      HtmlGeneratorService.optimizeForATS (u ++ ("<strong>".toList ++ v)) =
        HtmlGeneratorService.optimizeForATS (u ++ ("<b>".toList ++ v)) ∧
      HtmlGeneratorService.optimizeForATS (u ++ ("</strong>".toList ++ v)) =
        HtmlGeneratorService.optimizeForATS (u ++ ("</b>".toList ++ v)) ∧
      HtmlGeneratorService.optimizeForATS (u ++ ("<em>".toList ++ v)) =
        HtmlGeneratorService.optimizeForATS (u ++ ("<i>".toList ++ v)) ∧
      HtmlGeneratorService.optimizeForATS (u ++ ("</em>".toList ++ v)) =
        HtmlGeneratorService.optimizeForATS (u ++ ("</i>".toList ++ v))) ∧
    (∀ u v : JsString,
      (∀ c ∈ u, ¬ isJsWhitespace c = true) → (∀ c ∈ v, ¬ isJsWhitespace c = true) →
      HtmlGeneratorService.optimizeForATS (u ++ ("<strong>".toList ++ v)) =
        HtmlGeneratorService.optimizeForATS u ++
          ("<b>".toList ++ HtmlGeneratorService.optimizeForATS v) ∧
      HtmlGeneratorService.optimizeForATS (u ++ ("</strong>".toList ++ v)) =
        HtmlGeneratorService.optimizeForATS u ++
          ("</b>".toList ++ HtmlGeneratorService.optimizeForATS v) ∧
      HtmlGeneratorService.optimizeForATS (u ++ ("<em>".toList ++ v)) =
        HtmlGeneratorService.optimizeForATS u ++
          ("<i>".toList ++ HtmlGeneratorService.optimizeForATS v) ∧
      HtmlGeneratorService.optimizeForATS (u ++ ("</em>".toList ++ v)) =
        HtmlGeneratorService.optimizeForATS u ++
          ("</i>".toList ++ HtmlGeneratorService.optimizeForATS v)) :=
  ⟨fun x => ⟨optimizeForATS_no_strong_open x, optimizeForATS_no_strong_close x,
      optimizeForATS_no_em_open x, optimizeForATS_no_em_close x⟩,
    optimizeForATS_tag_equiv,
    fun u v hu hv => ⟨optimizeForATS_strong_open u v hu hv, optimizeForATS_strong_close u v hu hv,
      optimizeForATS_em_open u v hu hv, optimizeForATS_em_close u v hu hv⟩⟩

/-- Witness for C2, at the input `a<strong>b` and its three siblings. -/
theorem optimizeForATS_no_semantic_tags_witness :
    (∀ c ∈ "a".toList, ¬ isJsWhitespace c = true) ∧
    (∀ c ∈ "b".toList, ¬ isJsWhitespace c = true) ∧
    HtmlGeneratorService.optimizeForATS ("a".toList ++ ("<strong>".toList ++ "b".toList)) =
      HtmlGeneratorService.optimizeForATS "a".toList ++
        ("<b>".toList ++ HtmlGeneratorService.optimizeForATS "b".toList) ∧
    HtmlGeneratorService.optimizeForATS ("a".toList ++ ("</strong>".toList ++ "b".toList)) =
      HtmlGeneratorService.optimizeForATS "a".toList ++
        ("</b>".toList ++ HtmlGeneratorService.optimizeForATS "b".toList) ∧
    HtmlGeneratorService.optimizeForATS ("a".toList ++ ("<em>".toList ++ "b".toList)) =
      HtmlGeneratorService.optimizeForATS "a".toList ++
        ("<i>".toList ++ HtmlGeneratorService.optimizeForATS "b".toList) ∧
    HtmlGeneratorService.optimizeForATS ("a".toList ++ ("</em>".toList ++ "b".toList)) =
      HtmlGeneratorService.optimizeForATS "a".toList ++
        ("</i>".toList ++ HtmlGeneratorService.optimizeForATS "b".toList) :=
  ⟨by decide, by decide,
    optimizeForATS_no_semantic_tags.2.2 "a".toList "b".toList (by decide) (by decide)⟩

/-- C3: the output of `optimizeForATS` neither starts nor ends with a whitespace character,
every whitespace character in it is U+0020, and no two whitespace characters are adjacent.
A non-empty whitespace run between two parts that both contain a character other than
whitespace becomes exactly one space; a whitespace run at either end of the input
disappears. -/
theorem optimizeForATS_whitespace :
    (∀ x : JsString,
      (∀ c ∈ (HtmlGeneratorService.optimizeForATS x).head?, ¬ isJsWhitespace c = true) ∧
      (∀ c ∈ (HtmlGeneratorService.optimizeForATS x).getLast?, ¬ isJsWhitespace c = true) ∧
      (∀ c ∈ HtmlGeneratorService.optimizeForATS x, isJsWhitespace c = true → c = ' ') ∧
      List.Chain' (fun a b => ¬ (isJsWhitespace a = true ∧ isJsWhitespace b = true))
        (HtmlGeneratorService.optimizeForATS x)) ∧
    (∀ u w v : JsString,
      (∃ c ∈ u, ¬ isJsWhitespace c = true) → (∃ c ∈ v, ¬ isJsWhitespace c = true) →
      w ≠ [] → (∀ c ∈ w, isJsWhitespace c = true) →
      HtmlGeneratorService.optimizeForATS (u ++ (w ++ v)) =
        HtmlGeneratorService.optimizeForATS u ++ ' ' :: HtmlGeneratorService.optimizeForATS v) ∧
    (∀ w v : JsString, (∀ c ∈ w, isJsWhitespace c = true) →
      HtmlGeneratorService.optimizeForATS (w ++ v) = HtmlGeneratorService.optimizeForATS v) ∧
    (∀ u w : JsString, (∀ c ∈ w, isJsWhitespace c = true) →
      HtmlGeneratorService.optimizeForATS (u ++ w) = HtmlGeneratorService.optimizeForATS u) := by
  refine ⟨fun x => ⟨trim_head _, trim_getLast _, (optimizeForATS_wsNormal x).1,
    (optimizeForATS_wsNormal x).2⟩, ?_, optimizeForATS_leading_run, optimizeForATS_trailing_run⟩
  intro u w v hu hv hne hw
  cases w with
  | nil => exact absurd rfl hne
  | cons c w => exact optimizeForATS_run u v c w hu hv hw

/-- Witness for C3, at the input `a`, space, line feed, tab, `b`, and with the same run at
either end of `b`. -/
theorem optimizeForATS_whitespace_witness :
    (∃ c ∈ "a".toList, ¬ isJsWhitespace c = true) ∧
    (∃ c ∈ "b".toList, ¬ isJsWhitespace c = true) ∧
    " \n\t".toList ≠ [] ∧
    (∀ c ∈ " \n\t".toList, isJsWhitespace c = true) ∧
    HtmlGeneratorService.optimizeForATS ("a".toList ++ (" \n\t".toList ++ "b".toList)) =
      HtmlGeneratorService.optimizeForATS "a".toList ++
        ' ' :: HtmlGeneratorService.optimizeForATS "b".toList ∧
    HtmlGeneratorService.optimizeForATS (" \n\t".toList ++ "b".toList) =
      HtmlGeneratorService.optimizeForATS "b".toList ∧
    HtmlGeneratorService.optimizeForATS ("b".toList ++ " \n\t".toList) =
      HtmlGeneratorService.optimizeForATS "b".toList :=
  ⟨by decide, by decide, by decide, by decide,
    optimizeForATS_whitespace.2.1 "a".toList " \n\t".toList "b".toList (by decide) (by decide)
      (by decide) (by decide),
    optimizeForATS_whitespace.2.2.1 " \n\t".toList "b".toList (by decide),
    optimizeForATS_whitespace.2.2.2 "b".toList " \n\t".toList (by decide)⟩
/-! ## Counting occurrences across a concatenation -/

theorem countOccurrences_cons (q : JsString) (c : Char) (cs : JsString) :
    countOccurrences q (c :: cs) =
      (if q.isPrefixOf (c :: cs) then 1 else 0) + countOccurrences q cs := rfl

theorem countOccurrences_append (q : JsString) :
    ∀ (u v : JsString),
      (∀ i, 0 < i → i < q.length → q.take i <:+ u → q.drop i <+: v → False) →
      countOccurrences q (u ++ v) = countOccurrences q u + countOccurrences q v := by
  intro u
  induction u with
  | nil => intro v _; simp [countOccurrences]
  | cons c u ih =>
    intro v h
    have hrest : ∀ i, 0 < i → i < q.length → q.take i <:+ u → q.drop i <+: v → False :=
      fun i h0 h1 h2 h3 => h i h0 h1 (h2.trans (List.suffix_cons c u)) h3
    have hiff : q <+: c :: (u ++ v) ↔ q <+: c :: u := by
      constructor
      · intro hq
        by_cases hl : q.length ≤ (c :: u).length
        · exact List.prefix_of_prefix_length_le hq (List.prefix_append (c :: u) v) hl
        · exfalso
          obtain ⟨r, hr⟩ := hq
          have hr2 : q ++ r = (c :: u) ++ v := by simpa using hr
          rcases List.append_eq_append_iff.mp hr2 with ⟨a, ha, _⟩ | ⟨m, hm, hv⟩
          · apply hl
            rw [ha]
            simp
          · refine h (c :: u).length (by simp) (by omega) ?_ ?_
            · rw [hm, List.take_left]
            · rw [hm, List.drop_left, hv]
              exact List.prefix_append m r
      · intro hq
        exact hq.trans (List.prefix_append (c :: u) v)
    have hb : q.isPrefixOf (c :: (u ++ v)) = q.isPrefixOf (c :: u) := by
      rw [Bool.eq_iff_iff, List.isPrefixOf_iff_prefix, List.isPrefixOf_iff_prefix]
      exact hiff
    rw [List.cons_append, countOccurrences_cons, countOccurrences_cons, hb, ih v hrest]
    omega

theorem countOccurrences_append_left {q u : JsString} (h : crossesLeft q u = false)
    (v : JsString) :
    countOccurrences q (u ++ v) = countOccurrences q u + countOccurrences q v := by
  apply countOccurrences_append
  intro i h0 h1 h2 _
  have : crossesLeft q u = true := by
    unfold crossesLeft
    rw [List.any_eq_true]
    exact ⟨i, List.mem_range.mpr h1, by simp [h0, List.isSuffixOf_iff_suffix.mpr h2]⟩
  rw [h] at this
  exact Bool.noConfusion this

theorem countOccurrences_append_right {q w : JsString} (h : crossesRight q w = false)
    (hl : q.length ≤ w.length + 1) (u rest : JsString) :
    countOccurrences q (u ++ (w ++ rest)) =
      countOccurrences q u + countOccurrences q (w ++ rest) := by
  apply countOccurrences_append
  intro i h0 h1 _ h3
  have hlen : (q.drop i).length ≤ w.length := by
    rw [List.length_drop]
    omega
  have h4 : q.drop i <+: w := List.prefix_of_prefix_length_le h3 (List.prefix_append w rest) hlen
  have : crossesRight q w = true := by
    unfold crossesRight
    rw [List.any_eq_true]
    exact ⟨i, List.mem_range.mpr h1, by simp [h0, List.isPrefixOf_iff_prefix.mpr h4]⟩
  rw [h] at this
  exact Bool.noConfusion this

theorem countOccurrences_of_not_mem {q qb : JsString} {a : Char} (hq : q = a :: qb) :
    ∀ (u v : JsString), a ∉ u → countOccurrences q (u ++ v) = countOccurrences q v := by
  intro u
  induction u with
  | nil => intro v _; rfl
  | cons c u ih =>
    intro v hc
    have hne : ¬ a = c := fun hac => hc (by simp [hac])
    have hu : a ∉ u := fun hm => hc (List.mem_cons_of_mem _ hm)
    have hb : q.isPrefixOf (c :: (u ++ v)) = false := by
      rw [Bool.eq_false_iff]
      intro hp
      rw [List.isPrefixOf_iff_prefix, hq] at hp
      exact hne (List.cons_prefix_cons.mp hp).1
    rw [List.cons_append, countOccurrences_cons, hb, ih v hu]
    simp

/-! ## The document template -/

theorem generateCompleteDocument_eq (f : JsString) (title : Option JsString) :
    HtmlGeneratorService.generateCompleteDocument f title =
      documentBeforeTitle ++ (title.getD "Professional CV".toList ++ (documentBeforeStyles ++
        (StyleGeneratorService.generateProfessionalStyles ++ (documentBeforeContent ++
          (f ++ documentAfterContent))))) := by
  simp only [HtmlGeneratorService.generateCompleteDocument,
    HtmlGeneratorService._buildHtmlDocument, HtmlGeneratorService._generateHtmlHead,
    documentBeforeTitle, headBeforeTitle, documentBeforeStyles, documentBeforeContent,
    documentAfterContent,
    List.append_assoc]

theorem generateHtmlHead_eq (title styles : JsString) :
    HtmlGeneratorService._generateHtmlHead title styles =
      headBeforeTitle ++ (title ++ (documentBeforeStyles ++ (styles ++ "</style>".toList))) := by
  simp only [HtmlGeneratorService._generateHtmlHead, headBeforeTitle, documentBeforeStyles,
    List.append_assoc]

/-! ## The stylesheet contains no `<` -/

namespace StyleGeneratorService

set_option maxRecDepth 100000 in
theorem lt_not_mem_base : '<' ∉ _generateBaseStyles := by decide

set_option maxRecDepth 100000 in
theorem lt_not_mem_header : '<' ∉ _generateHeaderStyles := by decide

set_option maxRecDepth 100000 in
theorem lt_not_mem_section : '<' ∉ _generateSectionStyles := by decide

set_option maxRecDepth 100000 in
theorem lt_not_mem_text : '<' ∉ _generateTextStyles := by decide

set_option maxRecDepth 100000 in
theorem lt_not_mem_list : '<' ∉ _generateListStyles := by decide

set_option maxRecDepth 100000 in
theorem lt_not_mem_special : '<' ∉ _generateSpecialSectionStyles := by decide

set_option maxRecDepth 100000 in
theorem lt_not_mem_print : '<' ∉ _generatePrintStyles := by decide

set_option maxRecDepth 100000 in
theorem lt_not_mem_ats : '<' ∉ _generateATSOptimizedStyles := by decide

theorem lt_not_mem_styles : '<' ∉ generateProfessionalStyles := by
  have hn : '<' ∉ "\n".toList := by decide
  have hi : '<' ∉ "            ".toList := by decide
  have he : '<' ∉ "        ".toList := by decide
  simp only [generateProfessionalStyles, List.mem_append, not_or]
  exact ⟨⟨⟨⟨⟨⟨⟨⟨⟨⟨⟨⟨⟨⟨⟨⟨⟨⟨⟨⟨⟨⟨⟨⟨⟨hn, hi⟩, lt_not_mem_base⟩, hn⟩, hi⟩, lt_not_mem_header⟩, hn⟩, hi⟩,
    lt_not_mem_section⟩, hn⟩, hi⟩, lt_not_mem_text⟩, hn⟩, hi⟩, lt_not_mem_list⟩, hn⟩, hi⟩,
    lt_not_mem_special⟩, hn⟩, hi⟩, lt_not_mem_print⟩, hn⟩, hi⟩, lt_not_mem_ats⟩, hn⟩, he⟩

end StyleGeneratorService

/-! ## Occurrences of a tag in the assembled document -/

theorem countOccurrences_document (q qb : JsString) (hq : q = '<' :: qb)
    (h1 : crossesLeft q documentBeforeTitle = false)
    (h2 : crossesRight q documentBeforeStyles = false)
    (h2l : q.length ≤ documentBeforeStyles.length + 1)
    (h3 : crossesLeft q documentBeforeStyles = false)
    (h4 : crossesLeft q documentBeforeContent = false)
    (h5 : crossesRight q documentAfterContent = false)
    (h5l : q.length ≤ documentAfterContent.length + 1)
    (f : JsString) (title : Option JsString) :
    countOccurrences q (HtmlGeneratorService.generateCompleteDocument f title) =
      countOccurrences q documentBeforeTitle
        + countOccurrences q (title.getD "Professional CV".toList)
        + countOccurrences q documentBeforeStyles + countOccurrences q documentBeforeContent
        + countOccurrences q f + countOccurrences q documentAfterContent := by
  have hf := countOccurrences_append_right h5 h5l f []
  rw [List.append_nil] at hf
  rw [generateCompleteDocument_eq, countOccurrences_append_left h1,
    countOccurrences_append_right h2 h2l, countOccurrences_append_left h3,
    countOccurrences_of_not_mem hq _ _ StyleGeneratorService.lt_not_mem_styles,
    countOccurrences_append_left h4, hf]
  omega

theorem countOccurrences_head (q qb : JsString) (hq : q = '<' :: qb)
    (h1 : crossesLeft q headBeforeTitle = false)
    (h2 : crossesRight q documentBeforeStyles = false)
    (h2l : q.length ≤ documentBeforeStyles.length + 1)
    (h3 : crossesLeft q documentBeforeStyles = false)
    (title : JsString) :
    countOccurrences q (HtmlGeneratorService._generateHtmlHead title
        StyleGeneratorService.generateProfessionalStyles) =
      countOccurrences q headBeforeTitle + countOccurrences q title
        + countOccurrences q documentBeforeStyles + countOccurrences q "</style>".toList := by
  rw [generateHtmlHead_eq, countOccurrences_append_left h1,
    countOccurrences_append_right h2 h2l, countOccurrences_append_left h3,
    countOccurrences_of_not_mem hq _ _ StyleGeneratorService.lt_not_mem_styles]
  omega

set_option maxRecDepth 100000 in
theorem countOccurrences_title_document (f : JsString) (title : Option JsString) :
    countOccurrences "<title>".toList (HtmlGeneratorService.generateCompleteDocument f title) =
      1 + countOccurrences "<title>".toList (title.getD "Professional CV".toList)
        + countOccurrences "<title>".toList f := by
  rw [countOccurrences_document "<title>".toList "title>".toList rfl (by decide) (by decide) (by decide) (by decide) (by decide)
    (by decide) (by decide)]
  have e1 : countOccurrences "<title>".toList documentBeforeTitle = 1 := by decide
  have e2 : countOccurrences "<title>".toList documentBeforeStyles = 0 := by decide
  have e3 : countOccurrences "<title>".toList documentBeforeContent = 0 := by decide
  have e4 : countOccurrences "<title>".toList documentAfterContent = 0 := by decide
  rw [e1, e2, e3, e4]
  omega

set_option maxRecDepth 100000 in
theorem countOccurrences_style_document (f : JsString) (title : Option JsString) :
    countOccurrences "<style>".toList (HtmlGeneratorService.generateCompleteDocument f title) =
      1 + countOccurrences "<style>".toList (title.getD "Professional CV".toList)
        + countOccurrences "<style>".toList f := by
  rw [countOccurrences_document "<style>".toList "style>".toList rfl (by decide) (by decide) (by decide) (by decide) (by decide)
    (by decide) (by decide)]
  have e1 : countOccurrences "<style>".toList documentBeforeTitle = 0 := by decide
  have e2 : countOccurrences "<style>".toList documentBeforeStyles = 1 := by decide
  have e3 : countOccurrences "<style>".toList documentBeforeContent = 0 := by decide
  have e4 : countOccurrences "<style>".toList documentAfterContent = 0 := by decide
  rw [e1, e2, e3, e4]
  omega

set_option maxRecDepth 100000 in
theorem countOccurrences_link_head (title : JsString) :
    countOccurrences "<link".toList (HtmlGeneratorService._generateHtmlHead title
        StyleGeneratorService.generateProfessionalStyles) =
      countOccurrences "<link".toList title := by
  rw [countOccurrences_head "<link".toList "link".toList rfl (by decide) (by decide) (by decide) (by decide)]
  have e1 : countOccurrences "<link".toList headBeforeTitle = 0 := by decide
  have e2 : countOccurrences "<link".toList documentBeforeStyles = 0 := by decide
  have e3 : countOccurrences "<link".toList "</style>".toList = 0 := by decide
  rw [e1, e2, e3]
  omega

/-! ## Claims on the document assembler -/

/-- C4: the assembled document is a fixed opening that depends on the title only, then the
text `<body>`, a line break and four spaces, then the fragment character for character, then
a line break and `</body>`, `</html>`; in particular the fragment is a contiguous part of the
document. -/
theorem generateCompleteDocument_fragment_verbatim (title : Option JsString) :
    ∃ opening : JsString, ∀ f : JsString,
      HtmlGeneratorService.generateCompleteDocument f title =
        opening ++ "<body>".toList ++ "\n    ".toList ++ f ++ "\n".toList ++ "</body>".toList
          ++ "\n</html>".toList ∧
      f <:+: HtmlGeneratorService.generateCompleteDocument f title := by
  refine ⟨documentBeforeTitle ++ title.getD "Professional CV".toList ++ documentBeforeStyles ++
    StyleGeneratorService.generateProfessionalStyles ++ "</style>\n</head>\n".toList, ?_⟩
  intro f
  have h1 : documentBeforeContent =
      "</style>\n</head>\n".toList ++ "<body>".toList ++ "\n    ".toList := by decide
  have h2 : documentAfterContent = "\n".toList ++ "</body>".toList ++ "\n</html>".toList := by
    decide
  have h3 : HtmlGeneratorService.generateCompleteDocument f title =
      documentBeforeTitle ++ title.getD "Professional CV".toList ++ documentBeforeStyles ++
        StyleGeneratorService.generateProfessionalStyles ++ "</style>\n</head>\n".toList ++
        "<body>".toList ++ "\n    ".toList ++ f ++ "\n".toList ++ "</body>".toList
          ++ "\n</html>".toList := by
    rw [generateCompleteDocument_eq, h1, h2]
    simp only [List.append_assoc]
  refine ⟨h3, ?_⟩
  rw [generateCompleteDocument_eq]
  exact ⟨documentBeforeTitle ++ (title.getD "Professional CV".toList ++ (documentBeforeStyles ++
    (StyleGeneratorService.generateProfessionalStyles ++ documentBeforeContent))),
    documentAfterContent, by simp only [List.append_assoc]⟩

/-- C5, as amended: the document contains one occurrence of `<title>` from the template, plus
those that the title and the fragment themselves contain (both are inserted unescaped). -/
theorem generateCompleteDocument_title_count (f t : JsString) :
    countOccurrences "<title>".toList
        (HtmlGeneratorService.generateCompleteDocument f (some t)) =
      1 + countOccurrences "<title>".toList t + countOccurrences "<title>".toList f :=
  countOccurrences_title_document f (some t)

/-- C5 fails as stated: a fragment that contains a title element yields a document with two
occurrences of `<title>`. -/
theorem generateCompleteDocument_title_count_counterexample :
    countOccurrences "<title>".toList
        (HtmlGeneratorService.generateCompleteDocument "<title>x</title>".toList
          (some "CV".toList)) = 2 ∧
    countOccurrences "<title>".toList
        (HtmlGeneratorService.generateCompleteDocument "<title>x</title>".toList
          (some "CV".toList)) ≠ 1 := by
  rw [countOccurrences_title_document]
  decide

/-- C6, as amended: the document contains one occurrence of `<style>` from the template, plus
those that the title and the fragment themselves contain; the head ends with the template's
style element, whose content is the synthesized stylesheet, which contains no `<` and hence
no closing tag of its own; and the head contains `<link` only where the title does. -/
theorem generateCompleteDocument_single_embedded_stylesheet (f t : JsString) :
    countOccurrences "<style>".toList
        (HtmlGeneratorService.generateCompleteDocument f (some t)) =
      1 + countOccurrences "<style>".toList t + countOccurrences "<style>".toList f ∧
    ("<style>".toList ++ StyleGeneratorService.generateProfessionalStyles ++ "</style>".toList
      <:+ HtmlGeneratorService._generateHtmlHead t
        StyleGeneratorService.generateProfessionalStyles) ∧
    HtmlGeneratorService._generateHtmlHead t StyleGeneratorService.generateProfessionalStyles
      <:+: HtmlGeneratorService.generateCompleteDocument f (some t) ∧
    '<' ∉ StyleGeneratorService.generateProfessionalStyles ∧
    countOccurrences "<link".toList (HtmlGeneratorService._generateHtmlHead t
        StyleGeneratorService.generateProfessionalStyles) =
      countOccurrences "<link".toList t := by
  refine ⟨countOccurrences_style_document f (some t), ?_, ?_,
    StyleGeneratorService.lt_not_mem_styles, countOccurrences_link_head t⟩
  · refine ⟨"<meta charset=\"UTF-8\">\n".toList
      ++ "    <meta name=\"viewport\" content=\"width=device-width, initial-scale=1.0\">\n".toList
      ++ "    <meta name=\"description\" content=\"Professional CV generated from markdown\">\n".toList
      ++ "    <meta name=\"generator\" content=\"Markdown to ATS CV Generator\">\n".toList
      ++ "    <title>".toList ++ t ++ "</title>\n".toList ++ "    ".toList, ?_⟩
    have h : "    <style>".toList = "    ".toList ++ "<style>".toList := by decide
    simp only [HtmlGeneratorService._generateHtmlHead, h, List.append_assoc]
  · simp only [HtmlGeneratorService.generateCompleteDocument,
      HtmlGeneratorService._buildHtmlDocument, Option.getD_some]
    exact ⟨"<!DOCTYPE html>\n".toList ++ "<html lang=\"en\">\n".toList ++ "<head>\n".toList
        ++ "    ".toList,
      "\n".toList ++ "</head>\n".toList ++ "<body>\n".toList ++ "    ".toList ++ f
        ++ "\n".toList ++ "</body>\n".toList ++ "</html>".toList,
      by simp only [List.append_assoc]⟩

/-- C6 fails as stated: a fragment that contains a style tag yields a document with two
occurrences of `<style>`. -/
theorem generateCompleteDocument_single_embedded_stylesheet_counterexample :
    countOccurrences "<style>".toList
        (HtmlGeneratorService.generateCompleteDocument "<style>p{}</style>".toList
          (some "CV".toList)) = 2 ∧
    countOccurrences "<style>".toList
        (HtmlGeneratorService.generateCompleteDocument "<style>p{}</style>".toList
          (some "CV".toList)) ≠ 1 := by
  rw [countOccurrences_style_document]
  decide

set_option maxRecDepth 100000 in
/-- C7: with the title omitted the document is the one for the title `Professional CV`, and it
contains `<title>Professional CV</title>`. -/
theorem generateCompleteDocument_default_title (f : JsString) :
    HtmlGeneratorService.generateCompleteDocument f none =
      HtmlGeneratorService.generateCompleteDocument f (some "Professional CV".toList) ∧
    "<title>Professional CV</title>".toList <:+:
      HtmlGeneratorService.generateCompleteDocument f none := by
  refine ⟨rfl, ?_⟩
  have h1 : documentBeforeTitle = documentBeforeTitle.take (documentBeforeTitle.length - 7) ++ "<title>".toList := by decide
  have h2 : documentBeforeStyles = "</title>".toList ++ "\n    <style>".toList := by decide
  have h3 : "<title>Professional CV</title>".toList =
      "<title>".toList ++ "Professional CV".toList ++ "</title>".toList := by decide
  rw [generateCompleteDocument_eq, h1, h2, h3]
  exact ⟨documentBeforeTitle.take (documentBeforeTitle.length - 7), "\n    <style>".toList ++
    (StyleGeneratorService.generateProfessionalStyles ++ (documentBeforeContent ++
      (f ++ documentAfterContent))), by simp only [List.append_assoc, Option.getD_none]⟩

/-! ## The render adapter and its guard -/

namespace Run

theorem trace_bind_of_ok {α β : Type} (x : Run α) (f : α → Run β) (a : α)
    (h : x.result = .ok a) :
    (x >>= f).trace = x.trace ++ (f a).trace ∧ (x >>= f).result = (f a).result := by
  show (Run.bind x f).trace = _ ∧ (Run.bind x f).result = _
  unfold Run.bind
  rw [h]
  exact ⟨rfl, rfl⟩

theorem bind_of_error {α β : Type} (x : Run α) (f : α → Run β) (e : JsError)
    (h : x.result = .error e) :
    (x >>= f) = ⟨x.trace, .error e⟩ := by
  show Run.bind x f = _
  unfold Run.bind
  rw [h]

theorem trace_prefix_bind {α β : Type} (x : Run α) (f : α → Run β) :
    x.trace <+: (x >>= f).trace := by
  show x.trace <+: (Run.bind x f).trace
  unfold Run.bind
  cases x.result with
  | error e => exact List.prefix_refl _
  | ok a => exact List.prefix_append _ _

theorem trace_prefix_tryCatch {α : Type} (body : Run α) (handler : JsError → Run α) :
    body.trace <+: (Run.tryCatch body handler).trace := by
  unfold Run.tryCatch
  cases body.result with
  | error e => exact List.prefix_append _ _
  | ok a => exact List.prefix_refl _

theorem trace_prefix_tryFinally {α : Type} (body : Run α) (finalizer : Run Unit) :
    body.trace <+: (Run.tryFinally body finalizer).trace := by
  unfold Run.tryFinally
  cases finalizer.result with
  | error e => exact List.prefix_append _ _
  | ok a => exact List.prefix_append _ _

end Run

theorem any_of_prefix_any {p : Event → Bool} {s t : List Event} (h : s <+: t)
    (hs : s.any p = true) : t.any p = true := by
  obtain ⟨r, hr⟩ := h
  rw [← hr, List.any_append, hs]
  rfl

theorem launchBrowser_trace_any_isLaunch (engine : Engine) :
    (PdfGeneratorService._launchBrowser engine).trace.any Event.isLaunch = true := by
  apply any_of_prefix_any (Run.trace_prefix_tryCatch _ _)
  rfl

theorem generatePdfFromHtml_trace_any_isLaunch (engine : Engine) (html outputPath : JsString) :
    (PdfGeneratorService.generatePdfFromHtml engine html outputPath).trace.any Event.isLaunch
      = true := by
  unfold PdfGeneratorService.generatePdfFromHtml
  apply any_of_prefix_any (Run.trace_prefix_tryFinally _ _)
  apply any_of_prefix_any (Run.trace_prefix_tryCatch _ _)
  apply any_of_prefix_any (Run.trace_prefix_bind _ _)
  exact launchBrowser_trace_any_isLaunch engine

theorem validatePdfGeneration_string (path : JsString) :
    PdfGeneratorService.validatePdfGeneration (.string path) =
      if path.isEmpty then .error ⟨"Output path must be a valid string".toList⟩
      else if endsWith path ".pdf".toList then .ok ()
      else .error ⟨"Output file must have .pdf extension".toList⟩ := by
  cases path with
  | nil => rfl
  | cons c cs =>
    have h : (!(JsValue.string (c :: cs)).toBoolean ||
        (JsValue.string (c :: cs)).typeof != "string".toList) = false := rfl
    unfold PdfGeneratorService.validatePdfGeneration
    rw [h]
    cases hE : endsWith (c :: cs) ".pdf".toList
    · simp only [hE, List.isEmpty_cons, Bool.false_eq_true, if_false, Bool.not_false, if_true]
    · simp only [hE, List.isEmpty_cons, Bool.false_eq_true, if_false, Bool.not_true, if_true]

theorem validatePdfGeneration_of_typeof_ne (outputPath : JsValue)
    (h : outputPath.typeof ≠ "string".toList) :
    PdfGeneratorService.validatePdfGeneration outputPath =
      .error ⟨"Output path must be a valid string".toList⟩ := by
  have h2 : (outputPath.typeof != "string".toList) = true := by
    rw [bne_iff_ne]
    exact h
  unfold PdfGeneratorService.validatePdfGeneration
  rw [h2, Bool.or_true, if_pos rfl]

theorem validatePdfGeneration_string_ok_iff (s : JsString) :
    PdfGeneratorService.validatePdfGeneration (.string s) = .ok () ↔
      s ≠ [] ∧ ".pdf".toList <:+ s := by
  rw [validatePdfGeneration_string]
  cases s with
  | nil =>
    constructor
    · intro h; cases h
    · intro h; exact absurd rfl h.1
  | cons c cs =>
    cases h : endsWith (c :: cs) ".pdf".toList
    · have hn : ¬ ".pdf".toList <:+ c :: cs := by
        intro hs
        rw [endsWith, List.isSuffixOf_iff_suffix.mpr hs] at h
        exact Bool.noConfusion h
      constructor
      · intro h2
        simp only [List.isEmpty_cons, Bool.false_eq_true, if_false] at h2
        cases h2
      · intro h2; exact absurd h2.2 hn
    · have hy : ".pdf".toList <:+ c :: cs := List.isSuffixOf_iff_suffix.mp h
      constructor
      · intro _; exact ⟨List.cons_ne_nil c cs, hy⟩
      · intro _; rfl

/-- C8: `validatePdfGeneration` returns exactly for the non-empty strings that end in `.pdf`;
for every other value it throws. -/
theorem validatePdfGeneration_ok_iff (outputPath : JsValue) :
    (PdfGeneratorService.validatePdfGeneration outputPath = .ok () ↔
      ∃ s : JsString, outputPath = .string s ∧ s ≠ [] ∧ ".pdf".toList <:+ s) ∧
    ((¬ ∃ s : JsString, outputPath = .string s ∧ s ≠ [] ∧ ".pdf".toList <:+ s) →
      ∃ e : JsError, PdfGeneratorService.validatePdfGeneration outputPath = .error e) := by
  have key : PdfGeneratorService.validatePdfGeneration outputPath = .ok () ↔
      ∃ s : JsString, outputPath = .string s ∧ s ≠ [] ∧ ".pdf".toList <:+ s := by
    by_cases hty : outputPath.typeof = "string".toList
    · cases outputPath with
      | string s =>
        rw [validatePdfGeneration_string_ok_iff s]
        constructor
        · intro h; exact ⟨s, rfl, h⟩
        · rintro ⟨t, ht, h⟩
          cases ht
          exact h
      | undefined => exact absurd hty (by decide)
      | null => exact absurd hty (by decide)
      | boolean b =>
        have h2 : "boolean".toList = "string".toList := hty
        exact absurd h2 (by decide)
      | number n =>
        have h2 : "number".toList = "string".toList := hty
        exact absurd h2 (by decide)
      | nan => exact absurd hty (by decide)
      | array items =>
        have h2 : "object".toList = "string".toList := hty
        exact absurd h2 (by decide)
      | object fields =>
        have h2 : "object".toList = "string".toList := hty
        exact absurd h2 (by decide)
    · rw [validatePdfGeneration_of_typeof_ne outputPath hty]
      constructor
      · intro h; cases h
      · rintro ⟨t, ht, _⟩
        rw [ht] at hty
        exact absurd rfl hty
  refine ⟨key, ?_⟩
  intro hn
  cases hv : PdfGeneratorService.validatePdfGeneration outputPath with
  | error e => exact ⟨e, rfl⟩
  | ok u => exact absurd (key.mp hv) hn

namespace Run

theorem eq_mk {α : Type} (x : Run α) : x = ⟨x.trace, x.result⟩ := rfl

@[simp] theorem pure_eq {α : Type} (a : α) : (pure a : Run α) = ⟨[], .ok a⟩ := rfl

@[simp] theorem mk_ok_bind {α β : Type} (t : List Event) (a : α) (f : α → Run β) :
    ((⟨t, .ok a⟩ : Run α) >>= f) = ⟨t ++ (f a).trace, (f a).result⟩ := rfl

@[simp] theorem mk_error_bind {α β : Type} (t : List Event) (e : JsError) (f : α → Run β) :
    ((⟨t, .error e⟩ : Run α) >>= f) = ⟨t, .error e⟩ := rfl

@[simp] theorem tryCatch_mk_ok {α : Type} (t : List Event) (a : α) (h : JsError → Run α) :
    Run.tryCatch ⟨t, .ok a⟩ h = ⟨t, .ok a⟩ := rfl

@[simp] theorem tryCatch_mk_error {α : Type} (t : List Event) (e : JsError)
    (h : JsError → Run α) :
    Run.tryCatch ⟨t, .error e⟩ h = ⟨t ++ (h e).trace, (h e).result⟩ := rfl

end Run

theorem parseMarkdownFile_trace (world : World) (filePath : JsString) :
    (MarkdownParserService.parseMarkdownFile world filePath).trace =
      [.readFileSync filePath "utf8".toList] := by
  unfold MarkdownParserService.parseMarkdownFile readFileContent Run.call Run.ofExcept Run.throw
  simp only [Option.getD_none]
  cases hr : world.readFileSync filePath "utf8".toList with
  | error e => simp only [Run.tryCatch_mk_error, Run.mk_error_bind, List.append_nil]
  | ok text =>
    simp only [Run.tryCatch_mk_ok, Run.mk_ok_bind, List.append_nil]
    cases hm : world.marked text with
    | error e => simp only [Run.tryCatch_mk_error, List.append_nil]
    | ok html => simp only [Run.tryCatch_mk_ok]

/-- C9, as amended: for an output path that does not end in `.pdf`, the separate check
`validatePdfGeneration` throws (`Output path must be a valid string` for the empty path,
`Output file must have .pdf extension` otherwise); `generatePdfFromHtml` itself does not look
at the path and launches the browser whatever it is. -/
theorem invalid_output_path_rejected_by_validation_only (engine : Engine)
    (html outputPath : JsString) (h : ¬ ".pdf".toList <:+ outputPath) :
    PdfGeneratorService.validatePdfGeneration (.string outputPath) =
      .error ⟨if outputPath.isEmpty then "Output path must be a valid string".toList
        else "Output file must have .pdf extension".toList⟩ ∧
    (PdfGeneratorService.generatePdfFromHtml engine html outputPath).trace.any Event.isLaunch
      = true := by
  refine ⟨?_, generatePdfFromHtml_trace_any_isLaunch engine html outputPath⟩
  have hE : endsWith outputPath ".pdf".toList = false := by
    rw [Bool.eq_false_iff]
    intro hs
    exact h (List.isSuffixOf_iff_suffix.mp hs)
  rw [validatePdfGeneration_string, hE]
  cases outputPath with
  | nil => rfl
  | cons c cs => rfl

/-- Witness for C9 as amended, at the output path `cv.txt`. -/
theorem invalid_output_path_rejected_by_validation_only_witness :
    (¬ ".pdf".toList <:+ "cv.txt".toList) ∧
    PdfGeneratorService.validatePdfGeneration (.string "cv.txt".toList) =
      .error ⟨if "cv.txt".toList.isEmpty then "Output path must be a valid string".toList
        else "Output file must have .pdf extension".toList⟩ ∧
    (PdfGeneratorService.generatePdfFromHtml Engine.succeeding "<p>x</p>".toList
      "cv.txt".toList).trace.any Event.isLaunch = true :=
  ⟨by decide, invalid_output_path_rejected_by_validation_only Engine.succeeding
    "<p>x</p>".toList "cv.txt".toList (by decide)⟩

/-- C9 fails as stated: called with the output path `cv.txt`, `generatePdfFromHtml` launches
the browser, invokes `page.pdf` and returns without error. -/
theorem generatePdfFromHtml_unvalidated_counterexample :
    (¬ ".pdf".toList <:+ "cv.txt".toList) ∧
    (PdfGeneratorService.generatePdfFromHtml Engine.succeeding "<p>x</p>".toList
      "cv.txt".toList).trace.any Event.isLaunch = true ∧
    (PdfGeneratorService.generatePdfFromHtml Engine.succeeding "<p>x</p>".toList
      "cv.txt".toList).trace.any Event.isPdf = true ∧
    (PdfGeneratorService.generatePdfFromHtml Engine.succeeding "<p>x</p>".toList
      "cv.txt".toList).result = .ok () :=
  ⟨by decide, by decide, by decide, rfl⟩

/-- C10: at both entry points the output path is validated before the render is started.  In
the command line tool a path that fails validation ends `_generatePdf` with the validation
error before any event, and a path that passes hands over to `generatePdfFromHtml`.  In the
server a path that fails validation never leads to `puppeteer.launch`, and the request ends
with the validation error (when the markdown was parsed and the clean-up of the upload does
not itself throw). -/
theorem validation_precedes_render :
    (∀ (engine : Engine) (html outputPath : JsString) (e : JsError),
      PdfGeneratorService.validatePdfGeneration (.string outputPath) = .error e →
      CvGenerator._generatePdf engine html outputPath = ⟨[], .error e⟩) ∧
    (∀ (engine : Engine) (html outputPath : JsString),
      PdfGeneratorService.validatePdfGeneration (.string outputPath) = .ok () →
      CvGenerator._generatePdf engine html outputPath =
        PdfGeneratorService.generatePdfFromHtml engine html outputPath) ∧
    (∀ (world : World) (req : Request) (markdownPath : JsString) (e : JsError),
      req.file = some markdownPath →
      PdfGeneratorService.validatePdfGeneration
        (.string (CvGeneratorServer.pdfPath world markdownPath)) = .error e →
      (CvGeneratorServer.handleCvGeneration world req).trace.any Event.isLaunch = false ∧
      (∀ html : JsString,
        (MarkdownParserService.parseMarkdownFile world markdownPath).result = .ok html →
        (world.existsSync markdownPath = true → world.unlinkSync markdownPath = .ok ()) →
        (CvGeneratorServer.handleCvGeneration world req).result = .error e)) := by
  refine ⟨?_, ?_, ?_⟩
  · intro engine html outputPath e h
    unfold CvGenerator._generatePdf Run.ofExcept
    rw [h]
    rfl
  · intro engine html outputPath h
    unfold CvGenerator._generatePdf Run.ofExcept
    rw [h]
    simp only [Run.mk_ok_bind, List.nil_append]
  · intro world req markdownPath e hfile hval
    have hT := parseMarkdownFile_trace world markdownPath
    unfold CvGeneratorServer.handleCvGeneration
    rw [hfile]
    simp only [Logger.info, Run.emit, Run.ofExcept, Run.call, Run.throw, hval]
    rw [Run.eq_mk (MarkdownParserService.parseMarkdownFile world markdownPath), hT]
    cases hP : (MarkdownParserService.parseMarkdownFile world markdownPath).result with
    | error e2 =>
      refine ⟨?_, fun html hh => by cases hh⟩
      cases world.existsSync markdownPath
      · simp [Event.isLaunch]
      · cases world.unlinkSync markdownPath <;> simp [Event.isLaunch]
    | ok html2 =>
      constructor
      · cases world.existsSync markdownPath
        · simp [Event.isLaunch]
        · cases world.unlinkSync markdownPath <;> simp [Event.isLaunch]
      · intro html _ hclean
        cases hex : world.existsSync markdownPath
        · simp
        · simp [hclean hex]

/-- Witness for C10: the command line tool with the output path `cv.txt`, and the server in an
environment whose path library drops the file name, so that the path to validate is
`/uploads`. -/
theorem validation_precedes_render_witness :
    (PdfGeneratorService.validatePdfGeneration (.string "cv.txt".toList) =
        .error ⟨"Output file must have .pdf extension".toList⟩ ∧
      CvGenerator._generatePdf Engine.succeeding "<p>x</p>".toList "cv.txt".toList =
        ⟨[], .error ⟨"Output file must have .pdf extension".toList⟩⟩) ∧
    (PdfGeneratorService.validatePdfGeneration (.string "cv.pdf".toList) = .ok () ∧
      CvGenerator._generatePdf Engine.succeeding "<p>x</p>".toList "cv.pdf".toList =
        PdfGeneratorService.generatePdfFromHtml Engine.succeeding "<p>x</p>".toList
          "cv.pdf".toList) ∧
    (PdfGeneratorService.validatePdfGeneration
        (.string (CvGeneratorServer.pdfPath World.sampleDroppingFileName
          "/uploads/cv-1.md".toList)) =
        .error ⟨"Output file must have .pdf extension".toList⟩ ∧
      (CvGeneratorServer.handleCvGeneration World.sampleDroppingFileName
        ⟨some "/uploads/cv-1.md".toList, .undefined⟩).trace.any Event.isLaunch = false ∧
      (CvGeneratorServer.handleCvGeneration World.sampleDroppingFileName
        ⟨some "/uploads/cv-1.md".toList, .undefined⟩).result =
        .error ⟨"Output file must have .pdf extension".toList⟩) :=
  ⟨⟨rfl, validation_precedes_render.1 Engine.succeeding "<p>x</p>".toList "cv.txt".toList _ rfl⟩,
    ⟨rfl, validation_precedes_render.2.1 Engine.succeeding "<p>x</p>".toList "cv.pdf".toList
      rfl⟩,
    ⟨rfl,
      (validation_precedes_render.2.2 World.sampleDroppingFileName
        ⟨some "/uploads/cv-1.md".toList, .undefined⟩ "/uploads/cv-1.md".toList _ rfl rfl).1,
      (validation_precedes_render.2.2 World.sampleDroppingFileName
        ⟨some "/uploads/cv-1.md".toList, .undefined⟩ "/uploads/cv-1.md".toList _ rfl rfl).2
        "# Hello".toList rfl (fun _ => rfl)⟩⟩

/-! ## The render adapter, outcome by outcome -/

namespace Run

@[simp] theorem tryFinally_mk_ok {α : Type} (body : Run α) (t : List Event) (u : Unit) :
    Run.tryFinally body ⟨t, .ok u⟩ = ⟨body.trace ++ t, body.result⟩ := rfl

end Run

theorem launchBrowser_of_ok (engine : Engine) (h : engine.launch = .ok ()) :
    PdfGeneratorService._launchBrowser engine =
      ⟨[.log .info SUCCESS_MESSAGES.BROWSER_LAUNCHED, .launch (.object BROWSER_CONFIG)],
        .ok ()⟩ := by
  unfold PdfGeneratorService._launchBrowser Logger.info Run.emit Run.call Run.throw
  rw [h]
  rfl

theorem launchBrowser_of_error (engine : Engine) (e : JsError) (h : engine.launch = .error e) :
    PdfGeneratorService._launchBrowser engine =
      ⟨[.log .info SUCCESS_MESSAGES.BROWSER_LAUNCHED, .launch (.object BROWSER_CONFIG)],
        .error ⟨ERROR_MESSAGES.BROWSER_LAUNCH_ERROR⟩⟩ := by
  unfold PdfGeneratorService._launchBrowser Logger.info Run.emit Run.call Run.throw
  rw [h]
  rfl

theorem closeBrowser_result (engine : Engine) :
    (PdfGeneratorService._closeBrowser engine).result = .ok () := by
  unfold PdfGeneratorService._closeBrowser Run.call Logger.warning Run.emit
  cases engine.close <;> rfl

theorem closeBrowser_eq_mk (engine : Engine) :
    PdfGeneratorService._closeBrowser engine =
      ⟨(PdfGeneratorService._closeBrowser engine).trace, .ok ()⟩ := by
  have h := closeBrowser_result engine
  rw [Run.eq_mk (PdfGeneratorService._closeBrowser engine), h]

theorem closeBrowser_trace (engine : Engine) :
    (PdfGeneratorService._closeBrowser engine).trace =
      match engine.close with
      | .ok _ => [.close]
      | .error e =>
        [.close, .log .warning ("Warning: Failed to close browser: ".toList ++ e.message)] := by
  unfold PdfGeneratorService._closeBrowser Run.call Logger.warning Run.emit
  cases engine.close <;> rfl

/-- The options object `{ path: outputPath, ...PDF_CONFIG }`, property by property. -/
theorem pdfOptions_eq (outputPath : JsString) :
    JsValue.spread [("path".toList, .string outputPath)] PDF_CONFIG =
      [ ("path".toList, .string outputPath),
        ("format".toList, .string "A4".toList),
        ("printBackground".toList, .boolean true),
        ("margin".toList, .object
          [ ("top".toList, .string "10mm".toList),
            ("bottom".toList, .string "10mm".toList),
            ("left".toList, .string "10mm".toList),
            ("right".toList, .string "10mm".toList) ]),
        ("preferCSSPageSize".toList, .boolean true) ] := by
  rfl

theorem generatePdfFromHtml_of_launch_error (engine : Engine) (html outputPath : JsString)
    (e : JsError) (h : engine.launch = .error e) :
    PdfGeneratorService.generatePdfFromHtml engine html outputPath =
      ⟨[ .log .info SUCCESS_MESSAGES.BROWSER_LAUNCHED, .launch (.object BROWSER_CONFIG),
          .log .error
            (ERROR_MESSAGES.PDF_GENERATION_ERROR ERROR_MESSAGES.BROWSER_LAUNCH_ERROR) ],
        .error ⟨ERROR_MESSAGES.BROWSER_LAUNCH_ERROR⟩⟩ := by
  unfold PdfGeneratorService.generatePdfFromHtml
  rw [launchBrowser_of_error engine e h]
  rfl

theorem generatePdfFromHtml_of_newPage_error (engine : Engine) (html outputPath : JsString)
    (e : JsError) (hl : engine.launch = .ok ()) (hn : engine.newPage = .error e) :
    PdfGeneratorService.generatePdfFromHtml engine html outputPath =
      ⟨[ .log .info SUCCESS_MESSAGES.BROWSER_LAUNCHED, .launch (.object BROWSER_CONFIG),
          .newPage, .log .error (ERROR_MESSAGES.PDF_GENERATION_ERROR e.message) ]
          ++ (PdfGeneratorService._closeBrowser engine).trace,
        .error e⟩ := by
  unfold PdfGeneratorService.generatePdfFromHtml
  rw [launchBrowser_of_ok engine hl, closeBrowser_eq_mk engine]
  simp only [PdfGeneratorService._createPage, Run.call, hn, Logger.error, Run.emit, Run.throw,
    Run.mk_ok_bind, Run.mk_error_bind, Run.tryCatch_mk_error, Run.tryFinally_mk_ok,
    List.cons_append, List.nil_append, List.append_nil]

theorem generatePdfFromHtml_of_setContent_error (engine : Engine) (html outputPath : JsString)
    (e : JsError) (hl : engine.launch = .ok ()) (hn : engine.newPage = .ok ())
    (hs : engine.setContent html (.object PAGE_CONFIG) = .error e) :
    PdfGeneratorService.generatePdfFromHtml engine html outputPath =
      ⟨[ .log .info SUCCESS_MESSAGES.BROWSER_LAUNCHED, .launch (.object BROWSER_CONFIG),
          .newPage, .log .info SUCCESS_MESSAGES.PROCESSING_CONTENT,
          .setContent html (.object PAGE_CONFIG),
          .log .error (ERROR_MESSAGES.PDF_GENERATION_ERROR e.message) ]
          ++ (PdfGeneratorService._closeBrowser engine).trace,
        .error e⟩ := by
  unfold PdfGeneratorService.generatePdfFromHtml
  rw [launchBrowser_of_ok engine hl, closeBrowser_eq_mk engine]
  simp only [PdfGeneratorService._createPage, PdfGeneratorService._setPageContent, Run.call, hn,
    hs, Logger.error, Logger.info, Run.emit, Run.throw,
    Run.mk_ok_bind, Run.mk_error_bind, Run.tryCatch_mk_error, Run.tryFinally_mk_ok,
    List.cons_append, List.nil_append, List.append_nil]

theorem generatePdfFromHtml_of_pdf_error (engine : Engine) (html outputPath : JsString)
    (e : JsError) (hl : engine.launch = .ok ()) (hn : engine.newPage = .ok ())
    (hs : engine.setContent html (.object PAGE_CONFIG) = .ok ())
    (hp : engine.pdf (.object (JsValue.spread [("path".toList, .string outputPath)]
      PDF_CONFIG)) = .error e) :
    PdfGeneratorService.generatePdfFromHtml engine html outputPath =
      ⟨[ .log .info SUCCESS_MESSAGES.BROWSER_LAUNCHED, .launch (.object BROWSER_CONFIG),
          .newPage, .log .info SUCCESS_MESSAGES.PROCESSING_CONTENT,
          .setContent html (.object PAGE_CONFIG),
          .log .info SUCCESS_MESSAGES.GENERATING_PDF,
          .pdf (.object (JsValue.spread [("path".toList, .string outputPath)] PDF_CONFIG)),
          .log .error (ERROR_MESSAGES.PDF_GENERATION_ERROR e.message) ]
          ++ (PdfGeneratorService._closeBrowser engine).trace,
        .error e⟩ := by
  unfold PdfGeneratorService.generatePdfFromHtml
  rw [launchBrowser_of_ok engine hl, closeBrowser_eq_mk engine]
  simp only [PdfGeneratorService._createPage, PdfGeneratorService._setPageContent,
    PdfGeneratorService._generatePdf, Run.call, hn, hs, hp, Logger.error, Logger.info, Run.emit,
    Run.throw, Run.mk_ok_bind, Run.mk_error_bind, Run.tryCatch_mk_error, Run.tryFinally_mk_ok,
    List.cons_append, List.nil_append, List.append_nil]

theorem generatePdfFromHtml_of_success (engine : Engine) (html outputPath : JsString)
    (hl : engine.launch = .ok ()) (hn : engine.newPage = .ok ())
    (hs : engine.setContent html (.object PAGE_CONFIG) = .ok ())
    (hp : engine.pdf (.object (JsValue.spread [("path".toList, .string outputPath)]
      PDF_CONFIG)) = .ok ()) :
    PdfGeneratorService.generatePdfFromHtml engine html outputPath =
      ⟨[ .log .info SUCCESS_MESSAGES.BROWSER_LAUNCHED, .launch (.object BROWSER_CONFIG),
          .newPage, .log .info SUCCESS_MESSAGES.PROCESSING_CONTENT,
          .setContent html (.object PAGE_CONFIG),
          .log .info SUCCESS_MESSAGES.GENERATING_PDF,
          .pdf (.object (JsValue.spread [("path".toList, .string outputPath)] PDF_CONFIG)),
          .log .success (SUCCESS_MESSAGES.PDF_GENERATED outputPath) ]
          ++ (PdfGeneratorService._closeBrowser engine).trace,
        .ok ()⟩ := by
  unfold PdfGeneratorService.generatePdfFromHtml
  rw [launchBrowser_of_ok engine hl, closeBrowser_eq_mk engine]
  simp only [PdfGeneratorService._createPage, PdfGeneratorService._setPageContent,
    PdfGeneratorService._generatePdf, Run.call, hn, hs, hp, Logger.success, Logger.info,
    Run.emit, Run.mk_ok_bind, Run.tryCatch_mk_ok, Run.tryFinally_mk_ok,
    List.cons_append, List.nil_append, List.append_nil]

theorem closeBrowser_countP_isClose (engine : Engine) :
    (PdfGeneratorService._closeBrowser engine).trace.countP Event.isClose = 1 := by
  rw [closeBrowser_trace]
  cases engine.close <;> rfl

theorem closeBrowser_dropWhile (engine : Engine) :
    (PdfGeneratorService._closeBrowser engine).trace.dropWhile (fun e => !e.isClose) =
      (PdfGeneratorService._closeBrowser engine).trace := by
  rw [closeBrowser_trace]
  cases engine.close <;> rfl

theorem closeBrowser_no_engine_call (engine : Engine) :
    (PdfGeneratorService._closeBrowser engine).trace.any Event.isSetContent = false ∧
    (PdfGeneratorService._closeBrowser engine).trace.any Event.isPdf = false ∧
    (PdfGeneratorService._closeBrowser engine).trace.filter Event.isPdf = [] ∧
    (PdfGeneratorService._closeBrowser engine).trace.filter Event.isSetContent = [] := by
  rw [closeBrowser_trace]
  cases engine.close <;> exact ⟨rfl, rfl, rfl, rfl⟩

/-- The trace and the outcome of `generatePdfFromHtml` in each of the five courses a render
can take. -/
theorem generatePdfFromHtml_cases (engine : Engine) (html outputPath : JsString) :
    (∃ e, engine.launch = .error e) ∨
    (engine.launch = .ok () ∧ ∃ e, engine.newPage = .error e) ∨
    (engine.launch = .ok () ∧ engine.newPage = .ok () ∧
      ∃ e, engine.setContent html (.object PAGE_CONFIG) = .error e) ∨
    (engine.launch = .ok () ∧ engine.newPage = .ok () ∧
      engine.setContent html (.object PAGE_CONFIG) = .ok () ∧
      ∃ e, engine.pdf (.object (JsValue.spread [("path".toList, .string outputPath)]
        PDF_CONFIG)) = .error e) ∨
    (engine.launch = .ok () ∧ engine.newPage = .ok () ∧
      engine.setContent html (.object PAGE_CONFIG) = .ok () ∧
      engine.pdf (.object (JsValue.spread [("path".toList, .string outputPath)]
        PDF_CONFIG)) = .ok ()) := by
  cases hl : engine.launch with
  | error e => exact Or.inl ⟨e, rfl⟩
  | ok u =>
    cases hn : engine.newPage with
    | error e => exact Or.inr (Or.inl ⟨rfl, e, rfl⟩)
    | ok u2 =>
      cases hs : engine.setContent html (.object PAGE_CONFIG) with
      | error e => exact Or.inr (Or.inr (Or.inl ⟨rfl, rfl, e, rfl⟩))
      | ok u3 =>
        cases hp : engine.pdf (.object (JsValue.spread [("path".toList, .string outputPath)]
          PDF_CONFIG)) with
        | error e => exact Or.inr (Or.inr (Or.inr (Or.inl ⟨rfl, rfl, rfl, e, rfl⟩)))
        | ok u4 => exact Or.inr (Or.inr (Or.inr (Or.inr ⟨rfl, rfl, rfl, rfl⟩)))

/-- C11: in every course of `generatePdfFromHtml`, `browser.close` is called exactly once when
`puppeteer.launch` succeeded and never when it failed; and from the call of `browser.close`
on, the trace consists of that call and the warning it may log, so that the release is the
last thing done to the engine. -/
theorem generatePdfFromHtml_releases_engine (engine : Engine) (html outputPath : JsString) :
    (PdfGeneratorService.generatePdfFromHtml engine html outputPath).trace.countP Event.isClose =
      (match engine.launch with
        | .ok _ => 1
        | .error _ => 0) ∧
    (PdfGeneratorService.generatePdfFromHtml engine html outputPath).trace.dropWhile
        (fun e => !e.isClose) =
      (match engine.launch with
        | .ok _ => (PdfGeneratorService._closeBrowser engine).trace
        | .error _ => []) := by
  have hc := closeBrowser_countP_isClose engine
  have hd := closeBrowser_dropWhile engine
  have key : ∀ pre : List Event, (pre.all fun e => !e.isClose) = true →
      (pre ++ (PdfGeneratorService._closeBrowser engine).trace).countP Event.isClose = 1 ∧
      (pre ++ (PdfGeneratorService._closeBrowser engine).trace).dropWhile
          (fun e => !e.isClose) = (PdfGeneratorService._closeBrowser engine).trace := by
    intro pre hpre
    have hall : ∀ a ∈ pre, (!a.isClose) = true := List.all_eq_true.mp hpre
    have h0 : pre.countP Event.isClose = 0 := by
      rw [List.countP_eq_zero]
      intro a ha
      have := hall a ha
      cases hcl : a.isClose
      · exact Bool.false_ne_true
      · rw [hcl] at this
        exact absurd this (by decide)
    rw [List.countP_append, h0, hc, List.dropWhile_append_of_pos hall, hd]
    exact ⟨rfl, rfl⟩
  rcases generatePdfFromHtml_cases engine html outputPath with
    ⟨e, hl⟩ | ⟨hl, e, hn⟩ | ⟨hl, hn, e, hs⟩ | ⟨hl, hn, hs, e, hp⟩ | ⟨hl, hn, hs, hp⟩
  · rw [generatePdfFromHtml_of_launch_error engine html outputPath e hl, hl]
    exact ⟨rfl, rfl⟩
  · rw [generatePdfFromHtml_of_newPage_error engine html outputPath e hl hn, hl]
    exact key _ rfl
  · rw [generatePdfFromHtml_of_setContent_error engine html outputPath e hl hn hs, hl]
    exact key _ rfl
  · rw [generatePdfFromHtml_of_pdf_error engine html outputPath e hl hn hs hp, hl]
    exact key _ rfl
  · rw [generatePdfFromHtml_of_success engine html outputPath hl hn hs hp, hl]
    exact key _ rfl

theorem launchBrowser_result_ok_iff (engine : Engine) :
    (PdfGeneratorService._launchBrowser engine).result = .ok () ↔ engine.launch = .ok () := by
  cases hl : engine.launch with
  | error e =>
    rw [launchBrowser_of_error engine e hl]
    constructor <;> intro h <;> cases h
  | ok u =>
    rw [launchBrowser_of_ok engine hl]

theorem generatePdfFromHtml_result (engine : Engine) (html outputPath : JsString) :
    (PdfGeneratorService.generatePdfFromHtml engine html outputPath).result =
      match engine.launch with
      | .error _ => .error ⟨ERROR_MESSAGES.BROWSER_LAUNCH_ERROR⟩
      | .ok _ =>
        match engine.newPage with
        | .error e => .error e
        | .ok _ =>
          match engine.setContent html (.object PAGE_CONFIG) with
          | .error e => .error e
          | .ok _ =>
            engine.pdf (.object (JsValue.spread [("path".toList, .string outputPath)]
              PDF_CONFIG)) := by
  rcases generatePdfFromHtml_cases engine html outputPath with
    ⟨e, hl⟩ | ⟨hl, e, hn⟩ | ⟨hl, hn, e, hs⟩ | ⟨hl, hn, hs, e, hp⟩ | ⟨hl, hn, hs, hp⟩
  · rw [generatePdfFromHtml_of_launch_error engine html outputPath e hl, hl]
  · rw [generatePdfFromHtml_of_newPage_error engine html outputPath e hl hn, hl, hn]
  · rw [generatePdfFromHtml_of_setContent_error engine html outputPath e hl hn hs, hl, hn, hs]
  · rw [generatePdfFromHtml_of_pdf_error engine html outputPath e hl hn hs hp, hl, hn, hs, hp]
  · rw [generatePdfFromHtml_of_success engine html outputPath hl hn hs hp, hl, hn, hs, hp]

/-- C12: the outcome of `generatePdfFromHtml` does not depend on what `browser.close` does.
Replacing the answer of `browser.close` by any other leaves the outcome unchanged; when the
four steps `_launchBrowser`, `_createPage`, `_setPageContent`, `_generatePdf` return, the call
returns; and when a step throws `e` after the steps before it returned, the call throws that
same `e`. -/
theorem close_failure_never_changes_outcome (engine : Engine) (html outputPath : JsString) :
    (∀ closeAnswer : Except JsError Unit,
      (PdfGeneratorService.generatePdfFromHtml { engine with close := closeAnswer } html
        outputPath).result =
      (PdfGeneratorService.generatePdfFromHtml engine html outputPath).result) ∧
    ((PdfGeneratorService._launchBrowser engine).result = .ok () →
      (PdfGeneratorService._createPage engine).result = .ok () →
      (PdfGeneratorService._setPageContent engine html).result = .ok () →
      (PdfGeneratorService._generatePdf engine outputPath).result = .ok () →
      (PdfGeneratorService.generatePdfFromHtml engine html outputPath).result = .ok ()) ∧
    (∀ e : JsError, (PdfGeneratorService._launchBrowser engine).result = .error e →
      (PdfGeneratorService.generatePdfFromHtml engine html outputPath).result = .error e) ∧
    (∀ e : JsError, (PdfGeneratorService._launchBrowser engine).result = .ok () →
      (PdfGeneratorService._createPage engine).result = .error e →
      (PdfGeneratorService.generatePdfFromHtml engine html outputPath).result = .error e) ∧
    (∀ e : JsError, (PdfGeneratorService._launchBrowser engine).result = .ok () →
      (PdfGeneratorService._createPage engine).result = .ok () →
      (PdfGeneratorService._setPageContent engine html).result = .error e →
      (PdfGeneratorService.generatePdfFromHtml engine html outputPath).result = .error e) ∧
    (∀ e : JsError, (PdfGeneratorService._launchBrowser engine).result = .ok () →
      (PdfGeneratorService._createPage engine).result = .ok () →
      (PdfGeneratorService._setPageContent engine html).result = .ok () →
      (PdfGeneratorService._generatePdf engine outputPath).result = .error e →
      (PdfGeneratorService.generatePdfFromHtml engine html outputPath).result = .error e) := by
  have hN : (PdfGeneratorService._createPage engine).result = engine.newPage := rfl
  have hS : (PdfGeneratorService._setPageContent engine html).result =
      engine.setContent html (.object PAGE_CONFIG) := rfl
  have hP : (PdfGeneratorService._generatePdf engine outputPath).result =
      engine.pdf (.object (JsValue.spread [("path".toList, .string outputPath)]
        PDF_CONFIG)) := rfl
  rw [hN, hS, hP, launchBrowser_result_ok_iff]
  refine ⟨?_, ?_, ?_, ?_, ?_, ?_⟩
  · intro closeAnswer
    rw [generatePdfFromHtml_result, generatePdfFromHtml_result]
  · intro hl hn hs hp
    rw [generatePdfFromHtml_result, hl, hn, hs, hp]
  · intro e he
    cases hl : engine.launch with
    | ok u =>
      rw [launchBrowser_of_ok engine hl] at he
      cases he
    | error e0 =>
      rw [launchBrowser_of_error engine e0 hl] at he
      rw [generatePdfFromHtml_result, hl]
      exact he
  · intro e hl hn
    rw [generatePdfFromHtml_result, hl, hn]
  · intro e hl hn hs
    rw [generatePdfFromHtml_result, hl, hn, hs]
  · intro e hl hn hs hp
    rw [generatePdfFromHtml_result, hl, hn, hs, hp]

/-- Witness for C12: a browser in which `page.pdf` and `browser.close` both throw; the call
throws the error of `page.pdf`. -/
theorem close_failure_never_changes_outcome_witness :
    (PdfGeneratorService._launchBrowser
      { Engine.succeeding with pdf := fun _ => .error ⟨"disk full".toList⟩,
                               close := .error ⟨"gone".toList⟩ }).result = .ok () ∧
    (PdfGeneratorService._generatePdf
      { Engine.succeeding with pdf := fun _ => .error ⟨"disk full".toList⟩,
                               close := .error ⟨"gone".toList⟩ } "cv.pdf".toList).result =
      .error ⟨"disk full".toList⟩ ∧
    (PdfGeneratorService.generatePdfFromHtml
      { Engine.succeeding with pdf := fun _ => .error ⟨"disk full".toList⟩,
                               close := .error ⟨"gone".toList⟩ } "<p>x</p>".toList
      "cv.pdf".toList).result = .error ⟨"disk full".toList⟩ ∧
    (PdfGeneratorService._generatePdf
      { Engine.succeeding with close := .error ⟨"gone".toList⟩ } "cv.pdf".toList).result =
      .ok () ∧
    (PdfGeneratorService.generatePdfFromHtml
      { Engine.succeeding with close := .error ⟨"gone".toList⟩ } "<p>x</p>".toList
      "cv.pdf".toList).result = .ok () :=
  ⟨rfl, rfl,
    (close_failure_never_changes_outcome
      { Engine.succeeding with pdf := fun _ => .error ⟨"disk full".toList⟩,
                               close := .error ⟨"gone".toList⟩ } "<p>x</p>".toList
      "cv.pdf".toList).2.2.2.2.2 ⟨"disk full".toList⟩ rfl rfl rfl rfl,
    rfl,
    (close_failure_never_changes_outcome
      { Engine.succeeding with close := .error ⟨"gone".toList⟩ } "<p>x</p>".toList
      "cv.pdf".toList).2.1 rfl rfl rfl rfl⟩

/-- C13, as amended: when `browser.newPage` throws `e` after a successful launch,
`generatePdfFromHtml` throws that same `e` (it is not replaced by the launch error), logs it
as a generation error, performs no content load and no PDF generation, and closes the browser
once. -/
theorem newPage_failure_is_rethrown (engine : Engine) (html outputPath : JsString)
    (e : JsError) (hl : engine.launch = .ok ()) (hn : engine.newPage = .error e) :
    (PdfGeneratorService.generatePdfFromHtml engine html outputPath).result = .error e ∧
    Event.log .error (ERROR_MESSAGES.PDF_GENERATION_ERROR e.message) ∈
      (PdfGeneratorService.generatePdfFromHtml engine html outputPath).trace ∧
    (PdfGeneratorService.generatePdfFromHtml engine html outputPath).trace.any
      Event.isSetContent = false ∧
    (PdfGeneratorService.generatePdfFromHtml engine html outputPath).trace.any
      Event.isPdf = false ∧
    (PdfGeneratorService.generatePdfFromHtml engine html outputPath).trace.countP
      Event.isClose = 1 := by
  have hc := closeBrowser_countP_isClose engine
  obtain ⟨h1, h2, _, _⟩ := closeBrowser_no_engine_call engine
  rw [generatePdfFromHtml_of_newPage_error engine html outputPath e hl hn]
  refine ⟨rfl, ?_, ?_, ?_, ?_⟩
  · simp
  · rw [List.any_append, h1]
    rfl
  · rw [List.any_append, h2]
    rfl
  · rw [List.countP_append, hc]
    rfl

/-- Witness for C13 as amended, with a browser whose `newPage` throws `Target closed`. -/
theorem newPage_failure_is_rethrown_witness :
    Engine.failingNewPage.launch = .ok () ∧
    Engine.failingNewPage.newPage = .error ⟨"Target closed".toList⟩ ∧
    (PdfGeneratorService.generatePdfFromHtml Engine.failingNewPage "<p>x</p>".toList
      "cv.pdf".toList).result = .error ⟨"Target closed".toList⟩ ∧
    (PdfGeneratorService.generatePdfFromHtml Engine.failingNewPage "<p>x</p>".toList
      "cv.pdf".toList).trace.countP Event.isClose = 1 :=
  ⟨rfl, rfl,
    (newPage_failure_is_rethrown Engine.failingNewPage "<p>x</p>".toList "cv.pdf".toList
      ⟨"Target closed".toList⟩ rfl rfl).1,
    (newPage_failure_is_rethrown Engine.failingNewPage "<p>x</p>".toList "cv.pdf".toList
      ⟨"Target closed".toList⟩ rfl rfl).2.2.2.2⟩

/-- C13 fails as stated: with a browser whose `newPage` throws `Target closed` after a
successful launch, the error reported is that one, and its message is not the launch
message. -/
theorem newPage_failure_counterexample :
    Engine.failingNewPage.launch = .ok () ∧
    (PdfGeneratorService.generatePdfFromHtml Engine.failingNewPage "<p>x</p>".toList
      "cv.pdf".toList).result = .error ⟨"Target closed".toList⟩ ∧
    "Target closed".toList ≠ ERROR_MESSAGES.BROWSER_LAUNCH_ERROR ∧
    (PdfGeneratorService.generatePdfFromHtml Engine.failingNewPage "<p>x</p>".toList
      "cv.pdf".toList).result ≠ .error ⟨ERROR_MESSAGES.BROWSER_LAUNCH_ERROR⟩ := by
  refine ⟨rfl, rfl, by decide, ?_⟩
  intro h
  have h2 : (Except.error ⟨"Target closed".toList⟩ : Except JsError Unit) =
      .error ⟨ERROR_MESSAGES.BROWSER_LAUNCH_ERROR⟩ := h
  injection h2 with h3
  injection h3 with h4
  exact absurd h4 (by decide)

/-- C14: when launch, page creation and content load succeed, `generatePdfFromHtml` calls
`page.pdf` exactly once, with the options `path` (the caller's output path), `format` `A4`,
`printBackground` `true`, `margin` with `10mm` on each side, `preferCSSPageSize` `true`, and
no other property; the spread of `PDF_CONFIG` does not replace `path`. -/
theorem generatePdfFromHtml_pdf_options (engine : Engine) (html outputPath : JsString)
    (hl : engine.launch = .ok ()) (hn : engine.newPage = .ok ())
    (hs : engine.setContent html (.object PAGE_CONFIG) = .ok ()) :
    (PdfGeneratorService.generatePdfFromHtml engine html outputPath).trace.filter Event.isPdf =
      [ .pdf (.object
        [ ("path".toList, .string outputPath),
          ("format".toList, .string "A4".toList),
          ("printBackground".toList, .boolean true),
          ("margin".toList, .object
            [ ("top".toList, .string "10mm".toList),
              ("bottom".toList, .string "10mm".toList),
              ("left".toList, .string "10mm".toList),
              ("right".toList, .string "10mm".toList) ]),
          ("preferCSSPageSize".toList, .boolean true) ]) ] ∧
    JsValue.getProperty (JsValue.spread [("path".toList, .string outputPath)] PDF_CONFIG)
      "path".toList = .string outputPath := by
  obtain ⟨_, _, h3, _⟩ := closeBrowser_no_engine_call engine
  refine ⟨?_, rfl⟩
  rw [← pdfOptions_eq outputPath]
  cases hp : engine.pdf (.object (JsValue.spread [("path".toList, .string outputPath)]
    PDF_CONFIG)) with
  | error e =>
    rw [generatePdfFromHtml_of_pdf_error engine html outputPath e hl hn hs hp,
      List.filter_append, h3]
    rfl
  | ok u =>
    rw [generatePdfFromHtml_of_success engine html outputPath hl hn hs hp,
      List.filter_append, h3]
    rfl

/-- Witness for C14, with a browser in which every call succeeds. -/
theorem generatePdfFromHtml_pdf_options_witness :
    Engine.succeeding.launch = .ok () ∧ Engine.succeeding.newPage = .ok () ∧
    Engine.succeeding.setContent "<p>x</p>".toList (.object PAGE_CONFIG) = .ok () ∧
    (PdfGeneratorService.generatePdfFromHtml Engine.succeeding "<p>x</p>".toList
      "cv.pdf".toList).trace.filter Event.isPdf =
      [ .pdf (.object
        [ ("path".toList, .string "cv.pdf".toList),
          ("format".toList, .string "A4".toList),
          ("printBackground".toList, .boolean true),
          ("margin".toList, .object
            [ ("top".toList, .string "10mm".toList),
              ("bottom".toList, .string "10mm".toList),
              ("left".toList, .string "10mm".toList),
              ("right".toList, .string "10mm".toList) ]),
          ("preferCSSPageSize".toList, .boolean true) ]) ] :=
  ⟨rfl, rfl, rfl,
    (generatePdfFromHtml_pdf_options Engine.succeeding "<p>x</p>".toList "cv.pdf".toList
      rfl rfl rfl).1⟩

/-! ## The order of assembly and normalization -/

theorem generateCompleteDocument_ne_optimizeForATS (f g : JsString) (title : Option JsString) :
    HtmlGeneratorService.generateCompleteDocument f title ≠
      HtmlGeneratorService.optimizeForATS g := by
  intro h
  have h1 : '\n' ∈ HtmlGeneratorService.generateCompleteDocument f title := by
    rw [generateCompleteDocument_eq]
    exact List.mem_append_left _ (by decide)
  rw [h] at h1
  have h2 := (optimizeForATS_wsNormal g).1 '\n' h1 (by decide)
  exact absurd h2 (by decide)

theorem handleCvGeneration_setContent (world : World) (req : Request)
    (markdownPath html : JsString) (hfile : req.file = some markdownPath)
    (hparse : (MarkdownParserService.parseMarkdownFile world markdownPath).result = .ok html)
    (hval : PdfGeneratorService.validatePdfGeneration
      (.string (CvGeneratorServer.pdfPath world markdownPath)) = .ok ()) :
    (CvGeneratorServer.handleCvGeneration world req).trace.filter Event.isSetContent =
      (PdfGeneratorService.generatePdfFromHtml world.engine
        (if (match req.optimizeATS with
              | .undefined => JsValue.string "true".toList
              | value => value).strictEqualsString "true".toList
          then HtmlGeneratorService.optimizeForATS
            (HtmlGeneratorService.generateCompleteDocument html none)
          else HtmlGeneratorService.generateCompleteDocument html none)
        (CvGeneratorServer.pdfPath world markdownPath)).trace.filter Event.isSetContent := by
  have hT := parseMarkdownFile_trace world markdownPath
  unfold CvGeneratorServer.handleCvGeneration
  rw [hfile]
  simp only [Logger.info, Logger.success, Run.emit, Run.ofExcept, Run.call, Run.throw, hval]
  rw [Run.eq_mk (MarkdownParserService.parseMarkdownFile world markdownPath), hT, hparse]
  simp only [Run.mk_ok_bind, Run.pure_eq]
  generalize PdfGeneratorService.generatePdfFromHtml world.engine _ _ = G
  rw [Run.eq_mk G]
  cases G.result with
  | error e =>
    cases world.existsSync markdownPath
    · simp [Event.isSetContent]
    · cases world.unlinkSync markdownPath <;> simp [Event.isSetContent]
  | ok u =>
    cases hU : world.unlinkSync markdownPath with
    | ok u2 => simp [Event.isSetContent]
    | error e2 =>
      cases world.existsSync markdownPath
      · simp [Event.isSetContent]
      · simp [Event.isSetContent, hU]

theorem generatePdfFromHtml_setContent (engine : Engine) (html outputPath : JsString)
    (hl : engine.launch = .ok ()) (hn : engine.newPage = .ok ()) :
    (PdfGeneratorService.generatePdfFromHtml engine html outputPath).trace.filter
      Event.isSetContent = [.setContent html (.object PAGE_CONFIG)] := by
  obtain ⟨_, _, _, h4⟩ := closeBrowser_no_engine_call engine
  cases hs : engine.setContent html (.object PAGE_CONFIG) with
  | error e =>
    rw [generatePdfFromHtml_of_setContent_error engine html outputPath e hl hn hs,
      List.filter_append, h4]
    rfl
  | ok u =>
    cases hp : engine.pdf (.object (JsValue.spread [("path".toList, .string outputPath)]
      PDF_CONFIG)) with
    | error e =>
      rw [generatePdfFromHtml_of_pdf_error engine html outputPath e hl hn hs hp,
        List.filter_append, h4]
      rfl
    | ok u2 =>
      rw [generatePdfFromHtml_of_success engine html outputPath hl hn hs hp,
        List.filter_append, h4]
      rfl

theorem generateCvPdf_setContent (world : World) (inputPath outputPath html : JsString)
    (hex : world.existsSync inputPath = true) (hmd : endsWith inputPath ".md".toList = true)
    (hparse : (MarkdownParserService.parseMarkdownFile world inputPath).result = .ok html)
    (hval : PdfGeneratorService.validatePdfGeneration (.string outputPath) = .ok ()) :
    (CvGenerator.generateCvPdf world inputPath outputPath).trace.filter Event.isSetContent =
      (PdfGeneratorService.generatePdfFromHtml world.engine
        (CvGenerator._generateHtmlDocument html) outputPath).trace.filter
        Event.isSetContent := by
  have hT := parseMarkdownFile_trace world inputPath
  unfold CvGenerator.generateCvPdf CvGenerator._validateInput validateMarkdownFile
    CvGenerator._parseMarkdownContent CvGenerator._generatePdf
  simp only [Logger.info, Logger.success, Logger.title, Logger.error, Run.emit, Run.ofExcept,
    Run.call, Run.throw, hval, hex, hmd]
  rw [Run.eq_mk (MarkdownParserService.parseMarkdownFile world inputPath), hT, hparse]
  simp only [Run.mk_ok_bind, Run.pure_eq, Bool.not_true, Bool.false_eq_true, if_false]
  generalize PdfGeneratorService.generatePdfFromHtml world.engine _ _ = G
  rw [Run.eq_mk G]
  cases G.result with
  | error e => simp [Event.isSetContent]
  | ok u => simp [Event.isSetContent]

/-- C15, as amended: the server (with ATS optimisation enabled, which is the default) hands
`optimizeForATS(generateCompleteDocument(fragment))` to the render adapter, whereas the
command line tool hands it `generateCompleteDocument(optimizeForATS(fragment))`: there the
normalizer runs before the assembler.  The document handed over is read off the one call of
`page.setContent`, for a render whose launch and page creation succeed. -/
theorem pipeline_order_per_entry_point :
    (∀ (world : World) (req : Request) (markdownPath html : JsString),
      req.file = some markdownPath →
      (req.optimizeATS = .undefined ∨ req.optimizeATS = .string "true".toList) →
      (MarkdownParserService.parseMarkdownFile world markdownPath).result = .ok html →
      PdfGeneratorService.validatePdfGeneration
        (.string (CvGeneratorServer.pdfPath world markdownPath)) = .ok () →
      world.engine.launch = .ok () → world.engine.newPage = .ok () →
      (CvGeneratorServer.handleCvGeneration world req).trace.filter Event.isSetContent =
        [.setContent
          (HtmlGeneratorService.optimizeForATS
            (HtmlGeneratorService.generateCompleteDocument html none))
          (.object PAGE_CONFIG)]) ∧
    (∀ (world : World) (inputPath outputPath html : JsString),
      world.existsSync inputPath = true → ".md".toList <:+ inputPath →
      (MarkdownParserService.parseMarkdownFile world inputPath).result = .ok html →
      PdfGeneratorService.validatePdfGeneration (.string outputPath) = .ok () →
      world.engine.launch = .ok () → world.engine.newPage = .ok () →
      (CvGenerator.generateCvPdf world inputPath outputPath).trace.filter Event.isSetContent =
        [.setContent
          (HtmlGeneratorService.generateCompleteDocument
            (HtmlGeneratorService.optimizeForATS html) none)
          (.object PAGE_CONFIG)]) ∧
    (∀ f : JsString, CvGenerator._generateHtmlDocument f =
      HtmlGeneratorService.generateCompleteDocument
        (HtmlGeneratorService.optimizeForATS f) none) := by
  refine ⟨?_, ?_, fun f => rfl⟩
  · intro world req markdownPath html hfile hopt hparse hval hl hn
    rw [handleCvGeneration_setContent world req markdownPath html hfile hparse hval,
      generatePdfFromHtml_setContent _ _ _ hl hn]
    rcases hopt with h | h <;> rw [h] <;> rfl
  · intro world inputPath outputPath html hex hmd hparse hval hl hn
    have hmd2 : endsWith inputPath ".md".toList = true := List.isSuffixOf_iff_suffix.mpr hmd
    rw [generateCvPdf_setContent world inputPath outputPath html hex hmd2 hparse hval,
      generatePdfFromHtml_setContent _ _ _ hl hn]
    rfl

/-- Witness for C15 as amended: the sample environment, an upload stored as
`/uploads/cv-1.md` for the server, and the files `/home/cv.md` and `cv.pdf` for the command
line tool. -/
theorem pipeline_order_per_entry_point_witness :
    (CvGeneratorServer.handleCvGeneration World.sample
        ⟨some "/uploads/cv-1.md".toList, .undefined⟩).trace.filter Event.isSetContent =
      [.setContent
        (HtmlGeneratorService.optimizeForATS
          (HtmlGeneratorService.generateCompleteDocument "# Hello".toList none))
        (.object PAGE_CONFIG)] ∧
    (CvGenerator.generateCvPdf World.sample "/home/cv.md".toList
        "cv.pdf".toList).trace.filter Event.isSetContent =
      [.setContent
        (HtmlGeneratorService.generateCompleteDocument
          (HtmlGeneratorService.optimizeForATS "# Hello".toList) none)
        (.object PAGE_CONFIG)] :=
  ⟨pipeline_order_per_entry_point.1 World.sample ⟨some "/uploads/cv-1.md".toList, .undefined⟩
      "/uploads/cv-1.md".toList "# Hello".toList rfl (Or.inl rfl) rfl rfl rfl rfl,
    pipeline_order_per_entry_point.2.1 World.sample "/home/cv.md".toList "cv.pdf".toList
      "# Hello".toList rfl (by decide) rfl rfl rfl rfl⟩

/-- C15 fails as stated: in the sample run of the command line tool the document handed to
`page.setContent` is `generateCompleteDocument(optimizeForATS(fragment))`, which is not
`optimizeForATS(generateCompleteDocument(fragment))`. -/
theorem pipeline_order_counterexample :
    (CvGenerator.generateCvPdf World.sample "/home/cv.md".toList
        "cv.pdf".toList).trace.filter Event.isSetContent =
      [.setContent (CvGenerator._generateHtmlDocument "# Hello".toList)
        (.object PAGE_CONFIG)] ∧
    CvGenerator._generateHtmlDocument "# Hello".toList ≠
      HtmlGeneratorService.optimizeForATS
        (HtmlGeneratorService.generateCompleteDocument "# Hello".toList none) := by
  refine ⟨?_, generateCompleteDocument_ne_optimizeForATS _ _ none⟩
  rw [generateCvPdf_setContent World.sample "/home/cv.md".toList "cv.pdf".toList
      "# Hello".toList rfl (by decide) rfl rfl,
    generatePdfFromHtml_setContent _ _ _ rfl rfl]

/-! ## The layers of the stylesheet -/

theorem zipWith_map_same {α β γ : Type} (f : α → β → γ) (g : α → β) :
    ∀ l : List α, List.zipWith f l (l.map g) = l.map (fun a => f a (g a)) := by
  intro l
  induction l with
  | nil => rfl
  | cons a l ih => simp only [List.map_cons, List.zipWith_cons_cons, ih]

theorem firstIndicesFrom_eq_map (qs : List JsString) :
    ∀ (s : JsString) (i : Nat),
      firstIndicesFrom qs i s = qs.map (fun q => indexOfFrom q i s) := by
  intro s
  induction s with
  | nil => intro i; rfl
  | cons c cs ih =>
    intro i
    show List.zipWith _ qs (firstIndicesFrom qs (i + 1) cs) = _
    rw [ih (i + 1), zipWith_map_same]
    rfl

set_option maxRecDepth 1000000 in
theorem stylesheet_first_indices :
    firstIndicesFrom
      [ "* \x7b".toList, "h1 \x7b".toList, "body > p:first-of-type".toList, "p \x7b".toList,
        "ul \x7b".toList, "h2:contains(\"Professional Summary\")".toList,
        "@media print".toList, ".contact-info".toList ] 0
      StyleGeneratorService.generateProfessionalStyles =
      [some 26, some 510, some 1419, some 1940, some 2292, some 2537, some 3055, some 3817] := by
  decide!

theorem stylesheet_template :
    StyleGeneratorService.generateProfessionalStyles =
      "\n".toList ++
        (StyleGeneratorService.ruleGroups.map
          (fun g => "            ".toList ++ g ++ "\n".toList)).flatten ++
        "        ".toList := by
  simp only [StyleGeneratorService.generateProfessionalStyles, StyleGeneratorService.ruleGroups,
    List.map_cons, List.map_nil, List.flatten, List.append_assoc, List.append_nil]

set_option maxRecDepth 1000000 in
theorem stylesheet_rule_preludes :
    rulePreludes StyleGeneratorService._generateBaseStyles = ["*".toList, "body".toList] ∧
    rulePreludes StyleGeneratorService._generateHeaderStyles =
      ["h1".toList, "h2".toList, "h3".toList] ∧
    rulePreludes StyleGeneratorService._generateSectionStyles =
      ["body > p:first-of-type".toList, "h3 + p strong".toList, "hr".toList] ∧
    rulePreludes StyleGeneratorService._generateTextStyles =
      ["p".toList, "strong".toList, "em".toList] ∧
    rulePreludes StyleGeneratorService._generateListStyles = ["ul".toList, "li".toList] ∧
    rulePreludes StyleGeneratorService._generateSpecialSectionStyles =
      [ "h2:contains(\"Professional Summary\") + p, h2:contains(\"Summary\") + p".toList,
        ("h2:contains(\"Education\") + h3, h2:contains(\"Certifications\") + h3, ".toList ++
          "h2:contains(\"Projects\") + h3".toList) ] ∧
    rulePreludes StyleGeneratorService._generatePrintStyles =
      [ "@media print".toList, "body".toList, "h1".toList, "h2".toList, "h3".toList,
        "p, li".toList, ".page-break".toList ] ∧
    rulePreludes StyleGeneratorService._generateATSOptimizedStyles =
      [ ".contact-info".toList, ".section".toList, ".job-title".toList,
        ".company-info".toList, ".achievement".toList ] := by
  refine ⟨by decide, by decide, by decide, by decide, by decide, by decide, by decide,
    by decide⟩

/-- C16, as amended: the stylesheet is a line break, then eight rule groups in the order base
reset, header rules, section-specific rules, text rules, list rules, special-section rules,
print-media rules, utility classes (each on a line of its own, indented by twelve spaces),
then eight spaces.  The rules of the groups are, in this order: `*`, `body`; `h1`, `h2`, `h3`;
`body > p:first-of-type`, `h3 + p strong`, `hr`; `p`, `strong`, `em` (the text rules);
`ul`, `li`; the two rules keyed by `h2:contains(...)`; `@media print`, `body`, `h1`, `h2`,
`h3`, `p, li`, `.page-break`; `.contact-info`, `.section`, `.job-title`, `.company-info`,
`.achievement`.  The first occurrences of the rules that open the eight
groups are at the strictly increasing positions 26, 510, 1419, 1940, 2292, 2537, 3055,
3817. -/
theorem stylesheet_layer_order :
    StyleGeneratorService.generateProfessionalStyles =
      "\n".toList ++
        (([ StyleGeneratorService._generateBaseStyles,
            StyleGeneratorService._generateHeaderStyles,
            StyleGeneratorService._generateSectionStyles,
            StyleGeneratorService._generateTextStyles,
            StyleGeneratorService._generateListStyles,
            StyleGeneratorService._generateSpecialSectionStyles,
            StyleGeneratorService._generatePrintStyles,
            StyleGeneratorService._generateATSOptimizedStyles ] : List JsString).map
          (fun g => "            ".toList ++ g ++ "\n".toList)).flatten ++
        "        ".toList ∧
    ([ StyleGeneratorService._generateBaseStyles,
       StyleGeneratorService._generateHeaderStyles,
       StyleGeneratorService._generateSectionStyles,
       StyleGeneratorService._generateTextStyles,
       StyleGeneratorService._generateListStyles,
       StyleGeneratorService._generateSpecialSectionStyles,
       StyleGeneratorService._generatePrintStyles,
       StyleGeneratorService._generateATSOptimizedStyles ] : List JsString).map rulePreludes =
      [ ["*".toList, "body".toList],
        ["h1".toList, "h2".toList, "h3".toList],
        ["body > p:first-of-type".toList, "h3 + p strong".toList, "hr".toList],
        ["p".toList, "strong".toList, "em".toList],
        ["ul".toList, "li".toList],
        [ "h2:contains(\"Professional Summary\") + p, h2:contains(\"Summary\") + p".toList,
          ("h2:contains(\"Education\") + h3, h2:contains(\"Certifications\") + h3, ".toList ++
            "h2:contains(\"Projects\") + h3".toList) ],
        [ "@media print".toList, "body".toList, "h1".toList, "h2".toList, "h3".toList,
          "p, li".toList, ".page-break".toList ],
        [ ".contact-info".toList, ".section".toList, ".job-title".toList,
          ".company-info".toList, ".achievement".toList ] ] ∧
    indexOf "* \x7b".toList StyleGeneratorService.generateProfessionalStyles = some 26 ∧
    indexOf "h1 \x7b".toList StyleGeneratorService.generateProfessionalStyles = some 510 ∧
    indexOf "body > p:first-of-type".toList StyleGeneratorService.generateProfessionalStyles =
      some 1419 ∧
    indexOf "p \x7b".toList StyleGeneratorService.generateProfessionalStyles = some 1940 ∧
    indexOf "ul \x7b".toList StyleGeneratorService.generateProfessionalStyles = some 2292 ∧
    indexOf "h2:contains(\"Professional Summary\")".toList
      StyleGeneratorService.generateProfessionalStyles = some 2537 ∧
    indexOf "@media print".toList StyleGeneratorService.generateProfessionalStyles =
      some 3055 ∧
    indexOf ".contact-info".toList StyleGeneratorService.generateProfessionalStyles =
      some 3817 ∧
    List.Pairwise (fun a b : Nat => a < b) [26, 510, 1419, 1940, 2292, 2537, 3055, 3817] := by
  have h := stylesheet_first_indices
  rw [firstIndicesFrom_eq_map] at h
  simp only [List.map_cons, List.map_nil, List.cons.injEq, and_true] at h
  obtain ⟨h1, h2, h3, h4, h5, h6, h7, h8⟩ := h
  obtain ⟨p1, p2, p3, p4, p5, p6, p7, p8⟩ := stylesheet_rule_preludes
  refine ⟨stylesheet_template, ?_, h1, h2, h3, h4, h5, h6, h7, h8, by decide⟩
  rw [List.map_cons, List.map_cons, List.map_cons, List.map_cons, List.map_cons, List.map_cons,
    List.map_cons, List.map_cons, List.map_nil, p1, p2, p3, p4, p5, p6, p7, p8]

/-- C16 fails as stated: the stylesheet interpolates eight rule groups, and the fourth, the
text rules of `_generateTextStyles`, is none of the seven layers of the claim. -/
theorem stylesheet_layer_order_counterexample :
    StyleGeneratorService.generateProfessionalStyles =
      "\n".toList ++
        (StyleGeneratorService.ruleGroups.map
          (fun g => "            ".toList ++ g ++ "\n".toList)).flatten ++
        "        ".toList ∧
    StyleGeneratorService.ruleGroups.length = 8 ∧
    StyleGeneratorService.ruleGroups.get? 3 = some StyleGeneratorService._generateTextStyles ∧
    StyleGeneratorService._generateTextStyles ∉
      ([ StyleGeneratorService._generateBaseStyles,
         StyleGeneratorService._generateHeaderStyles,
         StyleGeneratorService._generateSectionStyles,
         StyleGeneratorService._generateListStyles,
         StyleGeneratorService._generateSpecialSectionStyles,
         StyleGeneratorService._generatePrintStyles,
         StyleGeneratorService._generateATSOptimizedStyles ] : List JsString) :=
  ⟨stylesheet_template, rfl, rfl, by decide⟩

/-! ## Determinism of the stylesheet -/

theorem TemplatePart.eval_congr {a1 a2 : Ambient} (p : TemplatePart)
    (hp : p.readsAmbient = false)
    (ht : ∀ r ∈ p.tokensRead, a1.tokens.read r = a2.tokens.read r) :
    p.eval a1 = p.eval a2 := by
  cases p with
  | text s => rfl
  | token r => exact ht r (List.mem_singleton.mpr rfl)
  | dateNow => cases hp
  | random => cases hp
  | state => cases hp

theorem evalTemplate_congr {a1 a2 : Ambient} :
    ∀ ps : List TemplatePart, (∀ p ∈ ps, p.readsAmbient = false) →
      (∀ p ∈ ps, ∀ r ∈ p.tokensRead, a1.tokens.read r = a2.tokens.read r) →
      evalTemplate a1 ps = evalTemplate a2 ps := by
  intro ps
  induction ps with
  | nil => intro _ _; rfl
  | cons p ps ih =>
    intro hp ht
    have h1 := TemplatePart.eval_congr p (hp p (List.mem_cons_self _ _))
      (ht p (List.mem_cons_self _ _))
    have h2 := ih (fun q hq => hp q (List.mem_cons_of_mem _ hq))
      (fun q hq => ht q (List.mem_cons_of_mem _ hq))
    unfold evalTemplate at h2 ⊢
    rw [List.map_cons, List.map_cons, List.flatten_cons, List.flatten_cons, h1, h2]

theorem evalTemplate_append (a : Ambient) (ps qs : List TemplatePart) :
    evalTemplate a (ps ++ qs) = evalTemplate a ps ++ evalTemplate a qs := by
  unfold evalTemplate
  rw [List.map_append, List.flatten_append]

theorem flatten_eval_eq_evalTemplate (a : Ambient) :
    ∀ l : List StylesheetPart,
      (l.map (StylesheetPart.eval a)).flatten =
        evalTemplate a (l.map StylesheetPart.parts).flatten := by
  intro l
  induction l with
  | nil => rfl
  | cons sp l ih =>
    rw [List.map_cons, List.map_cons, List.flatten_cons, List.flatten_cons, evalTemplate_append,
      ih]
    cases sp with
    | part p =>
      show p.eval a ++ _ = (p.eval a ++ []) ++ _
      rw [List.append_nil]
    | call m => rfl

theorem generateProfessionalStylesIn_eq_evalTemplate (a : Ambient) :
    StyleGeneratorService.generateProfessionalStylesIn a =
      evalTemplate a StyleGeneratorService.partsEvaluated :=
  flatten_eval_eq_evalTemplate a _

set_option maxRecDepth 100000 in
theorem partsEvaluated_reads_no_ambient :
    StyleGeneratorService.partsEvaluated.all (fun p => !p.readsAmbient) = true := by
  decide

theorem mem_tokensRead_of_mem_partsEvaluated (p : TemplatePart)
    (hp : p ∈ StyleGeneratorService.partsEvaluated) (r : TokenRef) (hr : r ∈ p.tokensRead) :
    r ∈ StyleGeneratorService.tokensRead := by
  unfold StyleGeneratorService.tokensRead
  rw [List.mem_flatten]
  exact ⟨p.tokensRead, List.mem_map.mpr ⟨p, hp, rfl⟩, hr⟩

theorem generateProfessionalStylesIn_congr (a1 a2 : Ambient)
    (h : ∀ r ∈ StyleGeneratorService.tokensRead, a1.tokens.read r = a2.tokens.read r) :
    StyleGeneratorService.generateProfessionalStylesIn a1 =
      StyleGeneratorService.generateProfessionalStylesIn a2 := by
  rw [generateProfessionalStylesIn_eq_evalTemplate, generateProfessionalStylesIn_eq_evalTemplate]
  apply evalTemplate_congr
  · intro p hp
    have := List.all_eq_true.mp partsEvaluated_reads_no_ambient p hp
    cases hra : p.readsAmbient
    · rfl
    · rw [hra] at this
      exact absurd this (by decide)
  · intro p hp r hr
    exact h r (mem_tokensRead_of_mem_partsEvaluated p hp r hr)

set_option maxRecDepth 100000 in
theorem mem_tokensRead_iff (r : TokenRef) :
    r ∈ StyleGeneratorService.tokensRead ↔ r ≠ .FONTS .FALLBACK := by
  cases r with
  | COLORS k => cases k <;> decide
  | FONT_SIZES k => cases k <;> decide
  | SPACING k => cases k <;> decide
  | FONTS k => cases k <;> decide
  | LAYOUT k => cases k <;> decide

set_option maxRecDepth 100000 in
theorem generateProfessionalStylesIn_eq_From (a : Ambient) :
    StyleGeneratorService.generateProfessionalStylesIn a =
      StyleGeneratorService.generateProfessionalStylesFrom a.tokens := by
  simp only [StyleGeneratorService.generateProfessionalStylesIn,
    StyleGeneratorService.stylesheetTemplate, StyleGeneratorService.methodTemplate,
    StylesheetPart.eval, TemplatePart.eval, evalTemplate, StyleTokens.read, ColorTokens.read,
    FontSizeTokens.read, SpacingTokens.read, FontTokens.read, LayoutTokens.read,
    List.map_cons, List.map_nil, List.flatten_cons, List.flatten_nil,
    StyleGeneratorService.generateProfessionalStylesFrom,
    StyleGeneratorService._generateBaseStylesFrom,
    StyleGeneratorService._generateHeaderStylesFrom,
    StyleGeneratorService._generateSectionStylesFrom,
    StyleGeneratorService._generateTextStylesFrom,
    StyleGeneratorService._generateListStylesFrom,
    StyleGeneratorService._generateSpecialSectionStylesFrom,
    StyleGeneratorService._generatePrintStylesFrom,
    StyleGeneratorService._generateATSOptimizedStylesFrom,
    List.append_assoc, List.append_nil, List.nil_append]

/-- The property is not one that every template has: a template that interpolates the clock
evaluates differently in two ambients with the same design tokens. -/
theorem evalTemplate_dateNow_depends_on_clock (tokens : StyleTokens) :
    evalTemplate ⟨tokens, 1, [], []⟩ [.dateNow] ≠ evalTemplate ⟨tokens, 2, [], []⟩ [.dateNow] := by
  intro h
  have h2 : Nat.toDigits 10 1 ++ [] = Nat.toDigits 10 2 ++ [] := h
  exact absurd h2 (by decide)

/-- C17: stylesheet synthesis is deterministic.  No part of the nine template literals reads
the clock, the random source or state kept between invocations: every part is literal text or
a design token.  Hence two invocations in ambients with the same design tokens return the same
string, whatever the clock, the random source and the state are in each; the tokens read are
all tokens of the five tables except `FONTS.FALLBACK`, and two ambients that agree on those
give the same string.  The evaluation of the templates is the method as embedded: at the
tables of `constants/styling.js` it is `generateProfessionalStyles`. -/
theorem stylesheet_deterministic :
    (∀ a1 a2 : Ambient, a1.tokens = a2.tokens →
      StyleGeneratorService.generateProfessionalStylesIn a1 =
        StyleGeneratorService.generateProfessionalStylesIn a2) ∧
    (∀ a1 a2 : Ambient,
      (∀ r : TokenRef, r ≠ .FONTS .FALLBACK → a1.tokens.read r = a2.tokens.read r) →
      StyleGeneratorService.generateProfessionalStylesIn a1 =
        StyleGeneratorService.generateProfessionalStylesIn a2) ∧
    StyleGeneratorService.partsEvaluated.all (fun p => !p.readsAmbient) = true ∧
    (∀ r : TokenRef, r ∈ StyleGeneratorService.tokensRead ↔ r ≠ .FONTS .FALLBACK) ∧
    (∀ a : Ambient, StyleGeneratorService.generateProfessionalStylesIn a =
      StyleGeneratorService.generateProfessionalStylesFrom a.tokens) ∧
    (∀ a : Ambient, a.tokens = StyleTokens.source →
      StyleGeneratorService.generateProfessionalStylesIn a =
        StyleGeneratorService.generateProfessionalStyles) := by
  refine ⟨?_, ?_, partsEvaluated_reads_no_ambient, mem_tokensRead_iff,
    generateProfessionalStylesIn_eq_From, ?_⟩
  · intro a1 a2 h
    apply generateProfessionalStylesIn_congr
    intro r _
    rw [h]
  · intro a1 a2 h
    apply generateProfessionalStylesIn_congr
    intro r hr
    exact h r ((mem_tokensRead_iff r).mp hr)
  · intro a h
    rw [generateProfessionalStylesIn_eq_From, h]
    rfl

/-- Witness for C17: two ambients with the tables of the source that differ in the clock, the
random source and the state. -/
theorem stylesheet_deterministic_witness :
    (⟨StyleTokens.source, 0, "0.25".toList, []⟩ : Ambient).tokens =
      (⟨StyleTokens.source, 1700000000000, "0.75".toList, "x".toList⟩ : Ambient).tokens ∧
    StyleGeneratorService.generateProfessionalStylesIn
        ⟨StyleTokens.source, 0, "0.25".toList, []⟩ =
      StyleGeneratorService.generateProfessionalStylesIn
        ⟨StyleTokens.source, 1700000000000, "0.75".toList, "x".toList⟩ ∧
    StyleGeneratorService.generateProfessionalStylesIn
        ⟨StyleTokens.source, 1700000000000, "0.75".toList, "x".toList⟩ =
      StyleGeneratorService.generateProfessionalStyles :=
  ⟨rfl,
    stylesheet_deterministic.1 ⟨StyleTokens.source, 0, "0.25".toList, []⟩
      ⟨StyleTokens.source, 1700000000000, "0.75".toList, "x".toList⟩ rfl,
    stylesheet_deterministic.2.2.2.2.2
      ⟨StyleTokens.source, 1700000000000, "0.75".toList, "x".toList⟩ rfl⟩

/-! ## Input acquisition -/

/-- C18, as amended: `validateMarkdownFile` returns only for existing paths that end in `.md`;
the upload filter accepts a file exactly when its MIME type is `text/markdown` or its
original name ends in `.md`, so the original name of an accepted upload need not end in
`.md`; the name under which an upload is stored always ends in `.md`. -/
theorem markdown_inputs_accepted :
    (∀ (world : World) (filePath : JsString) (b : Bool),
      (validateMarkdownFile world filePath).result = .ok b →
      ".md".toList <:+ filePath ∧ world.existsSync filePath = true ∧ b = true) ∧
    (∀ file : UploadedFile,
      CvGeneratorServer.fileFilter file = .ok true ↔
        file.mimetype = "text/markdown".toList ∨ ".md".toList <:+ file.originalname) ∧
    (∀ file : UploadedFile,
      ¬ (file.mimetype = "text/markdown".toList ∨ ".md".toList <:+ file.originalname) →
      CvGeneratorServer.fileFilter file = .error ⟨"Only markdown files are allowed".toList⟩) ∧
    (∀ dateNow random : Nat,
      ".md".toList <:+ CvGeneratorServer.storageFilename dateNow random) := by
  refine ⟨?_, ?_, ?_, ?_⟩
  · intro world filePath b h
    unfold validateMarkdownFile Run.emit Run.throw at h
    cases hex : world.existsSync filePath
    · rw [hex] at h
      cases h
    · cases hmd : endsWith filePath ".md".toList
      · rw [hex, hmd] at h
        cases h
      · rw [hex, hmd] at h
        have hb : (Except.ok true : Except JsError Bool) = .ok b := h
        injection hb with hb2
        exact ⟨List.isSuffixOf_iff_suffix.mp hmd, rfl, hb2.symm⟩
  · intro file
    unfold CvGeneratorServer.fileFilter
    cases hm : (file.mimetype == "text/markdown".toList)
    · have hne : ¬ file.mimetype = "text/markdown".toList := by
        intro h
        rw [h] at hm
        exact absurd hm (by decide)
      cases hmd : endsWith file.originalname ".md".toList
      · have hns : ¬ ".md".toList <:+ file.originalname := by
          intro hs
          rw [endsWith, List.isSuffixOf_iff_suffix.mpr hs] at hmd
          exact Bool.noConfusion hmd
        constructor
        · intro h; cases h
        · rintro (h | h)
          · exact absurd h hne
          · exact absurd h hns
      · exact ⟨fun _ => Or.inr (List.isSuffixOf_iff_suffix.mp hmd), fun _ => rfl⟩
    · exact ⟨fun _ => Or.inl (eq_of_beq hm), fun _ => rfl⟩
  · intro file hn
    unfold CvGeneratorServer.fileFilter
    have h1 : (file.mimetype == "text/markdown".toList) = false := by
      rw [Bool.eq_false_iff]
      intro h
      exact hn (Or.inl (eq_of_beq h))
    have h2 : endsWith file.originalname ".md".toList = false := by
      rw [Bool.eq_false_iff]
      intro h
      exact hn (Or.inr (List.isSuffixOf_iff_suffix.mp h))
    rw [h1, h2]
    rfl
  · intro dateNow random
    exact ⟨"cv-".toList ++ ((Nat.repr dateNow).toList ++ "-".toList ++
      (Nat.repr random).toList), by
        simp only [CvGeneratorServer.storageFilename, List.append_assoc]⟩

/-- Witness for C18 as amended: the path `/home/cv.md` in the sample environment. -/
theorem markdown_inputs_accepted_witness :
    (validateMarkdownFile World.sample "/home/cv.md".toList).result = .ok true ∧
    ".md".toList <:+ "/home/cv.md".toList ∧
    CvGeneratorServer.fileFilter ⟨"image/png".toList, "photo.png".toList⟩ =
      .error ⟨"Only markdown files are allowed".toList⟩ :=
  ⟨rfl,
    (markdown_inputs_accepted.1 World.sample "/home/cv.md".toList true rfl).1,
    markdown_inputs_accepted.2.2.1 ⟨"image/png".toList, "photo.png".toList⟩ (by decide)⟩

/-- C18 fails as stated: the upload filter accepts a file of MIME type `text/markdown` whose
original name is `notes.txt`. -/
theorem file_filter_counterexample :
    CvGeneratorServer.fileFilter ⟨"text/markdown".toList, "notes.txt".toList⟩ = .ok true ∧
    ¬ ".md".toList <:+ "notes.txt".toList :=
  ⟨rfl, by decide⟩

/-! ## Tag balance -/

/-- C20: `optimizeForATS` does not preserve tag balance.  On the balanced input
`<strong class="x">a</strong>` the opening tag is kept and the closing tag is rewritten, so
that the output has one `</b>` and no `<b>`; tags without attributes in lower case are
rewritten on both sides, and upper-case tags are kept. -/
theorem optimizeForATS_breaks_tag_balance :
    HtmlGeneratorService.optimizeForATS "<strong class=\"x\">a</strong>".toList =
      "<strong class=\"x\">a</b>".toList ∧
    countOccurrences "</b>".toList
      (HtmlGeneratorService.optimizeForATS "<strong class=\"x\">a</strong>".toList) = 1 ∧
    countOccurrences "<b>".toList
      (HtmlGeneratorService.optimizeForATS "<strong class=\"x\">a</strong>".toList) = 0 ∧
    countOccurrences "<strong".toList "<strong class=\"x\">a</strong>".toList = 1 ∧
    countOccurrences "</strong>".toList "<strong class=\"x\">a</strong>".toList = 1 ∧
    HtmlGeneratorService.optimizeForATS "<strong>a</strong>".toList = "<b>a</b>".toList ∧
    HtmlGeneratorService.optimizeForATS "<STRONG>a</STRONG>".toList =
      "<STRONG>a</STRONG>".toList := by
  refine ⟨by decide, by decide, by decide, by decide, by decide, by decide, by decide⟩

/-! ## Normalizing before or after assembly -/

theorem collapseFrom_append_state :
    ∀ (s : JsString) (b : Bool),
      ∃ b2 : Bool, ∀ t : JsString,
        collapseFrom b (s ++ t) = collapseFrom b s ++ collapseFrom b2 t := by
  intro s
  induction s with
  | nil =>
    intro b
    exact ⟨b, fun t => by rw [List.nil_append, collapseFrom_nil, List.nil_append]⟩
  | cons c s ih =>
    intro b
    by_cases hc : isJsWhitespace c = true
    · obtain ⟨b2, h2⟩ := ih true
      cases b with
      | true =>
        exact ⟨b2, fun t => by rw [List.cons_append, collapseFrom_true_cons_ws _ hc,
          collapseFrom_true_cons_ws _ hc, h2 t]⟩
      | false =>
        exact ⟨b2, fun t => by rw [List.cons_append, collapseFrom_false_cons_ws _ hc,
          collapseFrom_false_cons_ws _ hc, h2 t, List.cons_append]⟩
    · obtain ⟨b2, h2⟩ := ih false
      exact ⟨b2, fun t => by rw [List.cons_append, collapseFrom_cons_not_ws b _ hc,
        collapseFrom_cons_not_ws b _ hc, h2 t, List.cons_append]⟩

theorem collapseFrom_true_twice (s : JsString) :
    collapseFrom true (collapseFrom true s) = collapseFrom true s :=
  collapseFrom_eq_self _ true
    ⟨fun c hc => collapseFrom_ws_eq_space s true c hc, (collapseFrom_chain s true).1⟩
    (fun _ => (collapseFrom_chain s true).2 rfl)

theorem trim_collapse_eq (s : JsString) :
    trim (collapseWhitespace s) = (collapseFrom true s).rdropWhile isJsWhitespace := by
  unfold trim collapseWhitespace
  rw [collapseFrom_true_head_dropWhile]

theorem trim_collapse_all_ws (w : JsString) (hw : ∀ c ∈ w, isJsWhitespace c = true) :
    trim (collapseWhitespace w) = [] := by
  have h := trim_collapse_trailing_run [] w hw
  rw [List.nil_append] at h
  rw [h]
  rfl

theorem collapseFrom_false_run_then_ws (q : JsString) (c : Char)
    (hc : isJsWhitespace c = true) (w : JsString) (hw : ∀ x ∈ w, isJsWhitespace x = true) :
    collapseFrom false (w ++ c :: q) = ' ' :: collapseFrom true q := by
  cases w with
  | nil => rw [List.nil_append, collapseFrom_false_cons_ws _ hc]
  | cons r rs =>
    rw [List.cons_append, collapseFrom_false_cons_ws _ (hw r (List.mem_cons_self _ _)),
      collapseFrom_true_run_append (c :: q) rs (fun x hx => hw x (List.mem_cons_of_mem _ hx)),
      collapseFrom_true_cons_ws _ hc]

theorem collapseFrom_true_inner_normalized (y q : JsString) (c : Char)
    (hc : isJsWhitespace c = true) :
    collapseFrom true (trim (collapseWhitespace y) ++ c :: q) =
      collapseFrom true (y ++ c :: q) := by
  by_cases hy : ∃ x ∈ y, ¬ isJsWhitespace x = true
  · obtain ⟨s1, d, run, hs, hd, hrun⟩ := exists_last_not_ws y hy
    have hL : collapseFrom true (trim (collapseWhitespace y) ++ c :: q) =
        collapseFrom true s1 ++ d :: ' ' :: collapseFrom true q := by
      rw [hs, trim_collapse_decomposed s1 d run hd hrun, List.append_assoc,
        List.singleton_append, collapseFrom_append_cons_not_ws hd (c :: q) _ true,
        collapseFrom_true_twice, collapseFrom_false_cons_ws q hc]
    have hR : collapseFrom true (y ++ c :: q) =
        collapseFrom true s1 ++ d :: ' ' :: collapseFrom true q := by
      rw [hs, List.append_assoc, List.cons_append,
        collapseFrom_append_cons_not_ws hd (run ++ c :: q) s1 true,
        collapseFrom_false_run_then_ws q c hc run hrun]
    rw [hL, hR]
  · have hall : ∀ x ∈ y, isJsWhitespace x = true := by
      intro x hx
      by_contra hn
      exact hy ⟨x, hx, hn⟩
    rw [trim_collapse_all_ws y hall, List.nil_append, collapseFrom_true_run_append _ y hall]

theorem trim_collapse_inner_normalized (p y q : JsString) (c1 c2 : Char)
    (h1 : isJsWhitespace c1 = true) (h2 : isJsWhitespace c2 = true) :
    trim (collapseWhitespace (p ++ c1 :: (trim (collapseWhitespace y) ++ c2 :: q))) =
      trim (collapseWhitespace (p ++ c1 :: (y ++ c2 :: q))) := by
  rw [trim_collapse_eq (p ++ c1 :: (trim (collapseWhitespace y) ++ c2 :: q)),
    trim_collapse_eq (p ++ c1 :: (y ++ c2 :: q))]
  obtain ⟨b2, hb2⟩ := collapseFrom_append_state p true
  rw [hb2, hb2]
  cases b2 with
  | true =>
    rw [collapseFrom_true_cons_ws _ h1, collapseFrom_true_cons_ws _ h1,
      collapseFrom_true_inner_normalized y q c2 h2]
  | false =>
    rw [collapseFrom_false_cons_ws _ h1, collapseFrom_false_cons_ws _ h1,
      collapseFrom_true_inner_normalized y q c2 h2]

theorem rewriteTags_at_ws (u v : JsString) (b : Char) (hb : isJsWhitespace b = true) :
    HtmlGeneratorService.rewriteTags (u ++ b :: v) =
      HtmlGeneratorService.rewriteTags u ++ b :: HtmlGeneratorService.rewriteTags v := by
  have hn : ∀ p : JsString, (∀ c ∈ p, ¬ isJsWhitespace c = true) → b ∉ p :=
    fun p hp hm => hp b hm hb
  unfold HtmlGeneratorService.rewriteTags
  rw [replaceAll_at_char (p := "<strong>".toList) (by decide) (hn _ (by decide)) u v,
    replaceAll_at_char (p := "</strong>".toList) (by decide) (hn _ (by decide)) _ _,
    replaceAll_at_char (p := "<em>".toList) (by decide) (hn _ (by decide)) _ _,
    replaceAll_at_char (p := "</em>".toList) (by decide) (hn _ (by decide)) _ _]

theorem rewriteTags_optimizeForATS (x : JsString) :
    HtmlGeneratorService.rewriteTags (HtmlGeneratorService.optimizeForATS x) =
      HtmlGeneratorService.optimizeForATS x := by
  unfold HtmlGeneratorService.rewriteTags
  rw [replaceAll_eq_self _ (optimizeForATS_no_strong_open x),
    replaceAll_eq_self _ (optimizeForATS_no_strong_close x),
    replaceAll_eq_self _ (optimizeForATS_no_em_open x),
    replaceAll_eq_self _ (optimizeForATS_no_em_close x)]

theorem optimizeForATS_inner_normalized (p y q : JsString) (c1 c2 : Char)
    (h1 : isJsWhitespace c1 = true) (h2 : isJsWhitespace c2 = true) :
    HtmlGeneratorService.optimizeForATS
        (p ++ c1 :: (HtmlGeneratorService.optimizeForATS y ++ c2 :: q)) =
      HtmlGeneratorService.optimizeForATS (p ++ c1 :: (y ++ c2 :: q)) := by
  have e : ∀ x : JsString, HtmlGeneratorService.optimizeForATS x =
      trim (collapseWhitespace (HtmlGeneratorService.rewriteTags x)) := fun _ => rfl
  rw [e (p ++ c1 :: (HtmlGeneratorService.optimizeForATS y ++ c2 :: q)),
    e (p ++ c1 :: (y ++ c2 :: q)),
    rewriteTags_at_ws p (HtmlGeneratorService.optimizeForATS y ++ c2 :: q) c1 h1,
    rewriteTags_at_ws (HtmlGeneratorService.optimizeForATS y) q c2 h2,
    rewriteTags_at_ws p (y ++ c2 :: q) c1 h1,
    rewriteTags_at_ws y q c2 h2,
    rewriteTags_optimizeForATS y, e y]
  exact trim_collapse_inner_normalized _ _ _ c1 c2 h1 h2

theorem generateCompleteDocument_around_content (title : Option JsString) :
    ∃ pre post : JsString, ∀ f : JsString,
      HtmlGeneratorService.generateCompleteDocument f title =
        pre ++ ' ' :: (f ++ '\n' :: post) := by
  have h1 : documentBeforeContent = "</style>\n</head>\n<body>\n   ".toList ++ [' '] := by decide
  have h2 : documentAfterContent = '\n' :: "</body>\n</html>".toList := by decide
  refine ⟨documentBeforeTitle ++ (title.getD "Professional CV".toList ++ (documentBeforeStyles ++
      (StyleGeneratorService.generateProfessionalStyles ++ "</style>\n</head>\n<body>\n   ".toList))),
    "</body>\n</html>".toList, fun f => ?_⟩
  rw [generateCompleteDocument_eq, h1, h2]
  simp only [List.append_assoc, List.singleton_append]

/-- C19: normalizing before or after assembly agrees up to one final normalization.  For every
fragment `f` and every title, normalizing the document assembled from the normalized fragment
gives the same string as normalizing the document assembled from `f` itself; the two documents
that the entry points hand on, `generateCompleteDocument (optimizeForATS f)` (command line)
and `optimizeForATS (generateCompleteDocument f)` (server), are nevertheless different
strings. -/
theorem normalization_before_or_after_assembly (f : JsString) (title : Option JsString) :
    HtmlGeneratorService.optimizeForATS
        (HtmlGeneratorService.generateCompleteDocument
          (HtmlGeneratorService.optimizeForATS f) title) =
      HtmlGeneratorService.optimizeForATS
        (HtmlGeneratorService.generateCompleteDocument f title) ∧
    HtmlGeneratorService.generateCompleteDocument (HtmlGeneratorService.optimizeForATS f) title ≠
      HtmlGeneratorService.optimizeForATS
        (HtmlGeneratorService.generateCompleteDocument f title) := by
  obtain ⟨pre, post, h⟩ := generateCompleteDocument_around_content title
  refine ⟨?_, generateCompleteDocument_ne_optimizeForATS _ _ _⟩
  rw [h (HtmlGeneratorService.optimizeForATS f), h f]
  exact optimizeForATS_inner_normalized pre f post ' ' '\n' (by decide) (by decide)

/-! ## Errors of the markdown parser -/

theorem readFileContent_eq (world : World) (filePath : JsString) :
    readFileContent world filePath none =
      match world.readFileSync filePath "utf8".toList with
      | .ok text => ⟨[.readFileSync filePath "utf8".toList], .ok text⟩
      | .error e =>
        ⟨[.readFileSync filePath "utf8".toList],
          .error ⟨ERROR_MESSAGES.FILE_READ_ERROR e.message⟩⟩ := by
  unfold readFileContent Run.call Run.throw
  simp only [Option.getD_none]
  cases hr : world.readFileSync filePath "utf8".toList with
  | error e => simp only [Run.tryCatch_mk_error, List.append_nil]
  | ok text => simp only [Run.tryCatch_mk_ok]

theorem parseMarkdownFile_result (world : World) (filePath : JsString) :
    (MarkdownParserService.parseMarkdownFile world filePath).result =
      match (readFileContent world filePath none).result with
      | .error _ => .error ⟨ERROR_MESSAGES.CONTENT_PROCESSING_ERROR⟩
      | .ok text =>
        match world.marked text with
        | .error _ => .error ⟨ERROR_MESSAGES.CONTENT_PROCESSING_ERROR⟩
        | .ok html => .ok html := by
  unfold MarkdownParserService.parseMarkdownFile
  rw [readFileContent_eq]
  unfold Run.ofExcept Run.throw
  cases hr : world.readFileSync filePath "utf8".toList with
  | error e => simp only [Run.tryCatch_mk_error, Run.mk_error_bind]
  | ok text =>
    simp only [Run.mk_ok_bind]
    cases hm : world.marked text with
    | error e => simp only [Run.tryCatch_mk_error]
    | ok html => simp only [Run.tryCatch_mk_ok]

theorem file_read_message_ne_content_processing (detail : JsString) :
    ERROR_MESSAGES.FILE_READ_ERROR detail ≠ "Failed to process markdown content".toList := by
  intro h
  have h1 : ERROR_MESSAGES.FILE_READ_ERROR detail =
      'E' :: ("rror reading file: ".toList ++ detail) := rfl
  have h2 : "Failed to process markdown content".toList =
      'F' :: "ailed to process markdown content".toList := rfl
  rw [h1, h2] at h
  exact absurd (List.cons.inj h).1 (by decide)

/-- C21: `parseMarkdownFile` reports every failure as the content-processing error.  When
`readFileContent` throws, which it does exactly when `fs.readFileSync` throws (with the message
`Error reading file: ` followed by the message of that error), and when `marked` throws on the
content read, the call throws the error with the message `Failed to process markdown content`,
which is not the message of the read error; when neither throws it returns the output of
`marked` for the content read.  The file is read once, as `utf8`. -/
theorem parseMarkdownFile_reports_content_processing_error (world : World)
    (filePath : JsString) :
    (∀ e : JsError, (readFileContent world filePath none).result = .error e →
      (MarkdownParserService.parseMarkdownFile world filePath).result =
        .error ⟨"Failed to process markdown content".toList⟩ ∧
      e.message ≠ "Failed to process markdown content".toList) ∧
    (∀ (text : JsString) (e : JsError),
      (readFileContent world filePath none).result = .ok text →
      world.marked text = .error e →
      (MarkdownParserService.parseMarkdownFile world filePath).result =
        .error ⟨"Failed to process markdown content".toList⟩) ∧
    (∀ text html : JsString,
      (readFileContent world filePath none).result = .ok text →
      world.marked text = .ok html →
      (MarkdownParserService.parseMarkdownFile world filePath).result = .ok html) ∧
    (∀ e : JsError, world.readFileSync filePath "utf8".toList = .error e →
      (readFileContent world filePath none).result =
        .error ⟨"Error reading file: ".toList ++ e.message⟩) ∧
    (∀ text : JsString, world.readFileSync filePath "utf8".toList = .ok text →
      (readFileContent world filePath none).result = .ok text) ∧
    (MarkdownParserService.parseMarkdownFile world filePath).trace =
      [.readFileSync filePath "utf8".toList] ∧
    ERROR_MESSAGES.CONTENT_PROCESSING_ERROR = "Failed to process markdown content".toList := by
  refine ⟨?_, ?_, ?_, ?_, ?_, parseMarkdownFile_trace world filePath, rfl⟩
  · intro e he
    refine ⟨?_, ?_⟩
    · rw [parseMarkdownFile_result, he]
      rfl
    · rw [readFileContent_eq] at he
      cases hr : world.readFileSync filePath "utf8".toList with
      | ok text =>
        rw [hr] at he
        cases he
      | error e0 =>
        rw [hr] at he
        have h2 : (Except.error ⟨ERROR_MESSAGES.FILE_READ_ERROR e0.message⟩ :
            Except JsError JsString) = .error e := he
        injection h2 with h3
        rw [← h3]
        exact file_read_message_ne_content_processing e0.message
  · intro text e ht hm
    rw [parseMarkdownFile_result, ht]
    simp only [hm]
    rfl
  · intro text html ht hm
    rw [parseMarkdownFile_result, ht]
    simp only [hm]
  · intro e hr
    rw [readFileContent_eq, hr]
    rfl
  · intro text hr
    rw [readFileContent_eq, hr]

/-- Witness for C21: a file system in which the read fails with `ENOENT`, a markdown library
that throws, and the sample environment in which both succeed. -/
theorem parseMarkdownFile_reports_content_processing_error_witness :
    (readFileContent
      { World.sample with readFileSync := fun _ _ => .error ⟨"ENOENT".toList⟩ }
      "/home/cv.md".toList none).result = .error ⟨"Error reading file: ENOENT".toList⟩ ∧
    (MarkdownParserService.parseMarkdownFile
      { World.sample with readFileSync := fun _ _ => .error ⟨"ENOENT".toList⟩ }
      "/home/cv.md".toList).result = .error ⟨"Failed to process markdown content".toList⟩ ∧
    (readFileContent { World.sample with marked := fun _ => .error ⟨"bad input".toList⟩ }
      "/home/cv.md".toList none).result = .ok "# Hello".toList ∧
    (MarkdownParserService.parseMarkdownFile
      { World.sample with marked := fun _ => .error ⟨"bad input".toList⟩ }
      "/home/cv.md".toList).result = .error ⟨"Failed to process markdown content".toList⟩ ∧
    (readFileContent World.sample "/home/cv.md".toList none).result = .ok "# Hello".toList ∧
    World.sample.marked "# Hello".toList = .ok "# Hello".toList ∧
    (MarkdownParserService.parseMarkdownFile World.sample "/home/cv.md".toList).result =
      .ok "# Hello".toList :=
  ⟨rfl,
    ((parseMarkdownFile_reports_content_processing_error
      { World.sample with readFileSync := fun _ _ => .error ⟨"ENOENT".toList⟩ }
      "/home/cv.md".toList).1 ⟨"Error reading file: ENOENT".toList⟩ rfl).1,
    rfl,
    (parseMarkdownFile_reports_content_processing_error
      { World.sample with marked := fun _ => .error ⟨"bad input".toList⟩ }
      "/home/cv.md".toList).2.1 "# Hello".toList ⟨"bad input".toList⟩ rfl rfl,
    rfl, rfl,
    (parseMarkdownFile_reports_content_processing_error World.sample
      "/home/cv.md".toList).2.2.1 "# Hello".toList "# Hello".toList rfl rfl⟩
